import Mathlib

/-!
# Frame driver of the Vulkan renderer

A shallow embedding of `Application::render` (src/core/Application.cpp) together with the
parts of `Synchronization`, `CommandManager`, `PipelineManager`, `Pipeline` and `Buffer`
it calls; of the pipeline registry `PipelineManager` (src/renderer/PipelineManager.cpp) with
the constructors of `Shader` and `Pipeline` it uses and the config presets; of the
constructor and destructor of `Synchronization`; of `Application::run`, `cleanup` and the
`try` block of `main`; and of the device queries of `VulkanContext`
(src/renderer/VulkanContext.cpp).  One call of `render` is a function from the application
state and the answers the window and the graphics device give during that call to the new
state, the list of device calls issued (in order) and the way the call ended (normal return
or exception).

Conventions.  Handles are named by the index of the vector that holds them.  Calls whose
body is not part of the sources (`SwapChain::recreate`, `beginRenderPass`, `endRenderPass`) and
the calls into the graphics API are recorded as events and taken to return.  The remainder
`%` of `render` is the C++ one for a positive `maxFramesInFlight`.
-/

namespace VulkanGalaxy

/-! ## Handles and result codes -/

/-- The type `VkResult` of the graphics API: a signed 32-bit enumeration. -/
abbrev VkResult := Int

/-- Result code `VK_SUCCESS`. -/
def VK_SUCCESS : VkResult := 0

/-- Result code `VK_SUBOPTIMAL_KHR`. -/
def VK_SUBOPTIMAL_KHR : VkResult := 1000001003

/-- Result code `VK_ERROR_OUT_OF_DATE_KHR`. -/
def VK_ERROR_OUT_OF_DATE_KHR : VkResult := -1000001004

/-- Result code `VK_ERROR_DEVICE_LOST`. -/
def VK_ERROR_DEVICE_LOST : VkResult := -4

/-- Result code `VK_ERROR_OUT_OF_HOST_MEMORY`. -/
def VK_ERROR_OUT_OF_HOST_MEMORY : VkResult := -1

/-- Stage flag `VK_PIPELINE_STAGE_COLOR_ATTACHMENT_OUTPUT_BIT`. -/
def VK_PIPELINE_STAGE_COLOR_ATTACHMENT_OUTPUT_BIT : Nat := 0x400

/-- A semaphore owned by `Synchronization`, named by the vector that holds it and its index:
`imageAvailableSemaphores[frameIndex]` or `renderFinishedSemaphores[frameIndex]`. -/
inductive Semaphore where
  | imageAvailable (frameIndex : Nat)
  | renderFinished (frameIndex : Nat)
  deriving DecidableEq, Repr

/-- The fields of `VkSubmitInfo` that `render` fills in.  Command buffers are named by their
index in `CommandManager::commandBuffers`. -/
structure SubmitInfo where
  waitSemaphores : List Semaphore
  waitDstStageMask : List Nat
  commandBuffers : List Nat
  signalSemaphores : List Semaphore
  deriving DecidableEq, Repr

/-- The fields of `VkPresentInfoKHR` that `render` fills in (the only swap chain is the one of
the context). -/
structure PresentInfo where
  waitSemaphores : List Semaphore
  imageIndices : List Nat
  deriving DecidableEq, Repr

/-- A call issued by `render`, with the handles it is given.  Fences are named by their index
in `Synchronization::inFlightFences`, command buffers by their index in
`CommandManager::commandBuffers`, framebuffers by their index in
`SwapChain::getFramebuffers()`. -/
inductive Call where
  /-- Call `vkWaitForFences(device, 1, &inFlightFences[fence], VK_TRUE, UINT64_MAX)`. -/
  | waitForFences (fence : Nat)
  /-- Call `vkAcquireNextImageKHR(device, swapChain, UINT64_MAX, semaphore, VK_NULL_HANDLE, &imageIndex)`. -/
  | acquireNextImage (semaphore : Semaphore)
  /-- Call `SwapChain::recreate()`. -/
  | recreate
  /-- Call `vkResetFences(device, 1, &inFlightFences[fence])`. -/
  | resetFences (fence : Nat)
  /-- Call `vkResetCommandBuffer(commandBuffer, 0)`. -/
  | resetCommandBuffer (commandBuffer : Nat)
  /-- Call `vkBeginCommandBuffer(commandBuffer, &beginInfo)`. -/
  | beginCommandBuffer (commandBuffer : Nat)
  /-- Call `SwapChain::beginRenderPass(commandBuffer, getFramebuffers()[framebuffer])`. -/
  | beginRenderPass (commandBuffer : Nat) (framebuffer : Nat)
  /-- Call `vkCmdBindPipeline(commandBuffer, VK_PIPELINE_BIND_POINT_GRAPHICS, graphicsPipeline)`. -/
  | bindPipeline (commandBuffer : Nat) (graphicsPipeline : Nat)
  /-- Call `vkCmdBindVertexBuffers(commandBuffer, 0, 1, buffers, offsets)` with one offset. -/
  | bindVertexBuffers (commandBuffer : Nat) (offset : Nat)
  /-- Call `vkCmdBindIndexBuffer(commandBuffer, buffer, offset, VK_INDEX_TYPE_UINT16)`. -/
  | bindIndexBuffer (commandBuffer : Nat) (offset : Nat)
  /-- Call `vkCmdSetViewport` with origin (0, 0), depth range 0..1 and the given extent. -/
  | setViewport (commandBuffer : Nat) (width height : Nat)
  /-- Call `vkCmdSetScissor` with offset (0, 0) and the given extent. -/
  | setScissor (commandBuffer : Nat) (width height : Nat)
  /-- Call `vkCmdDraw(commandBuffer, vertexCount, instanceCount, firstVertex, firstInstance)`. -/
  | draw (commandBuffer : Nat) (vertexCount instanceCount firstVertex firstInstance : Nat)
  /-- Call `SwapChain::endRenderPass(commandBuffer)`. -/
  | endRenderPass (commandBuffer : Nat)
  /-- Call `vkEndCommandBuffer(commandBuffer)`. -/
  | endCommandBuffer (commandBuffer : Nat)
  /-- Call `vkQueueSubmit(graphicsQueue, 1, &submitInfo, inFlightFences[fence])`. -/
  | queueSubmit (info : SubmitInfo) (fence : Nat)
  /-- Call `vkQueuePresentKHR(presentQueue, &presentInfo)`. -/
  | queuePresent (info : PresentInfo)
  deriving DecidableEq, Repr

/-! ## Application state -/

/-- The constant `VK_FALSE` of type `VkBool32`. -/
def VK_FALSE : Nat := 0

/-- The constant `VK_TRUE` of type `VkBool32`. -/
def VK_TRUE : Nat := 1

/-- The constant `VK_PRIMITIVE_TOPOLOGY_TRIANGLE_LIST`. -/
def VK_PRIMITIVE_TOPOLOGY_TRIANGLE_LIST : Nat := 3

/-- The constant `VK_POLYGON_MODE_FILL`. -/
def VK_POLYGON_MODE_FILL : Nat := 0

/-- The constant `VK_CULL_MODE_NONE`. -/
def VK_CULL_MODE_NONE : Nat := 0

/-- The constant `VK_CULL_MODE_BACK_BIT`. -/
def VK_CULL_MODE_BACK_BIT : Nat := 2

/-- The constant `VK_FRONT_FACE_CLOCKWISE`. -/
def VK_FRONT_FACE_CLOCKWISE : Nat := 1

/-- The constant `VK_SAMPLE_COUNT_1_BIT`. -/
def VK_SAMPLE_COUNT_1_BIT : Nat := 1

/-- The constant `VK_COLOR_COMPONENT_R_BIT`. -/
def VK_COLOR_COMPONENT_R_BIT : Nat := 1

/-- The constant `VK_COLOR_COMPONENT_G_BIT`. -/
def VK_COLOR_COMPONENT_G_BIT : Nat := 2

/-- The constant `VK_COLOR_COMPONENT_B_BIT`. -/
def VK_COLOR_COMPONENT_B_BIT : Nat := 4

/-- The constant `VK_COLOR_COMPONENT_A_BIT`. -/
def VK_COLOR_COMPONENT_A_BIT : Nat := 8

/-- The constant `VK_BLEND_FACTOR_ZERO`. -/
def VK_BLEND_FACTOR_ZERO : Nat := 0

/-- The constant `VK_BLEND_FACTOR_ONE`. -/
def VK_BLEND_FACTOR_ONE : Nat := 1

/-- The constant `VK_BLEND_FACTOR_SRC_ALPHA`. -/
def VK_BLEND_FACTOR_SRC_ALPHA : Nat := 6

/-- The constant `VK_BLEND_FACTOR_ONE_MINUS_SRC_ALPHA`. -/
def VK_BLEND_FACTOR_ONE_MINUS_SRC_ALPHA : Nat := 7

/-- The constant `VK_BLEND_OP_ADD`. -/
def VK_BLEND_OP_ADD : Nat := 0

/-- The constant `VK_LOGIC_OP_COPY`. -/
def VK_LOGIC_OP_COPY : Nat := 3

/-- The constant `VK_COMPARE_OP_LESS`. -/
def VK_COMPARE_OP_LESS : Nat := 1

/-- The constant `VK_DYNAMIC_STATE_VIEWPORT`. -/
def VK_DYNAMIC_STATE_VIEWPORT : Nat := 0

/-- The constant `VK_DYNAMIC_STATE_SCISSOR`. -/
def VK_DYNAMIC_STATE_SCISSOR : Nat := 1

/-- The constant `VK_VERTEX_INPUT_RATE_VERTEX`. -/
def VK_VERTEX_INPUT_RATE_VERTEX : Nat := 0

/-- The constant `VK_FORMAT_R32G32_SFLOAT`. -/
def VK_FORMAT_R32G32_SFLOAT : Nat := 103

/-- The constant `VK_FORMAT_R32G32B32_SFLOAT`. -/
def VK_FORMAT_R32G32B32_SFLOAT : Nat := 106

/-- The constant `VK_STRUCTURE_TYPE_PIPELINE_INPUT_ASSEMBLY_STATE_CREATE_INFO`. -/
def VK_STRUCTURE_TYPE_PIPELINE_INPUT_ASSEMBLY_STATE_CREATE_INFO : Nat := 20

/-- The constant `VK_STRUCTURE_TYPE_PIPELINE_VIEWPORT_STATE_CREATE_INFO`. -/
def VK_STRUCTURE_TYPE_PIPELINE_VIEWPORT_STATE_CREATE_INFO : Nat := 22

/-- The constant `VK_STRUCTURE_TYPE_PIPELINE_RASTERIZATION_STATE_CREATE_INFO`. -/
def VK_STRUCTURE_TYPE_PIPELINE_RASTERIZATION_STATE_CREATE_INFO : Nat := 23

/-- The constant `VK_STRUCTURE_TYPE_PIPELINE_MULTISAMPLE_STATE_CREATE_INFO`. -/
def VK_STRUCTURE_TYPE_PIPELINE_MULTISAMPLE_STATE_CREATE_INFO : Nat := 24

/-- The constant `VK_STRUCTURE_TYPE_PIPELINE_DEPTH_STENCIL_STATE_CREATE_INFO`. -/
def VK_STRUCTURE_TYPE_PIPELINE_DEPTH_STENCIL_STATE_CREATE_INFO : Nat := 25

/-- The constant `VK_STRUCTURE_TYPE_PIPELINE_COLOR_BLEND_STATE_CREATE_INFO`. -/
def VK_STRUCTURE_TYPE_PIPELINE_COLOR_BLEND_STATE_CREATE_INFO : Nat := 26

/-- The constant `VK_STRUCTURE_TYPE_PIPELINE_DYNAMIC_STATE_CREATE_INFO`. -/
def VK_STRUCTURE_TYPE_PIPELINE_DYNAMIC_STATE_CREATE_INFO : Nat := 27

/-! ## Pipeline configuration

The state structures of a `PipelineConfigInfo`.  Every member starts at zero, as the `{}`
initializers of the C++ members leave it.  Enumerations, flags and `VkBool32` values are
numbers.  A `float` member is only ever assigned the literal 0.0f or 1.0f and never computed
with, and is kept as the integer the literal denotes.  Pointer members are left out:
`pViewports`, `pScissors` and `pSampleMask` are null, `pAttachments` and `pDynamicStates`
point at the config's own `colorBlendAttachment` and `dynamicStates`; so are `pNext`, `flags`
and the stencil states, which no function assigns. -/

/-- Structure `VkPipelineInputAssemblyStateCreateInfo`. -/
structure VkPipelineInputAssemblyStateCreateInfo where
  sType : Nat := 0
  topology : Nat := 0
  primitiveRestartEnable : Nat := 0
  deriving DecidableEq, Repr

/-- Structure `VkPipelineViewportStateCreateInfo`. -/
structure VkPipelineViewportStateCreateInfo where
  sType : Nat := 0
  viewportCount : Nat := 0
  scissorCount : Nat := 0
  deriving DecidableEq, Repr

/-- Structure `VkPipelineRasterizationStateCreateInfo`. -/
structure VkPipelineRasterizationStateCreateInfo where
  sType : Nat := 0
  depthClampEnable : Nat := 0
  rasterizerDiscardEnable : Nat := 0
  polygonMode : Nat := 0
  cullMode : Nat := 0
  frontFace : Nat := 0
  depthBiasEnable : Nat := 0
  /-- A `float`. -/
  depthBiasConstantFactor : Int := 0
  /-- A `float`. -/
  depthBiasClamp : Int := 0
  /-- A `float`. -/
  depthBiasSlopeFactor : Int := 0
  /-- A `float`. -/
  lineWidth : Int := 0
  deriving DecidableEq, Repr

/-- Structure `VkPipelineMultisampleStateCreateInfo`. -/
structure VkPipelineMultisampleStateCreateInfo where
  sType : Nat := 0
  rasterizationSamples : Nat := 0
  sampleShadingEnable : Nat := 0
  /-- A `float`. -/
  minSampleShading : Int := 0
  alphaToCoverageEnable : Nat := 0
  alphaToOneEnable : Nat := 0
  deriving DecidableEq, Repr

/-- Structure `VkPipelineColorBlendAttachmentState`. -/
structure VkPipelineColorBlendAttachmentState where
  blendEnable : Nat := 0
  srcColorBlendFactor : Nat := 0
  dstColorBlendFactor : Nat := 0
  colorBlendOp : Nat := 0
  srcAlphaBlendFactor : Nat := 0
  dstAlphaBlendFactor : Nat := 0
  alphaBlendOp : Nat := 0
  colorWriteMask : Nat := 0
  deriving DecidableEq, Repr

/-- Structure `VkPipelineColorBlendStateCreateInfo`. -/
structure VkPipelineColorBlendStateCreateInfo where
  sType : Nat := 0
  logicOpEnable : Nat := 0
  logicOp : Nat := 0
  attachmentCount : Nat := 0
  /-- The array `float blendConstants[4]`. -/
  blendConstants : List Int := [0, 0, 0, 0]
  deriving DecidableEq, Repr

/-- Structure `VkPipelineDepthStencilStateCreateInfo`. -/
structure VkPipelineDepthStencilStateCreateInfo where
  sType : Nat := 0
  depthTestEnable : Nat := 0
  depthWriteEnable : Nat := 0
  depthCompareOp : Nat := 0
  depthBoundsTestEnable : Nat := 0
  stencilTestEnable : Nat := 0
  /-- A `float`. -/
  minDepthBounds : Int := 0
  /-- A `float`. -/
  maxDepthBounds : Int := 0
  deriving DecidableEq, Repr

/-- Structure `VkPipelineDynamicStateCreateInfo`. -/
structure VkPipelineDynamicStateCreateInfo where
  sType : Nat := 0
  dynamicStateCount : Nat := 0
  deriving DecidableEq, Repr

/-- Structure `VkVertexInputBindingDescription`. -/
structure VkVertexInputBindingDescription where
  binding : Nat
  stride : Nat
  inputRate : Nat
  deriving DecidableEq, Repr

/-- Structure `VkVertexInputAttributeDescription`. -/
structure VkVertexInputAttributeDescription where
  location : Nat
  binding : Nat
  format : Nat
  offset : Nat
  deriving DecidableEq, Repr

/-- Structure `PipelineConfigInfo` (src/renderer/Pipeline.h).  A handle is a number, 0 being
`VK_NULL_HANDLE`.  The registry stores and copies a config as a whole; it overwrites
`pipelineLayout` and `renderPass` before building and looks at nothing else in it. -/
structure PipelineConfigInfo where
  /-- Member `pipelineLayout` (default `nullptr`). -/
  pipelineLayout : Nat
  /-- Member `renderPass` (default `nullptr`). -/
  renderPass : Nat
  /-- Member `subpass` (default 0). -/
  subpass : Nat
  inputAssemblyInfo : VkPipelineInputAssemblyStateCreateInfo := {}
  rasterizationInfo : VkPipelineRasterizationStateCreateInfo := {}
  multisampleInfo : VkPipelineMultisampleStateCreateInfo := {}
  colorBlendAttachment : VkPipelineColorBlendAttachmentState := {}
  colorBlendInfo : VkPipelineColorBlendStateCreateInfo := {}
  depthStencilInfo : VkPipelineDepthStencilStateCreateInfo := {}
  viewportInfo : VkPipelineViewportStateCreateInfo := {}
  dynamicStateInfo : VkPipelineDynamicStateCreateInfo := {}
  dynamicStates : List Nat := []
  bindingDescriptions : List VkVertexInputBindingDescription := []
  attributeDescriptions : List VkVertexInputAttributeDescription := []
  deriving DecidableEq, Repr

/-- The value `PipelineConfigInfo{}`, which `operator[]` of a config table gives for a name it
does not hold. -/
def PipelineConfigInfo.empty : PipelineConfigInfo :=
  { pipelineLayout := 0, renderPass := 0, subpass := 0 }

/-- Member `PipelineConfigInfo::enableDynamicStates`: store the list and record its size, as
a `uint32_t`, in `dynamicStateInfo`. -/
def PipelineConfigInfo.enableDynamicStates (configInfo : PipelineConfigInfo)
    (states : List Nat) : PipelineConfigInfo :=
  { configInfo with
    dynamicStates := states
    dynamicStateInfo :=
      { sType := VK_STRUCTURE_TYPE_PIPELINE_DYNAMIC_STATE_CREATE_INFO
        dynamicStateCount := states.length % 2 ^ 32 } }

/-- The enumeration `Shader::Type`. -/
inductive ShaderType where
  | Vertex
  | Fragment
  | Compute
  deriving DecidableEq, Repr

/-- A `Shader` object: its module handle and its type. -/
structure Shader where
  shaderModule : Nat
  type : ShaderType
  deriving DecidableEq, Repr

/-- The structure `PipelineManager::ShaderStages`. -/
structure ShaderStages where
  vertex : Shader
  fragment : Shader
  deriving DecidableEq, Repr

/-- A `Pipeline` object: the handle `graphicsPipeline` it binds, and what its constructor was
given and handed on to `vkCreateGraphicsPipelines` (the modules of the two shader stages and
the config, whose `pipelineLayout`, `renderPass` and `subpass` become those of the create
info). -/
structure Pipeline where
  graphicsPipeline : Nat
  /-- Module of `shaderStages[0]`, the vertex stage. -/
  vertexModule : Nat
  /-- Module of `shaderStages[1]`, the fragment stage. -/
  fragmentModule : Nat
  /-- The constructor argument `configInfo`. -/
  configInfo : PipelineConfigInfo
  deriving DecidableEq, Repr

/-- Function `Pipeline::defaultPipelineConfigInfo`. -/
def Pipeline.defaultPipelineConfigInfo : PipelineConfigInfo :=
  let configInfo : PipelineConfigInfo :=
    { PipelineConfigInfo.empty with
      inputAssemblyInfo :=
        { sType := VK_STRUCTURE_TYPE_PIPELINE_INPUT_ASSEMBLY_STATE_CREATE_INFO
          topology := VK_PRIMITIVE_TOPOLOGY_TRIANGLE_LIST
          primitiveRestartEnable := VK_FALSE }
      viewportInfo :=
        { sType := VK_STRUCTURE_TYPE_PIPELINE_VIEWPORT_STATE_CREATE_INFO
          viewportCount := 1
          scissorCount := 1 }
      rasterizationInfo :=
        { sType := VK_STRUCTURE_TYPE_PIPELINE_RASTERIZATION_STATE_CREATE_INFO
          depthClampEnable := VK_FALSE
          rasterizerDiscardEnable := VK_FALSE
          polygonMode := VK_POLYGON_MODE_FILL
          lineWidth := 1
          cullMode := VK_CULL_MODE_BACK_BIT
          frontFace := VK_FRONT_FACE_CLOCKWISE
          depthBiasEnable := VK_FALSE
          depthBiasConstantFactor := 0
          depthBiasClamp := 0
          depthBiasSlopeFactor := 0 }
      multisampleInfo :=
        { sType := VK_STRUCTURE_TYPE_PIPELINE_MULTISAMPLE_STATE_CREATE_INFO
          sampleShadingEnable := VK_FALSE
          rasterizationSamples := VK_SAMPLE_COUNT_1_BIT
          minSampleShading := 1
          alphaToCoverageEnable := VK_FALSE
          alphaToOneEnable := VK_FALSE }
      colorBlendAttachment :=
        { colorWriteMask :=
            VK_COLOR_COMPONENT_R_BIT ||| VK_COLOR_COMPONENT_G_BIT ||| VK_COLOR_COMPONENT_B_BIT |||
              VK_COLOR_COMPONENT_A_BIT
          blendEnable := VK_FALSE
          srcColorBlendFactor := VK_BLEND_FACTOR_ONE
          dstColorBlendFactor := VK_BLEND_FACTOR_ZERO
          colorBlendOp := VK_BLEND_OP_ADD
          srcAlphaBlendFactor := VK_BLEND_FACTOR_ONE
          dstAlphaBlendFactor := VK_BLEND_FACTOR_ZERO
          alphaBlendOp := VK_BLEND_OP_ADD }
      colorBlendInfo :=
        { sType := VK_STRUCTURE_TYPE_PIPELINE_COLOR_BLEND_STATE_CREATE_INFO
          logicOpEnable := VK_FALSE
          logicOp := VK_LOGIC_OP_COPY
          attachmentCount := 1
          blendConstants := [0, 0, 0, 0] }
      depthStencilInfo :=
        { sType := VK_STRUCTURE_TYPE_PIPELINE_DEPTH_STENCIL_STATE_CREATE_INFO
          depthTestEnable := VK_TRUE
          depthWriteEnable := VK_TRUE
          depthCompareOp := VK_COMPARE_OP_LESS
          depthBoundsTestEnable := VK_FALSE
          minDepthBounds := 0
          maxDepthBounds := 1
          stencilTestEnable := VK_FALSE } }
  configInfo.enableDynamicStates [VK_DYNAMIC_STATE_VIEWPORT, VK_DYNAMIC_STATE_SCISSOR]

/-- The five tables of `PipelineManager`, each a list of (name, value) entries looked up by
name.  The order of the entries is the order in which the table is iterated, which C++ leaves
unspecified. -/
structure PipelineManager where
  pipelines : List (String × Pipeline)
  shaderStages : List (String × ShaderStages)
  pipelineConfigs : List (String × PipelineConfigInfo)
  shaderPaths : List (String × (String × String))
  pipelineLayouts : List (String × Nat)
  deriving DecidableEq, Repr

/-- A registry right after construction: every table is empty. -/
def PipelineManager.empty : PipelineManager :=
  { pipelines := [], shaderStages := [], pipelineConfigs := [], shaderPaths := [],
    pipelineLayouts := [] }

/-- Member `PipelineManager::hasPipeline`: `pipelines.contains(name)`. -/
def PipelineManager.hasPipeline (pm : PipelineManager) (name : String) : Bool :=
  (pm.pipelines.lookup name).isSome

/-- Member `PipelineManager::getPipeline`: throws when the name is absent. -/
def PipelineManager.getPipeline (pm : PipelineManager) (name : String) : Except String Pipeline :=
  match pm.pipelines.lookup name with
  | none => .error ("Pipeline '" ++ name ++ "' not found")
  | some p => .ok p

/-- The members of `Application` (and of the `CommandManager` it reaches through the
context) that `render` reads or writes. -/
structure Application where
  /-- Field `config.maxFramesInFlight` (a `uint32_t`). -/
  maxFramesInFlight : Nat
  /-- Field `Application::currentFrame` (a `uint32_t`). -/
  currentFrame : Nat
  /-- Field `CommandManager::currentFrame`, written by `setCurrentFrame`. -/
  commandManagerFrame : Nat
  /-- Field `Application::pipelineManager` (`none` is the null pointer). -/
  pipelineManager : Option PipelineManager
  deriving DecidableEq, Repr

/-- What the window and the device answer during one call of `render`. -/
structure TickEnv where
  /-- Answer of `Window::isMinimized()`: the framebuffer has zero width or height. -/
  minimized : Bool
  /-- Result of `vkWaitForFences`; `Synchronization::waitForFence` discards it. -/
  waitResult : VkResult
  /-- Result of `vkAcquireNextImageKHR`. -/
  acquireResult : VkResult
  /-- The image index written by `vkAcquireNextImageKHR`. -/
  imageIndex : Nat
  /-- Result of `vkBeginCommandBuffer`. -/
  beginResult : VkResult
  /-- Width of `SwapChain::getExtent()`. -/
  extentWidth : Nat
  /-- Height of `SwapChain::getExtent()`. -/
  extentHeight : Nat
  /-- Result of `vkEndCommandBuffer`. -/
  endResult : VkResult
  /-- Result of `vkQueueSubmit`. -/
  submitResult : VkResult
  /-- Result of `vkQueuePresentKHR`. -/
  presentResult : VkResult
  deriving DecidableEq, Repr

/-- How a call ended: by returning, or by throwing `std::runtime_error(what)`. -/
inductive Outcome where
  | returned
  | threw (what : String)
  deriving DecidableEq, Repr

/-- The result of running code on the application: the state it leaves, the calls it issued
in order, and how it ended. -/
structure TickResult where
  app : Application
  calls : List Call
  outcome : Outcome
  deriving DecidableEq, Repr

/-- Function `PipelineManager::getDefaultConfig`. -/
def PipelineManager.getDefaultConfig : PipelineConfigInfo :=
  Pipeline.defaultPipelineConfigInfo

/-- Function `PipelineManager::getUIConfig`. -/
def PipelineManager.getUIConfig : PipelineConfigInfo :=
  let config := PipelineManager.getDefaultConfig
  let config := { config with
    rasterizationInfo := { config.rasterizationInfo with cullMode := VK_CULL_MODE_NONE } }
  { config with
    colorBlendAttachment := { config.colorBlendAttachment with
      blendEnable := VK_TRUE
      srcColorBlendFactor := VK_BLEND_FACTOR_SRC_ALPHA
      dstColorBlendFactor := VK_BLEND_FACTOR_ONE_MINUS_SRC_ALPHA
      colorBlendOp := VK_BLEND_OP_ADD
      srcAlphaBlendFactor := VK_BLEND_FACTOR_ONE
      dstAlphaBlendFactor := VK_BLEND_FACTOR_ZERO
      alphaBlendOp := VK_BLEND_OP_ADD } }

/-- Function `PipelineManager::getTransparentConfig`. -/
def PipelineManager.getTransparentConfig : PipelineConfigInfo :=
  let config := PipelineManager.getDefaultConfig
  let config := { config with
    colorBlendAttachment := { config.colorBlendAttachment with
      blendEnable := VK_TRUE
      srcColorBlendFactor := VK_BLEND_FACTOR_SRC_ALPHA
      dstColorBlendFactor := VK_BLEND_FACTOR_ONE_MINUS_SRC_ALPHA
      colorBlendOp := VK_BLEND_OP_ADD } }
  { config with
    depthStencilInfo := { config.depthStencilInfo with
      depthTestEnable := VK_TRUE
      depthWriteEnable := VK_FALSE } }

/-- Function `PipelineManager::getParticleConfig`. -/
def PipelineManager.getParticleConfig : PipelineConfigInfo :=
  let config := PipelineManager.getTransparentConfig
  config

/-- Function `Vertex::getBindingDescription`; `sizeof(Vertex)` is 20, a `glm::vec2` and a
`glm::vec3` of 32-bit floats. -/
def Vertex.getBindingDescription : VkVertexInputBindingDescription :=
  { binding := 0, stride := 20, inputRate := VK_VERTEX_INPUT_RATE_VERTEX }

/-- Function `Vertex::getAttributeDescriptions`; `offsetof(Vertex, pos)` is 0 and
`offsetof(Vertex, color)` is 8. -/
def Vertex.getAttributeDescriptions : List VkVertexInputAttributeDescription :=
  [ { binding := 0, location := 0, format := VK_FORMAT_R32G32_SFLOAT, offset := 0 },
    { binding := 0, location := 1, format := VK_FORMAT_R32G32B32_SFLOAT, offset := 8 } ]

/-- The config `basicConfig` of `Application::initVulkan`: the default preset with the
binding and attribute descriptions of `Vertex`. -/
def Application.basicConfig : PipelineConfigInfo :=
  { PipelineManager.getDefaultConfig with
    bindingDescriptions := [Vertex.getBindingDescription]
    attributeDescriptions := Vertex.getAttributeDescriptions }

/-- The state `Application::init` leaves when every step of it succeeds: `initVulkan` has
registered the pipeline "basic" by `createPipeline` with the two shader files and
`basicConfig`, which built the pipeline object `basic` and filled every table of the registry under
that name; the command manager starts at frame 0 and `currentFrame = 0`. -/
def Application.init (maxFramesInFlight : Nat) (basic : Pipeline) : Application :=
  { maxFramesInFlight := maxFramesInFlight
    currentFrame := 0
    commandManagerFrame := 0
    pipelineManager := some
      { pipelines := [("basic", basic)]
        shaderStages := [("basic", { vertex := ⟨basic.vertexModule, .Vertex⟩,
                                     fragment := ⟨basic.fragmentModule, .Fragment⟩ })]
        pipelineConfigs := [("basic", Application.basicConfig)]
        shaderPaths := [("basic", ("shaders/shader.vert.spv", "shaders/shader.frag.spv"))]
        pipelineLayouts := [("basic", basic.configInfo.pipelineLayout)] } }

/-- The block of `render` guarded by `pipelineManager && pipelineManager->hasPipeline("basic")`:
bind the pipeline and the two buffers, set viewport and scissor to the extent, draw. -/
def bindAndDraw (app : Application) (env : TickEnv) (commandBuffer : Nat) :
    Except String (List Call) :=
  match app.pipelineManager with
  | none => .ok []
  | some pm =>
    if pm.hasPipeline "basic" then
      match pm.getPipeline "basic" with
      | .error what => .error what
      | .ok pipeline =>
        .ok [ .bindPipeline commandBuffer pipeline.graphicsPipeline,
              .bindVertexBuffers commandBuffer 0,
              .bindIndexBuffer commandBuffer 1,
              .setViewport commandBuffer env.extentWidth env.extentHeight,
              .setScissor commandBuffer env.extentWidth env.extentHeight,
              .draw commandBuffer 3 1 0 0 ]
    else .ok []

/-- The submit info `render` builds for frame `frame` and command buffer `commandBuffer`. -/
def submitInfoFor (frame commandBuffer : Nat) : SubmitInfo :=
  { waitSemaphores := [.imageAvailable frame]
    waitDstStageMask := [VK_PIPELINE_STAGE_COLOR_ATTACHMENT_OUTPUT_BIT]
    commandBuffers := [commandBuffer]
    signalSemaphores := [.renderFinished frame] }

/-- The present info `render` builds for frame `frame`: it waits on the array
`signalSemaphores` of the submission and presents the acquired image. -/
def presentInfoFor (frame imageIndex : Nat) : PresentInfo :=
  { waitSemaphores := [.renderFinished frame]
    imageIndices := [imageIndex] }

/-- The last statement of `render`:
`currentFrame = (currentFrame + 1) % config.maxFramesInFlight` in 32-bit unsigned
arithmetic. -/
def Application.advance (app : Application) : Application :=
  { app with currentFrame := ((app.currentFrame + 1) % 2 ^ 32) % app.maxFramesInFlight }

/-- Function `Application::render`: one tick of the frame driver. -/
def render (app : Application) (env : TickEnv) : TickResult :=
  if env.minimized then
    ⟨app, [], .returned⟩
  else
    let frame := app.currentFrame
    -- synchronization->waitForFence(currentFrame); commandManager.setCurrentFrame(currentFrame)
    let app1 := { app with commandManagerFrame := frame }
    let c1 : List Call := [.waitForFences frame, .acquireNextImage (.imageAvailable frame)]
    if env.acquireResult = VK_ERROR_OUT_OF_DATE_KHR then
      ⟨app1, c1 ++ [.recreate], .returned⟩
    else if env.acquireResult ≠ VK_SUCCESS ∧ env.acquireResult ≠ VK_SUBOPTIMAL_KHR then
      ⟨app1, c1, .threw "Failed to acquire swap chain image"⟩
    else
      -- commandManager.getCurrentBuffer()
      let cb := app1.commandManagerFrame
      let c2 := c1 ++ [.resetFences frame, .resetCommandBuffer cb, .beginCommandBuffer cb]
      if env.beginResult ≠ VK_SUCCESS then
        ⟨app1, c2, .threw "Failed to begin recording command buffer!"⟩
      else
        let c3 := c2 ++ [.beginRenderPass cb env.imageIndex]
        match bindAndDraw app1 env cb with
        | .error what => ⟨app1, c3, .threw what⟩
        | .ok drawCalls =>
          let c4 := c3 ++ drawCalls ++ [.endRenderPass cb, .endCommandBuffer cb]
          if env.endResult ≠ VK_SUCCESS then
            ⟨app1, c4, .threw "Failed to record command buffer!"⟩
          else
            let c5 := c4 ++ [.queueSubmit (submitInfoFor frame cb) frame]
            if env.submitResult ≠ VK_SUCCESS then
              ⟨app1, c5, .threw "Failed to submit draw command buffer!"⟩
            else
              let c6 := c5 ++ [.queuePresent (presentInfoFor frame env.imageIndex)]
              if env.presentResult = VK_ERROR_OUT_OF_DATE_KHR
                  ∨ env.presentResult = VK_SUBOPTIMAL_KHR then
                ⟨app1.advance, c6 ++ [.recreate], .returned⟩
              else if env.presentResult ≠ VK_SUCCESS then
                ⟨app1, c6, .threw "Failed to present swap chain image!"⟩
              else
                ⟨app1.advance, c6, .returned⟩

/-- Consecutive calls of `render`, one per element of `envs`, as the loop of
`Application::run` makes them: an exception leaves the loop, so the ticks after it do not
run. -/
def renderTicks (app : Application) : List TickEnv → TickResult
  | [] => ⟨app, [], .returned⟩
  | env :: envs =>
    let r := render app env
    match r.outcome with
    | .threw _ => r
    | .returned =>
      let rest := renderTicks r.app envs
      ⟨rest.app, r.calls ++ rest.calls, rest.outcome⟩

/-- A pipeline object with handle 7, for concrete runs. -/
def samplePipeline : Pipeline :=
  { graphicsPipeline := 7
    vertexModule := 11
    fragmentModule := 12
    configInfo := { pipelineLayout := 21, renderPass := 31, subpass := 0 } }

/-- An environment in which nothing fails and the window is visible. -/
def TickEnv.ok (imageIndex : Nat) : TickEnv :=
  { minimized := false
    waitResult := VK_SUCCESS
    acquireResult := VK_SUCCESS
    imageIndex := imageIndex
    beginResult := VK_SUCCESS
    extentWidth := 1920
    extentHeight := 1080
    endResult := VK_SUCCESS
    submitResult := VK_SUCCESS
    presentResult := VK_SUCCESS }

/-! ## Observations on call lists -/

/-- The call is a `vkQueueSubmit`. -/
def Call.isSubmit : Call → Bool
  | .queueSubmit _ _ => true
  | _ => false

/-- The call is a `vkQueuePresentKHR`. -/
def Call.isPresent : Call → Bool
  | .queuePresent _ => true
  | _ => false

/-- The call is a `vkAcquireNextImageKHR`. -/
def Call.isAcquire : Call → Bool
  | .acquireNextImage _ => true
  | _ => false

/-- The call is a `vkResetFences`. -/
def Call.isResetFences : Call → Bool
  | .resetFences _ => true
  | _ => false

/-- The call records into a command buffer (reset, begin, render pass, binds, dynamic state,
draw, end). -/
def Call.isRecording : Call → Bool
  | .resetCommandBuffer _ => true
  | .beginCommandBuffer _ => true
  | .beginRenderPass _ _ => true
  | .bindPipeline _ _ => true
  | .bindVertexBuffers _ _ => true
  | .bindIndexBuffer _ _ => true
  | .setViewport _ _ _ => true
  | .setScissor _ _ _ => true
  | .draw _ _ _ _ _ => true
  | .endRenderPass _ => true
  | .endCommandBuffer _ => true
  | _ => false

/-- The fences waited on, in call order. -/
def waitedFences (calls : List Call) : List Nat :=
  calls.filterMap fun
    | .waitForFences fence => some fence
    | _ => none

/-- The fences handed to `vkQueueSubmit`, in call order. -/
def submittedFences (calls : List Call) : List Nat :=
  calls.filterMap fun
    | .queueSubmit _ fence => some fence
    | _ => none

/-- The six calls of the guarded block of `render` for pipeline handle `p`. -/
def drawBlock (env : TickEnv) (commandBuffer p : Nat) : List Call :=
  [ .bindPipeline commandBuffer p,
    .bindVertexBuffers commandBuffer 0,
    .bindIndexBuffer commandBuffer 1,
    .setViewport commandBuffer env.extentWidth env.extentHeight,
    .setScissor commandBuffer env.extentWidth env.extentHeight,
    .draw commandBuffer 3 1 0 0 ]

/-- State after `commandManager.setCurrentFrame(currentFrame)`. -/
def Application.setFrame (app : Application) : Application :=
  { app with commandManagerFrame := app.currentFrame }

/-- The calls of a tick on frame `f` up to and including the acquire. -/
def callsAcquire (f : Nat) : List Call :=
  [.waitForFences f, .acquireNextImage (.imageAvailable f)]

/-- The calls of a tick on frame `f` up to and including `vkBeginCommandBuffer`. -/
def callsBegin (f : Nat) : List Call :=
  callsAcquire f ++ [.resetFences f, .resetCommandBuffer f, .beginCommandBuffer f]

/-- The calls of a tick on frame `f` up to and including `vkEndCommandBuffer`, the guarded
block having recorded `ds`. -/
def callsRecord (f : Nat) (env : TickEnv) (ds : List Call) : List Call :=
  callsBegin f ++ [.beginRenderPass f env.imageIndex] ++ ds
    ++ [.endRenderPass f, .endCommandBuffer f]

/-- The calls of a tick on frame `f` up to and including `vkQueueSubmit`. -/
def callsSubmit (f : Nat) (env : TickEnv) (ds : List Call) : List Call :=
  callsRecord f env ds ++ [.queueSubmit (submitInfoFor f f) f]

/-- The calls of a tick on frame `f` up to and including `vkQueuePresentKHR`. -/
def callsPresent (f : Nat) (env : TickEnv) (ds : List Call) : List Call :=
  callsSubmit f env ds ++ [.queuePresent (presentInfoFor f env.imageIndex)]

/-- The acquire result lets the tick go on: success or suboptimal. -/
def TickEnv.acquired (env : TickEnv) : Prop :=
  env.acquireResult = VK_SUCCESS ∨ env.acquireResult = VK_SUBOPTIMAL_KHR

instance (env : TickEnv) : Decidable env.acquired := by
  unfold TickEnv.acquired
  infer_instance

/-- What the guarded block can record on command buffer `f`. -/
def DrawCalls (env : TickEnv) (f : Nat) (ds : List Call) : Prop :=
  ds = [] ∨ ∃ p, ds = drawBlock env f p

/-- The nine ways through `render`, each with the conditions on the answers of the window and
the device under which it is taken and the result it gives. -/
inductive TickPath (app : Application) (env : TickEnv) : TickResult → Prop where
  | minimized : env.minimized = true → TickPath app env ⟨app, [], .returned⟩
  | acquireOutOfDate : env.minimized = false → env.acquireResult = VK_ERROR_OUT_OF_DATE_KHR →
      TickPath app env
        ⟨app.setFrame, callsAcquire app.currentFrame ++ [.recreate], .returned⟩
  | acquireFailed : env.minimized = false → env.acquireResult ≠ VK_ERROR_OUT_OF_DATE_KHR →
      env.acquireResult ≠ VK_SUCCESS → env.acquireResult ≠ VK_SUBOPTIMAL_KHR →
      TickPath app env
        ⟨app.setFrame, callsAcquire app.currentFrame, .threw "Failed to acquire swap chain image"⟩
  | beginFailed : env.minimized = false → env.acquired → env.beginResult ≠ VK_SUCCESS →
      TickPath app env
        ⟨app.setFrame, callsBegin app.currentFrame,
          .threw "Failed to begin recording command buffer!"⟩
  | endFailed (ds : List Call) : DrawCalls env app.currentFrame ds →
      env.minimized = false → env.acquired → env.beginResult = VK_SUCCESS →
      env.endResult ≠ VK_SUCCESS →
      TickPath app env
        ⟨app.setFrame, callsRecord app.currentFrame env ds,
          .threw "Failed to record command buffer!"⟩
  | submitFailed (ds : List Call) : DrawCalls env app.currentFrame ds →
      env.minimized = false → env.acquired → env.beginResult = VK_SUCCESS →
      env.endResult = VK_SUCCESS → env.submitResult ≠ VK_SUCCESS →
      TickPath app env
        ⟨app.setFrame, callsSubmit app.currentFrame env ds,
          .threw "Failed to submit draw command buffer!"⟩
  | presentRecreate (ds : List Call) : DrawCalls env app.currentFrame ds →
      env.minimized = false → env.acquired → env.beginResult = VK_SUCCESS →
      env.endResult = VK_SUCCESS → env.submitResult = VK_SUCCESS →
      (env.presentResult = VK_ERROR_OUT_OF_DATE_KHR ∨ env.presentResult = VK_SUBOPTIMAL_KHR) →
      TickPath app env
        ⟨app.setFrame.advance, callsPresent app.currentFrame env ds ++ [.recreate], .returned⟩
  | presentFailed (ds : List Call) : DrawCalls env app.currentFrame ds →
      env.minimized = false → env.acquired → env.beginResult = VK_SUCCESS →
      env.endResult = VK_SUCCESS → env.submitResult = VK_SUCCESS →
      env.presentResult ≠ VK_ERROR_OUT_OF_DATE_KHR → env.presentResult ≠ VK_SUBOPTIMAL_KHR →
      env.presentResult ≠ VK_SUCCESS →
      TickPath app env
        ⟨app.setFrame, callsPresent app.currentFrame env ds,
          .threw "Failed to present swap chain image!"⟩
  | presented (ds : List Call) : DrawCalls env app.currentFrame ds →
      env.minimized = false → env.acquired → env.beginResult = VK_SUCCESS →
      env.endResult = VK_SUCCESS → env.submitResult = VK_SUCCESS →
      env.presentResult = VK_SUCCESS →
      TickPath app env
        ⟨app.setFrame.advance, callsPresent app.currentFrame env ds, .returned⟩

/-- The state is one the program can be in: `maxFramesInFlight` is a positive 32-bit value
and `currentFrame` is a slot index below it. -/
def Application.WellFormed (app : Application) : Prop :=
  1 ≤ app.maxFramesInFlight ∧ app.maxFramesInFlight < 2 ^ 32 ∧
    app.currentFrame < app.maxFramesInFlight

instance (app : Application) : Decidable app.WellFormed := by
  unfold Application.WellFormed
  infer_instance

/-! ## Device-side state of the fences -/

/-- State of a fence on the device: signaled, unsignaled with no work submitted that would
signal it, or unsignaled with a submission pending that signals it on completion. -/
inductive FenceState where
  | signaled
  | unsignaled
  | pending
  deriving DecidableEq, Repr

/-- Effect of one call on the fences (indexed as `Synchronization::inFlightFences`), once the
call has returned.  `vkWaitForFences` (wait for all, timeout `UINT64_MAX`) that returns
`VK_SUCCESS` has seen the fence signaled; with any other result it tells nothing and the
fence is left as it was.  `vkResetFences` unsignals the fence, and `vkQueueSubmit` leaves it
to be signaled when the submitted work completes.  `waitResult` is the result of the wait of
the tick the call belongs to. -/
def fenceStep (waitResult : VkResult) (fences : Nat → FenceState) : Call → Nat → FenceState
  | .waitForFences i => fun j => if j = i ∧ waitResult = VK_SUCCESS then .signaled else fences j
  | .resetFences i => fun j => if j = i then .unsignaled else fences j
  | .queueSubmit _ i => fun j => if j = i then .pending else fences j
  | _ => fences

/-- The fences after the calls of one tick whose wait returned `waitResult`. -/
def fencesAfter (fences : Nat → FenceState) (waitResult : VkResult) (calls : List Call) :
    Nat → FenceState :=
  calls.foldl (fenceStep waitResult) fences

/-- A wait on fence `i` blocks the calling thread unless the fence is already signaled. -/
def waitBlocks (fences : Nat → FenceState) (i : Nat) : Bool :=
  fences i != .signaled

/-- The fences as `Synchronization::createSyncObjects` creates them
(`VK_FENCE_CREATE_SIGNALED_BIT`). -/
def createdFences : Nat → FenceState :=
  fun _ => .signaled

/-! ## Submissions in flight -/

/-- Effect of one call on the number of submissions on fence `i` issued since the last
`vkWaitForFences` call on fence `i`, whatever that call returned: a wait call on fence `i`
restarts the count, a submission that signals fence `i` adds one.  This counts calls in
order only; `outstandingStep` below counts what the device has not finished. -/
def sinceWaitStep (i : Nat) (n : Nat) : Call → Nat
  | .waitForFences j => if j = i then 0 else n
  | .queueSubmit _ j => if j = i then n + 1 else n
  | _ => n

/-- The number of submissions on fence `i` since the last wait call on it after `calls`,
starting from `n` of them. -/
def sinceWaitFrom (i : Nat) (n : Nat) (calls : List Call) : Nat :=
  calls.foldl (sinceWaitStep i) n

/-- The number of submissions on fence `i` issued in `calls` and not followed there by a wait
call on fence `i`. -/
def sinceWait (i : Nat) (calls : List Call) : Nat :=
  sinceWaitFrom i 0 calls

/-- The largest number of submissions on fence `i` since the last wait call on it at any
moment during `calls`, starting from `n` of them. -/
def maxSinceWait (i : Nat) : Nat → List Call → Nat
  | n, [] => n
  | n, c :: cs => max n (maxSinceWait i (sinceWaitStep i n c) cs)

/-- The calls of consecutive ticks in order, each with the result `vkWaitForFences` gave in
its tick; the calls are those of `renderTicks`. -/
def renderTrace (app : Application) : List TickEnv → List (VkResult × Call)
  | [] => []
  | env :: envs =>
    let r := render app env
    let own := r.calls.map fun c => (env.waitResult, c)
    match r.outcome with
    | .threw _ => own
    | .returned => own ++ renderTrace r.app envs

/-- Effect of one call on the number of submissions that signal fence `i` and that no wait
has seen finished: a submission that signals fence `i` adds one; a `vkWaitForFences` on
fence `i` that returned `VK_SUCCESS` has seen the fence signaled and clears the count; a wait
that returned anything else has seen nothing and leaves it, as `fenceStep` leaves the fence.
The first component is the wait result of the tick the call belongs to. -/
def outstandingStep (i : Nat) (n : Nat) : VkResult × Call → Nat
  | (waitResult, .waitForFences j) => if j = i ∧ waitResult = VK_SUCCESS then 0 else n
  | (_, .queueSubmit _ j) => if j = i then n + 1 else n
  | _ => n

/-- The number of submissions on fence `i` outstanding after `trace`, starting from `n`. -/
def outstandingFrom (i : Nat) (n : Nat) (trace : List (VkResult × Call)) : Nat :=
  trace.foldl (outstandingStep i) n

/-- The number of submissions on fence `i` issued in `trace` and still outstanding at its
end. -/
def outstanding (i : Nat) (trace : List (VkResult × Call)) : Nat :=
  outstandingFrom i 0 trace

/-! ## Pipeline registry -/

/-- Removal of every entry under the name `k` from a table (`erase(k)`). -/
def eraseKey {α : Type} (k : String) (t : List (String × α)) : List (String × α) :=
  t.filter fun e => e.1 != k

/-- Assignment `t[k] = v`: afterwards the table holds `v` under `k` and one entry for `k`. -/
def setKey {α : Type} (k : String) (v : α) (t : List (String × α)) : List (String × α) :=
  (k, v) :: eraseKey k t

/-- The names a table holds entries for. -/
def keys {α : Type} (t : List (String × α)) : List String :=
  t.map Prod.fst

/-- What the file system and the device answer during one call of `createPipeline`, and the
render pass the swap chain holds at that time. -/
structure CreateEnv where
  /-- The vertex shader file can be opened (`Shader::readFile`). -/
  vertexFileOpens : Bool
  /-- Result of `vkCreateShaderModule` for the vertex shader. -/
  vertexModuleResult : VkResult
  /-- The module handle it writes. -/
  vertexModule : Nat
  /-- The fragment shader file can be opened. -/
  fragmentFileOpens : Bool
  /-- Result of `vkCreateShaderModule` for the fragment shader. -/
  fragmentModuleResult : VkResult
  /-- The module handle it writes. -/
  fragmentModule : Nat
  /-- Result of `vkCreatePipelineLayout`. -/
  layoutResult : VkResult
  /-- What `pipelineLayouts[name]` holds when `vkCreatePipelineLayout` has returned: the new
  layout handle when it succeeded. -/
  layout : Nat
  /-- Answer of `context.getSwapChain().getRenderPass()`. -/
  renderPass : Nat
  /-- Result of `vkCreateGraphicsPipelines`. -/
  pipelineResult : VkResult
  /-- The pipeline handle it writes. -/
  graphicsPipeline : Nat
  deriving DecidableEq, Repr

/-- What happened to the registry, for reasoning about its history: a call of `createPipeline`
(made directly or by `recreatePipelines`) returned having built `pipeline`, a call of
`removePipeline` returned, a call of `clearPipelines` returned. -/
inductive RegistryEvent where
  | created (name : String) (pipeline : Pipeline)
  | removed (name : String)
  | cleared
  deriving DecidableEq, Repr

/-- The result of an operation on the registry: the state it leaves, how it ended, and the
events of the operation in order. -/
structure RegistryResult where
  pm : PipelineManager
  outcome : Outcome
  events : List RegistryEvent
  deriving DecidableEq, Repr

/-- Constructor `Shader::Shader`: read the file, then create the module. -/
def Shader.create (fileOpens : Bool) (moduleResult : VkResult) (shaderModule : Nat)
    (filepath : String) (type : ShaderType) : Except String Shader :=
  if !fileOpens then
    .error ("failed to open file: " ++ filepath)
  else if moduleResult ≠ VK_SUCCESS then
    .error "failed to create shader module!"
  else
    .ok { shaderModule := shaderModule, type := type }

/-- Member `PipelineManager::createShaderStages`: build both shaders, then store them under
the name. -/
def PipelineManager.createShaderStages (pm : PipelineManager) (name vertPath fragPath : String)
    (env : CreateEnv) : Except String PipelineManager :=
  match Shader.create env.vertexFileOpens env.vertexModuleResult env.vertexModule vertPath
      .Vertex with
  | .error what => .error what
  | .ok vertex =>
    match Shader.create env.fragmentFileOpens env.fragmentModuleResult env.fragmentModule
        fragPath .Fragment with
    | .error what => .error what
    | .ok fragment =>
      .ok { pm with shaderStages :=
              setKey name { vertex := vertex, fragment := fragment } pm.shaderStages }

/-- Member `PipelineManager::createPipelineLayout`: the entry `pipelineLayouts[name]` is made
for the call to write to, so it is there whether the call succeeds or not. -/
def PipelineManager.createPipelineLayout (pm : PipelineManager) (name : String)
    (env : CreateEnv) : RegistryResult :=
  let pm1 := { pm with pipelineLayouts := setKey name env.layout pm.pipelineLayouts }
  if env.layoutResult ≠ VK_SUCCESS then
    ⟨pm1, .threw ("Failed to create pipeline layout for '" ++ name ++ "'"), []⟩
  else
    ⟨pm1, .returned, []⟩

/-- Constructor `Pipeline::Pipeline` with `createGraphicsPipeline`. -/
def Pipeline.create (vertexModule fragmentModule : Nat) (configInfo : PipelineConfigInfo)
    (env : CreateEnv) : Except String Pipeline :=
  if env.pipelineResult ≠ VK_SUCCESS then
    .error "failed to create graphics pipeline"
  else
    .ok { graphicsPipeline := env.graphicsPipeline
          vertexModule := vertexModule
          fragmentModule := fragmentModule
          configInfo := configInfo }

/-- Member `PipelineManager::getShaderStages`: `none` is the null pointer. -/
def PipelineManager.getShaderStages (pm : PipelineManager) (name : String) :
    Option ShaderStages :=
  pm.shaderStages.lookup name

/-- The module of the vertex stage stored under `name`
(`shaderStages[name].vertex->getShaderModule()`). -/
def PipelineManager.vertexModuleOf (pm : PipelineManager) (name : String) : Nat :=
  match pm.shaderStages.lookup name with
  | some stages => stages.vertex.shaderModule
  | none => 0

/-- The module of the fragment stage stored under `name`. -/
def PipelineManager.fragmentModuleOf (pm : PipelineManager) (name : String) : Nat :=
  match pm.shaderStages.lookup name with
  | some stages => stages.fragment.shaderModule
  | none => 0

/-- Member `PipelineManager::createPipeline`.  The pipeline object is built before
`pipelines[name]` is touched (the right side of an assignment is evaluated first), so a
failing build leaves that table alone. -/
def PipelineManager.createPipeline (pm : PipelineManager) (name vertShaderPath
    fragShaderPath : String) (configInfo : PipelineConfigInfo) (env : CreateEnv) :
    RegistryResult :=
  if pm.hasPipeline name then
    ⟨pm, .threw ("Pipeline with name '" ++ name ++ "' already exists"), []⟩
  else
    -- Store configurations for recreation
    let pm1 := { pm with
      shaderPaths := setKey name (vertShaderPath, fragShaderPath) pm.shaderPaths
      pipelineConfigs := setKey name configInfo pm.pipelineConfigs }
    match pm1.createShaderStages name vertShaderPath fragShaderPath env with
    | .error what => ⟨pm1, .threw what, []⟩
    | .ok pm2 =>
      let r := pm2.createPipelineLayout name env
      match r.outcome with
      | .threw what => ⟨r.pm, .threw what, []⟩
      | .returned =>
        let pm3 := r.pm
        let finalConfig := { configInfo with
          pipelineLayout := (pm3.pipelineLayouts.lookup name).getD 0
          renderPass := env.renderPass }
        match Pipeline.create (pm3.vertexModuleOf name) (pm3.fragmentModuleOf name)
            finalConfig env with
        | .error what => ⟨pm3, .threw what, []⟩
        | .ok pipeline =>
          ⟨{ pm3 with pipelines := setKey name pipeline pm3.pipelines }, .returned,
            [.created name pipeline]⟩

/-- Member `PipelineManager::destroyPipelineLayout`. -/
def PipelineManager.destroyPipelineLayout (pm : PipelineManager) (name : String) :
    PipelineManager :=
  if (pm.pipelineLayouts.lookup name).isSome then
    { pm with pipelineLayouts := eraseKey name pm.pipelineLayouts }
  else
    pm

/-- Member `PipelineManager::removePipeline`. -/
def PipelineManager.removePipeline (pm : PipelineManager) (name : String) : PipelineManager :=
  if !pm.hasPipeline name then
    pm
  else
    let pm1 := { pm with pipelines := eraseKey name pm.pipelines }
    let pm2 := pm1.destroyPipelineLayout name
    { pm2 with
      shaderPaths := eraseKey name pm2.shaderPaths
      pipelineConfigs := eraseKey name pm2.pipelineConfigs }

/-- Member `PipelineManager::clearPipelines`. -/
def PipelineManager.clearPipelines (pm : PipelineManager) : PipelineManager :=
  { pm with pipelines := [], pipelineLayouts := [], shaderPaths := [], pipelineConfigs := [] }

/-- The loop of `recreatePipelines` over the saved shader paths: `createPipeline` for each
entry with the saved config of its name (`currentConfigs[name]`), the first exception ending
the loop.  `envOf name` is what file system and device answer while `name` is created. -/
def PipelineManager.replay (currentConfigs : List (String × PipelineConfigInfo))
    (envOf : String → CreateEnv) (pm : PipelineManager) :
    List (String × (String × String)) → RegistryResult
  | [] => ⟨pm, .returned, []⟩
  | (name, paths) :: rest =>
    let r := pm.createPipeline name paths.1 paths.2
      ((currentConfigs.lookup name).getD PipelineConfigInfo.empty) (envOf name)
    match r.outcome with
    | .threw what => ⟨r.pm, .threw what, r.events⟩
    | .returned =>
      let r2 := PipelineManager.replay currentConfigs envOf r.pm rest
      ⟨r2.pm, r2.outcome, r.events ++ r2.events⟩

/-- Member `PipelineManager::recreatePipelines`: save shader paths and configs, clear, and
create every saved entry again. -/
def PipelineManager.recreatePipelines (pm : PipelineManager) (envOf : String → CreateEnv) :
    RegistryResult :=
  let currentShaderPaths := pm.shaderPaths
  let currentConfigs := pm.pipelineConfigs
  let r := PipelineManager.replay currentConfigs envOf pm.clearPipelines currentShaderPaths
  ⟨r.pm, r.outcome, .cleared :: r.events⟩

/-- A call on the registry from outside. -/
inductive RegistryOp where
  | create (name vertShaderPath fragShaderPath : String) (configInfo : PipelineConfigInfo)
      (env : CreateEnv)
  | remove (name : String)
  | clear
  | recreate (envOf : String → CreateEnv)

/-- One call on the registry. -/
def PipelineManager.apply (pm : PipelineManager) : RegistryOp → RegistryResult
  | .create name vert frag configInfo env => pm.createPipeline name vert frag configInfo env
  | .remove name => ⟨pm.removePipeline name, .returned, [.removed name]⟩
  | .clear => ⟨pm.clearPipelines, .returned, [.cleared]⟩
  | .recreate envOf => pm.recreatePipelines envOf

/-- A sequence of calls on the registry and what it leaves.  A call that throws leaves the
registry as it is at the throw, and the caller goes on with the next call.  `outcome` is
`returned` when every call returned, else the first exception. -/
def PipelineManager.applyAll (pm : PipelineManager) : List RegistryOp → RegistryResult
  | [] => ⟨pm, .returned, []⟩
  | op :: ops =>
    let r := pm.apply op
    let r2 := PipelineManager.applyAll r.pm ops
    ⟨r2.pm, (match r.outcome with
              | .threw what => .threw what
              | .returned => r2.outcome), r.events ++ r2.events⟩

/-- Effect of one event on the pipeline that is live under `name`. -/
def liveStep (name : String) (live : Option Pipeline) : RegistryEvent → Option Pipeline
  | .created n p => if n = name then some p else live
  | .removed n => if n = name then none else live
  | .cleared => none

/-- The pipeline a history of the registry leaves live under `name`, following the words of the
specification: the one built by the latest successful creation of `name`, unless the name has
been removed or the registry cleared since. -/
def liveAfter (name : String) (events : List RegistryEvent) : Option Pipeline :=
  events.foldl (liveStep name) none

/-- The device answers of a `createPipeline` call in which nothing fails. -/
def CreateEnv.succeeds (env : CreateEnv) : Prop :=
  env.vertexFileOpens = true ∧ env.vertexModuleResult = VK_SUCCESS ∧
  env.fragmentFileOpens = true ∧ env.fragmentModuleResult = VK_SUCCESS ∧
  env.layoutResult = VK_SUCCESS ∧ env.pipelineResult = VK_SUCCESS

instance (env : CreateEnv) : Decidable env.succeeds := by
  unfold CreateEnv.succeeds
  infer_instance

/-- Both shaders of a `createPipeline` call load. -/
def CreateEnv.shadersLoad (env : CreateEnv) : Prop :=
  env.vertexFileOpens = true ∧ env.vertexModuleResult = VK_SUCCESS ∧
  env.fragmentFileOpens = true ∧ env.fragmentModuleResult = VK_SUCCESS

instance (env : CreateEnv) : Decidable env.shadersLoad := by
  unfold CreateEnv.shadersLoad
  infer_instance

/-- The pipeline object a successful `createPipeline` builds from the supplied config and the
device answers. -/
def builtPipeline (configInfo : PipelineConfigInfo) (env : CreateEnv) : Pipeline :=
  { graphicsPipeline := env.graphicsPipeline
    vertexModule := env.vertexModule
    fragmentModule := env.fragmentModule
    configInfo := { configInfo with pipelineLayout := env.layout, renderPass := env.renderPass } }

/-- State of the registry after a `createPipeline` call in which nothing failed: every table
holds its entry for the name. -/
def PipelineManager.registered (pm : PipelineManager) (name vert frag : String)
    (configInfo : PipelineConfigInfo) (env : CreateEnv) : PipelineManager :=
  { pipelines := setKey name (builtPipeline configInfo env) pm.pipelines
    shaderStages := setKey name { vertex := ⟨env.vertexModule, .Vertex⟩,
                                  fragment := ⟨env.fragmentModule, .Fragment⟩ } pm.shaderStages
    pipelineConfigs := setKey name configInfo pm.pipelineConfigs
    shaderPaths := setKey name (vert, frag) pm.shaderPaths
    pipelineLayouts := setKey name env.layout pm.pipelineLayouts }

/-- What a `createPipeline` call adds to the history of the registry, told by how the call
ended: when it returned, the creation under `name` of the pipeline built from the supplied
config and the answers of the device; when it threw, nothing. -/
def createdBy (outcome : Outcome) (name : String) (configInfo : PipelineConfigInfo)
    (env : CreateEnv) : List RegistryEvent :=
  match outcome with
  | .returned => [.created name (builtPipeline configInfo env)]
  | .threw _ => []

/-- The creations that the loop of `recreatePipelines` adds to the history: one for each
replayed `createPipeline` call that returned, in order, up to the first that threw. -/
def PipelineManager.replayHistory (currentConfigs : List (String × PipelineConfigInfo))
    (envOf : String → CreateEnv) (pm : PipelineManager) :
    List (String × (String × String)) → List RegistryEvent
  | [] => []
  | (name, paths) :: rest =>
    let r := pm.createPipeline name paths.1 paths.2
      ((currentConfigs.lookup name).getD PipelineConfigInfo.empty) (envOf name)
    match r.outcome with
    | .threw _ => []
    | .returned =>
      .created name (builtPipeline ((currentConfigs.lookup name).getD PipelineConfigInfo.empty)
          (envOf name))
        :: PipelineManager.replayHistory currentConfigs envOf r.pm rest

/-- What one call on the registry in state `pm` adds to its history, following the words of
the specification and told by the outcomes of the calls alone: a `createPipeline` that
returned is a creation, `removePipeline` a removal, `clearPipelines` a clearing, and
`recreatePipelines` a clearing followed by the creations of its replays that returned. -/
def PipelineManager.opHistory (pm : PipelineManager) : RegistryOp → List RegistryEvent
  | .create name vert frag configInfo env =>
    createdBy (pm.createPipeline name vert frag configInfo env).outcome name configInfo env
  | .remove name => [.removed name]
  | .clear => [.cleared]
  | .recreate envOf =>
    .cleared :: PipelineManager.replayHistory pm.pipelineConfigs envOf pm.clearPipelines
      pm.shaderPaths

/-- The history of a sequence of calls on the registry that starts in state `pm`. -/
def PipelineManager.history (pm : PipelineManager) : List RegistryOp → List RegistryEvent
  | [] => []
  | op :: ops => pm.opHistory op ++ PipelineManager.history (pm.apply op).pm ops

/-- The tables agree as after successful calls only: no name has two entries of stored shader
paths, and the names with stored shader paths and with a stored config are the registered
ones. -/
def PipelineManager.Consistent (pm : PipelineManager) : Prop :=
  (keys pm.shaderPaths).Nodup ∧
  (∀ n, (pm.shaderPaths.lookup n).isSome = pm.hasPipeline n) ∧
  (∀ n, (pm.pipelineConfigs.lookup n).isSome = pm.hasPipeline n)

/-- Device answers with which `createPipeline` succeeds, for concrete runs. -/
def CreateEnv.ok (graphicsPipeline : Nat) : CreateEnv :=
  { vertexFileOpens := true
    vertexModuleResult := VK_SUCCESS
    vertexModule := 11
    fragmentFileOpens := true
    fragmentModuleResult := VK_SUCCESS
    fragmentModule := 12
    layoutResult := VK_SUCCESS
    layout := 21
    renderPass := 31
    pipelineResult := VK_SUCCESS
    graphicsPipeline := graphicsPipeline }

/-- The slot of a semaphore. -/
def Semaphore.frameIndex : Semaphore → Nat
  | .imageAvailable i => i
  | .renderFinished i => i

/-- The indices a call uses into the per-slot vectors: `inFlightFences`,
`imageAvailableSemaphores`, `renderFinishedSemaphores` of `Synchronization` and
`commandBuffers` of `CommandManager`, each resized to `maxFramesInFlight` entries. -/
def Call.slotIndices : Call → List Nat
  | .waitForFences fence => [fence]
  | .acquireNextImage semaphore => [semaphore.frameIndex]
  | .recreate => []
  | .resetFences fence => [fence]
  | .resetCommandBuffer cb => [cb]
  | .beginCommandBuffer cb => [cb]
  | .beginRenderPass cb _ => [cb]
  | .bindPipeline cb _ => [cb]
  | .bindVertexBuffers cb _ => [cb]
  | .bindIndexBuffer cb _ => [cb]
  | .setViewport cb _ _ => [cb]
  | .setScissor cb _ _ => [cb]
  | .draw cb _ _ _ _ => [cb]
  | .endRenderPass cb => [cb]
  | .endCommandBuffer cb => [cb]
  | .queueSubmit info fence =>
    fence :: (info.commandBuffers ++ info.waitSemaphores.map Semaphore.frameIndex
      ++ info.signalSemaphores.map Semaphore.frameIndex)
  | .queuePresent info => info.waitSemaphores.map Semaphore.frameIndex

/-- The layout table holds the registered names. -/
def PipelineManager.LayoutsMatch (pm : PipelineManager) : Prop :=
  ∀ n, (pm.pipelineLayouts.lookup n).isSome = pm.hasPipeline n

/-! ## Device selection

The parts of `VulkanContext` (src/renderer/VulkanContext.cpp) that look at a physical device.
A physical device is the record of what the graphics API answers about it. -/

/-- The constant `VK_NULL_HANDLE`. -/
def VK_NULL_HANDLE : Nat := 0

/-- The constant `VK_QUEUE_GRAPHICS_BIT`. -/
def VK_QUEUE_GRAPHICS_BIT : Nat := 1

/-- The constant `VK_PHYSICAL_DEVICE_TYPE_DISCRETE_GPU`. -/
def VK_PHYSICAL_DEVICE_TYPE_DISCRETE_GPU : Nat := 2

/-- The constant `VK_KHR_SWAPCHAIN_EXTENSION_NAME`. -/
def VK_KHR_SWAPCHAIN_EXTENSION_NAME : String := "VK_KHR_swapchain"

/-- Structure `QueueFamilyIndices`: two `std::optional<uint32_t>`. -/
structure QueueFamilyIndices where
  graphicsFamily : Option Nat := none
  presentFamily : Option Nat := none
  deriving DecidableEq, Repr

/-- Member `QueueFamilyIndices::isComplete`. -/
def QueueFamilyIndices.isComplete (indices : QueueFamilyIndices) : Bool :=
  indices.graphicsFamily.isSome && indices.presentFamily.isSome

/-- What the API answers about one queue family of a device: the `queueFlags` of its
`VkQueueFamilyProperties`, and the `VkBool32` that `vkGetPhysicalDeviceSurfaceSupportKHR`
writes for it and the surface. -/
structure QueueFamily where
  queueFlags : Nat
  presentSupport : Nat
  deriving DecidableEq, Repr

/-- Structure `SwapChainSupportDetails`, without the capabilities, which nothing here reads. -/
structure SwapChainSupportDetails where
  formats : List Nat
  presentModes : List Nat
  deriving DecidableEq, Repr

/-- What the API answers about a physical device. -/
structure PhysicalDevice where
  /-- Member `deviceType` of `VkPhysicalDeviceProperties`. -/
  deviceType : Nat
  /-- Member `limits.maxImageDimension2D` of `VkPhysicalDeviceProperties`, a `uint32_t`. -/
  maxImageDimension2D : Nat
  /-- Member `geometryShader` of `VkPhysicalDeviceFeatures`, a `VkBool32`. -/
  geometryShader : Nat
  /-- The families `vkGetPhysicalDeviceQueueFamilyProperties` lists, in order. -/
  queueFamilies : List QueueFamily
  /-- The extension names `vkEnumerateDeviceExtensionProperties` lists. -/
  availableExtensions : List String
  /-- The formats `vkGetPhysicalDeviceSurfaceFormatsKHR` lists for the surface. -/
  surfaceFormats : List Nat
  /-- The present modes `vkGetPhysicalDeviceSurfacePresentModesKHR` lists for the surface. -/
  surfacePresentModes : List Nat
  deriving DecidableEq, Repr

/-- The family supports graphics: `queueFamily.queueFlags & VK_QUEUE_GRAPHICS_BIT`. -/
def QueueFamily.graphics (queueFamily : QueueFamily) : Bool :=
  queueFamily.queueFlags &&& VK_QUEUE_GRAPHICS_BIT != 0

/-- The family can present to the surface: `presentSupport` is not `VK_FALSE`. -/
def QueueFamily.present (queueFamily : QueueFamily) : Bool :=
  queueFamily.presentSupport != 0

/-- The body of the loop of `findQueueFamilies` up to the test for completeness, at the
family numbered `i`.  The counter `i` is an `int`; storing it in a
`std::optional<uint32_t>` converts it. -/
def findQueueFamiliesStep (queueFamily : QueueFamily) (i : Nat)
    (indices : QueueFamilyIndices) : QueueFamilyIndices :=
  let indices1 :=
    if queueFamily.graphics then { indices with graphicsFamily := some (i % 2 ^ 32) }
    else indices
  if queueFamily.present then { indices1 with presentFamily := some (i % 2 ^ 32) }
  else indices1

/-- The loop of `findQueueFamilies` over the families from the one numbered `i` on: it
leaves at the first family after which the indices are complete. -/
def findQueueFamiliesLoop : List QueueFamily → Nat → QueueFamilyIndices → QueueFamilyIndices
  | [], _, indices => indices
  | queueFamily :: rest, i, indices =>
    let indices2 := findQueueFamiliesStep queueFamily i indices
    if indices2.isComplete then indices2
    else findQueueFamiliesLoop rest (i + 1) indices2

/-- Member `VulkanContext::findQueueFamilies` of a context whose surface handle is
`surface`. -/
def findQueueFamilies (surface : Nat) (device : PhysicalDevice) :
    Except String QueueFamilyIndices :=
  if surface = VK_NULL_HANDLE then
    .error "Surface not created before finding queue families"
  else
    .ok (findQueueFamiliesLoop device.queueFamilies 0 {})

/-- Member `VulkanContext::querySwapChainSupport`. -/
def querySwapChainSupport (surface : Nat) (device : PhysicalDevice) :
    Except String SwapChainSupportDetails :=
  if surface = VK_NULL_HANDLE then
    .error "Surface not created before query swap chain support"
  else
    .ok { formats := device.surfaceFormats, presentModes := device.surfacePresentModes }

/-- Member `VulkanContext::checkDeviceExtensionSupport`: the set of required names, each
available name erased from it, is empty at the end. -/
def checkDeviceExtensionSupport (deviceExtensions : List String) (device : PhysicalDevice) :
    Bool :=
  (device.availableExtensions.foldl (fun required extension => required.erase extension)
    deviceExtensions.dedup).isEmpty

/-- Member `VulkanContext::isDeviceSuitable`. -/
def isDeviceSuitable (surface : Nat) (deviceExtensions : List String)
    (device : PhysicalDevice) : Except String Bool :=
  match findQueueFamilies surface device with
  | .error what => .error what
  | .ok indices =>
    let extensionsSupported := checkDeviceExtensionSupport deviceExtensions device
    let swapChainAdequate : Except String Bool :=
      if extensionsSupported then
        match querySwapChainSupport surface device with
        | .error what => .error what
        | .ok swapChainSupport =>
          .ok (!swapChainSupport.formats.isEmpty && !swapChainSupport.presentModes.isEmpty)
      else .ok false
    match swapChainAdequate with
    | .error what => .error what
    | .ok adequate => .ok (indices.isComplete && extensionsSupported && adequate)

/-- The value of an `int` after a 32-bit unsigned value is converted to it. -/
def toInt32 (n : Nat) : Int :=
  if n % 2 ^ 32 < 2 ^ 31 then (n % 2 ^ 32 : Nat) else (n % 2 ^ 32 : Nat) - 2 ^ 32

/-- Member `VulkanContext::rateDeviceSuitability`.  The sum `score += maxImageDimension2D`
of an `int` and a `uint32_t` is taken in 32-bit unsigned arithmetic and converted back. -/
def rateDeviceSuitability (device : PhysicalDevice) : Int :=
  let score : Int := 0
  let score :=
    if device.deviceType = VK_PHYSICAL_DEVICE_TYPE_DISCRETE_GPU then score + 1000 else score
  let score := toInt32 ((score.toNat + device.maxImageDimension2D) % 2 ^ 32)
  if device.geometryShader = 0 then 0
  else score

/-- The element `candidates.rbegin()` of the multimap that `pickPhysicalDevice` fills: the
highest score, and among devices of that score the one inserted last. -/
def bestCandidate : List PhysicalDevice → Option (Int × PhysicalDevice)
  | [] => none
  | device :: rest =>
    match bestCandidate rest with
    | none => some (rateDeviceSuitability device, device)
    | some (score, best) =>
      if rateDeviceSuitability device > score then some (rateDeviceSuitability device, device)
      else some (score, best)

/-- Member `VulkanContext::pickPhysicalDevice`: the device it stores in `physicalDevice`. -/
def pickPhysicalDevice (devices : List PhysicalDevice) : Except String PhysicalDevice :=
  match bestCandidate devices with
  | none => .error "No physical devices found compatible with Vulkan"
  | some (score, best) =>
    if score > 0 then .ok best
    else .error "No suitable physical device found"

/-- A device with a graphics family that cannot present, no extension, geometry shaders. -/
def headlessDevice : PhysicalDevice :=
  { deviceType := 1
    maxImageDimension2D := 16384
    geometryShader := 1
    queueFamilies := [{ queueFlags := 1, presentSupport := 0 }]
    availableExtensions := []
    surfaceFormats := []
    surfacePresentModes := [] }

/-- A device with all that `isDeviceSuitable` asks for and without geometry shaders. -/
def plainDevice : PhysicalDevice :=
  { deviceType := 2
    maxImageDimension2D := 16384
    geometryShader := 0
    queueFamilies := [{ queueFlags := 15, presentSupport := 1 }]
    availableExtensions := ["VK_KHR_swapchain"]
    surfaceFormats := [44]
    surfacePresentModes := [2] }

/-- A device with a transfer family, a graphics family and a family that only presents. -/
def splitDevice : PhysicalDevice :=
  { deviceType := 2
    maxImageDimension2D := 16384
    geometryShader := 1
    queueFamilies := [{ queueFlags := 4, presentSupport := 0 },
      { queueFlags := 7, presentSupport := 0 }, { queueFlags := 0, presentSupport := 1 }]
    availableExtensions := ["VK_KHR_swapchain"]
    surfaceFormats := [44]
    surfacePresentModes := [2] }

/-! ## Construction of the synchronizer -/

/-- The constant `VK_FENCE_CREATE_SIGNALED_BIT`. -/
def VK_FENCE_CREATE_SIGNALED_BIT : Nat := 1

/-- What the device answers to the creation calls `createSyncObjects` makes for slot `i`. -/
structure SyncEnv where
  /-- Result of `vkCreateSemaphore` for `imageAvailableSemaphores[i]`. -/
  imageAvailableResult : Nat → VkResult
  /-- Result of `vkCreateSemaphore` for `renderFinishedSemaphores[i]`. -/
  renderFinishedResult : Nat → VkResult
  /-- Result of `vkCreateFence` for `inFlightFences[i]`. -/
  fenceResult : Nat → VkResult

/-- A creation call of `createSyncObjects`. -/
inductive SyncCall where
  /-- Call `vkCreateSemaphore(device, &semaphoreInfo, nullptr, &target)`. -/
  | createSemaphore (target : Semaphore)
  /-- Call `vkCreateFence(device, &fenceInfo, nullptr, &inFlightFences[fence])` with
  `fenceInfo.flags = flags`. -/
  | createFence (flags : Nat) (fence : Nat)
  deriving DecidableEq, Repr

/-- The members of `Synchronization`.  An entry of a vector is `none` while it holds no
object, else the object: a semaphore by its name, a fence by the state it was created in. -/
structure Synchronization where
  imageAvailableSemaphores : List (Option Semaphore)
  renderFinishedSemaphores : List (Option Semaphore)
  inFlightFences : List (Option FenceState)
  maxFramesInFlight : Nat
  deriving DecidableEq, Repr

/-- What running the constructor gives: the members, the creation calls made in order, and
how it ended. -/
structure SyncResult where
  sync : Synchronization
  calls : List SyncCall
  outcome : Outcome
  deriving DecidableEq, Repr

/-- The state a fence created with `flags` starts in. -/
def fenceCreatedWith (flags : Nat) : FenceState :=
  if flags &&& VK_FENCE_CREATE_SIGNALED_BIT != 0 then .signaled else .unsignaled

/-- The loop of `createSyncObjects` from slot `i` on, with `count` slots to go.  The three
creation calls of a slot are joined by `||`: the first failing one ends the slot and
throws. -/
def Synchronization.createLoop (env : SyncEnv) :
    Nat → Nat → Synchronization → List SyncCall → SyncResult
  | 0, _, sync, calls => ⟨sync, calls, .returned⟩
  | count + 1, i, sync, calls =>
    let calls1 := calls ++ [.createSemaphore (.imageAvailable i)]
    if env.imageAvailableResult i ≠ VK_SUCCESS then
      ⟨sync, calls1, .threw "failed to create synchronization objects for a frame!"⟩
    else
      let sync1 := { sync with
        imageAvailableSemaphores := sync.imageAvailableSemaphores.set i (some (.imageAvailable i)) }
      let calls2 := calls1 ++ [.createSemaphore (.renderFinished i)]
      if env.renderFinishedResult i ≠ VK_SUCCESS then
        ⟨sync1, calls2, .threw "failed to create synchronization objects for a frame!"⟩
      else
        let sync2 := { sync1 with
          renderFinishedSemaphores :=
            sync1.renderFinishedSemaphores.set i (some (.renderFinished i)) }
        let calls3 := calls2 ++ [.createFence VK_FENCE_CREATE_SIGNALED_BIT i]
        if env.fenceResult i ≠ VK_SUCCESS then
          ⟨sync2, calls3, .threw "failed to create synchronization objects for a frame!"⟩
        else
          let sync3 := { sync2 with
            inFlightFences :=
              sync2.inFlightFences.set i (some (fenceCreatedWith VK_FENCE_CREATE_SIGNALED_BIT)) }
          Synchronization.createLoop env count (i + 1) sync3 calls3

/-- The constructor `Synchronization::Synchronization` with `createSyncObjects`: the three
vectors are resized to `maxFramesInFlight` empty entries, then the loop fills them. -/
def Synchronization.create (maxFramesInFlight : Nat) (env : SyncEnv) : SyncResult :=
  Synchronization.createLoop env maxFramesInFlight 0
    { imageAvailableSemaphores := List.replicate maxFramesInFlight none
      renderFinishedSemaphores := List.replicate maxFramesInFlight none
      inFlightFences := List.replicate maxFramesInFlight none
      maxFramesInFlight := maxFramesInFlight } []

/-- The creation calls of slot `i` when none fails. -/
def slotCreation (i : Nat) : List SyncCall :=
  [.createSemaphore (.imageAvailable i), .createSemaphore (.renderFinished i),
   .createFence VK_FENCE_CREATE_SIGNALED_BIT i]

/-- Answers with which every creation call succeeds. -/
def SyncEnv.ok : SyncEnv :=
  { imageAvailableResult := fun _ => VK_SUCCESS
    renderFinishedResult := fun _ => VK_SUCCESS
    fenceResult := fun _ => VK_SUCCESS }

/-! ## Run and teardown of the application -/

/-- The constant `VK_ERROR_SURFACE_LOST_KHR`. -/
def VK_ERROR_SURFACE_LOST_KHR : VkResult := -1000000000

/-- What happens on the device over the life of an initialised application: the calls of the
ticks, and the steps of waiting for the device and of destroying objects. -/
inductive Event where
  /-- A call issued by `render`. -/
  | call (c : Call)
  /-- Call `vkDeviceWaitIdle(device)`, returned. -/
  | deviceWaitIdle
  /-- Call `vkDestroySemaphore(device, semaphore, nullptr)`. -/
  | destroySemaphore (semaphore : Semaphore)
  /-- Call `vkDestroyFence(device, inFlightFences[fence], nullptr)`. -/
  | destroyFence (fence : Nat)
  /-- The destructor of `PipelineManager`, run by `pipelineManager.reset()`. -/
  | destroyPipelineManager
  /-- The destructor of the vertex buffer, run by `vertexBuffer.reset()`. -/
  | destroyVertexBuffer
  /-- The destructor of the index buffer, run by `indexBuffer.reset()`. -/
  | destroyIndexBuffer
  /-- The rest of the destructor of `VulkanContext` after its wait: command manager, swap
  chain, device, debug messenger, surface and instance are destroyed. -/
  | destroyContext
  /-- The destructor of `Window`, run by `window.reset()`. -/
  | destroyWindow
  deriving DecidableEq, Repr

/-- The loop of the destructor `Synchronization::~Synchronization` from slot `i` on, with
`count` slots to go. -/
def Synchronization.destroyLoop : Nat → Nat → List Event
  | 0, _ => []
  | count + 1, i =>
    [.destroySemaphore (.renderFinished i), .destroySemaphore (.imageAvailable i), .destroyFence i]
      ++ Synchronization.destroyLoop count (i + 1)

/-- The destructor `Synchronization::~Synchronization` of a synchronizer with
`maxFramesInFlight` slots. -/
def Synchronization.destroy (maxFramesInFlight : Nat) : List Event :=
  Synchronization.destroyLoop maxFramesInFlight 0

/-- Member `VulkanContext::waitIdle` of a context whose device exists. -/
def VulkanContext.waitIdle : List Event :=
  [.deviceWaitIdle]

/-- The destructor `VulkanContext::~VulkanContext` of a context whose device exists: it waits
for the device, then destroys what the context owns. -/
def VulkanContext.destroy : List Event :=
  [.deviceWaitIdle, .destroyContext]

/-- Member `Application::cleanup`, which the destructor of `Application` calls: the members
are reset in the order written there, the synchronizer first and the context after the
buffers. -/
def Application.cleanup (app : Application) : List Event :=
  Synchronization.destroy app.maxFramesInFlight
    ++ [.destroyPipelineManager, .destroyVertexBuffer, .destroyIndexBuffer]
    ++ VulkanContext.destroy
    ++ [.destroyWindow]

/-- The events of a run and how it ended. -/
structure RunResult where
  events : List Event
  outcome : Outcome
  deriving DecidableEq, Repr

/-- Member `Application::run`: one `render` per element of `envs` (the passes of the loop
made before `isRunning && !window->shouldClose()` fails), then `vulkanContext->waitIdle()`.
An exception of `render` leaves `run` at once, past the wait. -/
def Application.run (app : Application) (envs : List TickEnv) : RunResult :=
  let r := renderTicks app envs
  match r.outcome with
  | .threw what => ⟨r.calls.map .call, .threw what⟩
  | .returned => ⟨r.calls.map .call ++ VulkanContext.waitIdle, .returned⟩

/-- The body of the `try` block of `main` from `app.run()` on, for an application `app` that
`init` has set up: `run`, then the destructor of `app` as the block is left, by its end or
by the exception of `run`; `outcome` is what reaches the `catch`. -/
def mainRun (app : Application) (envs : List TickEnv) : RunResult :=
  let r := app.run envs
  ⟨r.events ++ app.cleanup, r.outcome⟩

/-- The device may be busy after the event: a queue submission makes it so, a completed
wait for the device ends it. -/
def busyAfter (busy : Bool) : Event → Bool
  | .call (.queueSubmit _ _) => true
  | .deviceWaitIdle => false
  | _ => busy

/-- The event destroys a semaphore or a fence of the synchronizer. -/
def Event.destroysSync : Event → Bool
  | .destroySemaphore _ => true
  | .destroyFence _ => true
  | _ => false

/-- Some semaphore or fence is destroyed in `events` with a queue submission before it and
no completed wait for the device in between (`busy` tells whether such a submission precedes
`events`). -/
def destroyedWhileBusy : Bool → List Event → Bool
  | _, [] => false
  | busy, e :: es => (busy && e.destroysSync) || destroyedWhileBusy (busyAfter busy e) es

/-! ## The presentation surface -/

/-- Modelled from the spec: the state of the presentation surface (class `SwapChain`, whose
implementation file is not part of the sources; only `SwapChain.h` is) as far as pipelines
depend on it, the render-pass handle it holds (`getRenderPass()`).  Render passes are named
by numbers. -/
structure SwapChain where
  renderPass : Nat
  deriving DecidableEq, Repr

/-- Modelled from the spec: `SwapChain::recreate`, missing from the sources.  The spec has it
tear down framebuffers, views, render pass and images and call `create()` again, which
builds a render pass; so the surface holds a new render pass afterwards, named by the next
number, and the one from before is destroyed. -/
def SwapChain.recreate (swapChain : SwapChain) : SwapChain :=
  { renderPass := swapChain.renderPass + 1 }

/-- The surface after a list of calls of ticks: each `recreate` among them recreates it. -/
def SwapChain.after (swapChain : SwapChain) (calls : List Call) : SwapChain :=
  calls.foldl (fun sc c => if c = .recreate then sc.recreate else sc) swapChain

/-- The pipeline "basic" as `initVulkan` builds it when the surface holds render pass 31. -/
def basicPipeline : Pipeline :=
  builtPipeline Application.basicConfig (CreateEnv.ok 7)

/-! ## Basic facts about one tick -/

@[simp]
theorem outOfDate_ne_success : VK_ERROR_OUT_OF_DATE_KHR ≠ VK_SUCCESS := by decide

@[simp]
theorem outOfDate_ne_suboptimal : VK_ERROR_OUT_OF_DATE_KHR ≠ VK_SUBOPTIMAL_KHR := by
  decide

@[simp]
theorem suboptimal_ne_success : VK_SUBOPTIMAL_KHR ≠ VK_SUCCESS := by decide

@[simp]
theorem success_ne_outOfDate : VK_SUCCESS ≠ VK_ERROR_OUT_OF_DATE_KHR := by decide

@[simp]
theorem suboptimal_ne_outOfDate : VK_SUBOPTIMAL_KHR ≠ VK_ERROR_OUT_OF_DATE_KHR := by
  decide

@[simp]
theorem success_ne_suboptimal : VK_SUCCESS ≠ VK_SUBOPTIMAL_KHR := by decide

/-- The guarded block never throws: it records nothing, or the six calls of `drawBlock`. -/
theorem bindAndDraw_cases (app : Application) (env : TickEnv) (cb : Nat) :
    bindAndDraw app env cb = .ok [] ∨ ∃ p, bindAndDraw app env cb = .ok (drawBlock env cb p) := by
  unfold bindAndDraw
  cases hpm : app.pipelineManager with
  | none => simp
  | some pm =>
    simp only [PipelineManager.hasPipeline, PipelineManager.getPipeline]
    cases hl : pm.pipelines.lookup "basic" with
    | none => simp
    | some p => right; exact ⟨p.graphicsPipeline, by simp [drawBlock]⟩

/-- The guarded block does not look at the frame fields of the application. -/
theorem bindAndDraw_frame (app : Application) (env : TickEnv) (cb f : Nat) :
    bindAndDraw { app with commandManagerFrame := f } env cb = bindAndDraw app env cb := rfl

/-- A minimized window: the tick returns at once. -/
theorem render_minimized (app : Application) (env : TickEnv) (h : env.minimized = true) :
    render app env = ⟨app, [], .returned⟩ := by
  simp [render, h]

/-- The result of `render` on each of its paths. -/
theorem render_path (app : Application) (env : TickEnv) : TickPath app env (render app env) := by
  by_cases hmin : env.minimized = true
  · rw [render_minimized app env hmin]; exact .minimized hmin
  have hmin : env.minimized = false := by simpa using hmin
  by_cases hood : env.acquireResult = VK_ERROR_OUT_OF_DATE_KHR
  · have : render app env = ⟨app.setFrame, callsAcquire app.currentFrame ++ [.recreate],
        .returned⟩ := by
      simp [render, hmin, hood, Application.setFrame, callsAcquire]
    rw [this]; exact .acquireOutOfDate hmin hood
  by_cases hacq : env.acquired
  swap
  · have h1 : env.acquireResult ≠ VK_SUCCESS := fun h => hacq (Or.inl h)
    have h2 : env.acquireResult ≠ VK_SUBOPTIMAL_KHR := fun h => hacq (Or.inr h)
    have : render app env = ⟨app.setFrame, callsAcquire app.currentFrame,
        .threw "Failed to acquire swap chain image"⟩ := by
      simp [render, hmin, hood, h1, h2, Application.setFrame, callsAcquire]
    rw [this]; exact .acquireFailed hmin hood h1 h2
  have hne : ∀ r : VkResult, r = VK_SUCCESS ∨ r = VK_SUBOPTIMAL_KHR →
      (r = VK_ERROR_OUT_OF_DATE_KHR) = False ∧
      (r ≠ VK_SUCCESS ∧ r ≠ VK_SUBOPTIMAL_KHR) = False := by
    intro r hr
    rcases hr with h | h <;> subst h <;> simp [outOfDate_ne_success.symm,
      outOfDate_ne_suboptimal.symm, suboptimal_ne_success]
  obtain ⟨hgo1, hgo2⟩ := hne _ hacq
  by_cases hb : env.beginResult = VK_SUCCESS
  swap
  · have : render app env = ⟨app.setFrame, callsBegin app.currentFrame,
        .threw "Failed to begin recording command buffer!"⟩ := by
      simp [render, hmin, hgo1, hgo2, hb, Application.setFrame, callsBegin, callsAcquire]
    rw [this]; exact .beginFailed hmin hacq hb
  obtain ⟨ds, hds, hdc⟩ : ∃ ds, bindAndDraw app env app.currentFrame = .ok ds
      ∧ DrawCalls env app.currentFrame ds := by
    rcases bindAndDraw_cases app env app.currentFrame with h | ⟨p, h⟩
    · exact ⟨[], h, Or.inl rfl⟩
    · exact ⟨_, h, Or.inr ⟨p, rfl⟩⟩
  by_cases he : env.endResult = VK_SUCCESS
  swap
  · have : render app env = ⟨app.setFrame, callsRecord app.currentFrame env ds,
        .threw "Failed to record command buffer!"⟩ := by
      simp [render, hmin, hgo1, hgo2, hb, bindAndDraw_frame, hds, he, Application.setFrame,
        callsRecord, callsBegin, callsAcquire]
    rw [this]; exact .endFailed ds hdc hmin hacq hb he
  by_cases hs : env.submitResult = VK_SUCCESS
  swap
  · have : render app env = ⟨app.setFrame, callsSubmit app.currentFrame env ds,
        .threw "Failed to submit draw command buffer!"⟩ := by
      simp [render, hmin, hgo1, hgo2, hb, bindAndDraw_frame, hds, he, hs, Application.setFrame,
        callsSubmit, callsRecord, callsBegin, callsAcquire]
    rw [this]; exact .submitFailed ds hdc hmin hacq hb he hs
  by_cases hpr : env.presentResult = VK_ERROR_OUT_OF_DATE_KHR
      ∨ env.presentResult = VK_SUBOPTIMAL_KHR
  · have : render app env = ⟨app.setFrame.advance,
        callsPresent app.currentFrame env ds ++ [.recreate], .returned⟩ := by
      simp [render, hmin, hgo1, hgo2, hb, bindAndDraw_frame, hds, he, hs, hpr,
        Application.setFrame, callsPresent, callsSubmit, callsRecord, callsBegin, callsAcquire]
    rw [this]; exact .presentRecreate ds hdc hmin hacq hb he hs hpr
  by_cases hp : env.presentResult = VK_SUCCESS
  swap
  · have : render app env = ⟨app.setFrame, callsPresent app.currentFrame env ds,
        .threw "Failed to present swap chain image!"⟩ := by
      simp [render, hmin, hgo1, hgo2, hb, bindAndDraw_frame, hds, he, hs, hpr, hp,
        Application.setFrame, callsPresent, callsSubmit, callsRecord, callsBegin, callsAcquire]
    rw [this]
    exact .presentFailed ds hdc hmin hacq hb he hs (fun h => hpr (Or.inl h))
      (fun h => hpr (Or.inr h)) hp
  · have : render app env = ⟨app.setFrame.advance, callsPresent app.currentFrame env ds,
        .returned⟩ := by
      simp [render, hmin, hgo1, hgo2, hb, bindAndDraw_frame, hds, he, hs, hp,
        outOfDate_ne_success.symm, suboptimal_ne_success.symm,
        Application.setFrame, callsPresent, callsSubmit, callsRecord, callsBegin, callsAcquire]
    rw [this]; exact .presented ds hdc hmin hacq hb he hs hp

/-- A tick with a visible window starts by waiting on the fence of the current frame. -/
theorem render_head_wait (app : Application) (env : TickEnv) (hmin : env.minimized = false) :
    (render app env).calls.head? = some (.waitForFences app.currentFrame) := by
  have h := render_path app env
  generalize render app env = r at h ⊢
  cases h <;>
    simp_all [callsPresent, callsSubmit, callsRecord, callsBegin, callsAcquire]

/-- A tick whose acquire reports out-of-date recreates the swap chain and returns. -/
theorem render_acquireOutOfDate (app : Application) (env : TickEnv)
    (hmin : env.minimized = false) (hacq : env.acquireResult = VK_ERROR_OUT_OF_DATE_KHR) :
    render app env = ⟨app.setFrame, callsAcquire app.currentFrame ++ [.recreate], .returned⟩ := by
  simp [render, hmin, hacq, Application.setFrame, callsAcquire]

/-- A tick with a visible window whose acquire and present succeed and which does not end
in an exception takes the path through present and advance. -/
theorem render_of_returned (app : Application) (env : TickEnv)
    (hmin : env.minimized = false) (hacq : env.acquireResult = VK_SUCCESS)
    (hp : env.presentResult = VK_SUCCESS) (hret : (render app env).outcome = .returned) :
    ∃ ds, DrawCalls env app.currentFrame ds ∧
      render app env = ⟨app.setFrame.advance, callsPresent app.currentFrame env ds, .returned⟩ := by
  have h := render_path app env
  generalize render app env = r at h hret ⊢
  cases h with
  | minimized h => simp [hmin] at h
  | acquireOutOfDate _ h => rw [hacq] at h; exact absurd h.symm outOfDate_ne_success
  | acquireFailed _ _ h _ => exact absurd hacq h
  | beginFailed => simp at hret
  | endFailed => simp at hret
  | submitFailed => simp at hret
  | presentRecreate ds _ _ _ _ _ _ h =>
    rw [hp] at h
    rcases h with h | h
    · exact absurd h.symm outOfDate_ne_success
    · exact absurd h.symm suboptimal_ne_success
  | presentFailed => simp at hret
  | presented ds hdc => exact ⟨ds, hdc, rfl⟩

/-- A tick with a visible window whose acquire and present succeed issues one acquire and
never recreates the swap chain, however it ends. -/
theorem render_success_counts (app : Application) (env : TickEnv)
    (hmin : env.minimized = false) (hacq : env.acquireResult = VK_SUCCESS)
    (hp : env.presentResult = VK_SUCCESS) :
    (render app env).calls.count .recreate = 0 ∧
    ((render app env).calls.filter Call.isAcquire).length = 1 := by
  have h := render_path app env
  generalize render app env = r at h ⊢
  cases h <;> (try rcases ‹DrawCalls _ _ _› with rfl | ⟨p, rfl⟩) <;>
    simp_all [callsPresent, callsSubmit, callsRecord, callsBegin, callsAcquire,
      drawBlock, Call.isAcquire]

/-- The slot index after `advance`, for a well-formed state: the 32-bit addition does not
wrap. -/
theorem advance_currentFrame (app : Application) (hwf : app.WellFormed) :
    app.setFrame.advance.currentFrame = (app.currentFrame + 1) % app.maxFramesInFlight := by
  obtain ⟨_, h32, hlt⟩ := hwf
  have : app.currentFrame + 1 < 2 ^ 32 := by omega
  show (app.currentFrame + 1) % 2 ^ 32 % app.maxFramesInFlight = _
  rw [Nat.mod_eq_of_lt this]

/-- A tick leaves `maxFramesInFlight` alone and moves `currentFrame` nowhere or one slot on. -/
theorem render_wellFormed (app : Application) (env : TickEnv) (hwf : app.WellFormed) :
    (render app env).app.WellFormed := by
  have hadv := advance_currentFrame app hwf
  have hlt : (app.currentFrame + 1) % app.maxFramesInFlight < app.maxFramesInFlight :=
    Nat.mod_lt _ hwf.1
  have hm : app.setFrame.advance.maxFramesInFlight = app.maxFramesInFlight := rfl
  have hp := render_path app env
  generalize render app env = r at hp ⊢
  cases hp <;> first
    | exact hwf
    | exact ⟨hm ▸ hwf.1, hm ▸ hwf.2.1, by rw [hadv, hm]; exact hlt⟩

/-! ## Consecutive ticks -/

/-- Unfolding of `renderTicks` at a first tick that returns. -/
theorem renderTicks_cons (app : Application) (env : TickEnv) (envs : List TickEnv)
    (h : (render app env).outcome = .returned) :
    renderTicks app (env :: envs) =
      ⟨(renderTicks (render app env).app envs).app,
       (render app env).calls ++ (renderTicks (render app env).app envs).calls,
       (renderTicks (render app env).app envs).outcome⟩ := by
  simp [renderTicks, h]

/-- A run that returns has a first tick that returns. -/
theorem renderTicks_cons_returned (app : Application) (env : TickEnv) (envs : List TickEnv)
    (h : (renderTicks app (env :: envs)).outcome = .returned) :
    (render app env).outcome = .returned := by
  cases hr : (render app env).outcome with
  | returned => rfl
  | threw w => simp [renderTicks, hr] at h

/-- The calls of a run of one tick are the calls of that tick. -/
theorem renderTicks_single_calls (app : Application) (env : TickEnv) :
    (renderTicks app [env]).calls = (render app env).calls := by
  cases h : (render app env).outcome <;> simp [renderTicks, h]

/-- One step of a run in which the first tick has a visible window and a successful acquire
and present. -/
theorem renderTicks_step (app : Application) (env : TickEnv) (envs : List TickEnv)
    (hmin : env.minimized = false) (hacq : env.acquireResult = VK_SUCCESS)
    (hp : env.presentResult = VK_SUCCESS)
    (hrun : (renderTicks app (env :: envs)).outcome = .returned) :
    ∃ ds, DrawCalls env app.currentFrame ds ∧
      (renderTicks app (env :: envs)).app = (renderTicks app.setFrame.advance envs).app ∧
      (renderTicks app (env :: envs)).calls =
        callsPresent app.currentFrame env ds ++ (renderTicks app.setFrame.advance envs).calls ∧
      (renderTicks app.setFrame.advance envs).outcome = .returned := by
  have hret := renderTicks_cons_returned app env envs hrun
  obtain ⟨ds, hdc, hr⟩ := render_of_returned app env hmin hacq hp hret
  rw [renderTicks_cons app env envs hret] at hrun ⊢
  rw [hr] at hrun ⊢
  exact ⟨ds, hdc, rfl, rfl, hrun⟩

theorem waitedFences_append (a b : List Call) :
    waitedFences (a ++ b) = waitedFences a ++ waitedFences b := by
  simp [waitedFences, List.filterMap_append]

theorem submittedFences_append (a b : List Call) :
    submittedFences (a ++ b) = submittedFences a ++ submittedFences b := by
  simp [submittedFences, List.filterMap_append]

/-- What a tick that runs through the present call contributes to the observations. -/
theorem callsPresent_observed (env : TickEnv) (f : Nat) (ds : List Call)
    (hdc : DrawCalls env f ds) :
    waitedFences (callsPresent f env ds) = [f] ∧
    submittedFences (callsPresent f env ds) = [f] ∧
    ((callsPresent f env ds).filter Call.isSubmit).length = 1 ∧
    ((callsPresent f env ds).filter Call.isPresent).length = 1 := by
  rcases hdc with rfl | ⟨p, rfl⟩ <;>
    simp [callsPresent, callsSubmit, callsRecord, callsBegin, callsAcquire, drawBlock,
      waitedFences, submittedFences, Call.isSubmit, Call.isPresent]

/-! ## Facts about submissions in flight -/

theorem sinceWaitFrom_append (i n : Nat) (a b : List Call) :
    sinceWaitFrom i n (a ++ b) = sinceWaitFrom i (sinceWaitFrom i n a) b := by
  simp [sinceWaitFrom, List.foldl_append]

theorem maxSinceWait_nil (i n : Nat) : maxSinceWait i n [] = n := rfl

theorem maxSinceWait_cons (i n : Nat) (c : Call) (cs : List Call) :
    maxSinceWait i n (c :: cs) = max n (maxSinceWait i (sinceWaitStep i n c) cs) := rfl

theorem sinceWaitFrom_cons (i n : Nat) (c : Call) (cs : List Call) :
    sinceWaitFrom i n (c :: cs) = sinceWaitFrom i (sinceWaitStep i n c) cs := rfl

/-- The largest count is at least the starting count. -/
theorem le_maxSinceWait (i : Nat) (calls : List Call) (n : Nat) :
    n ≤ maxSinceWait i n calls := by
  cases calls with
  | nil => simp [maxSinceWait_nil]
  | cons c cs => rw [maxSinceWait_cons]; exact le_max_left _ _

theorem maxSinceWait_append (i : Nat) (a b : List Call) (n : Nat) :
    maxSinceWait i n (a ++ b)
      = max (maxSinceWait i n a) (maxSinceWait i (sinceWaitFrom i n a) b) := by
  induction a generalizing n with
  | nil =>
    have := le_maxSinceWait i b n
    simp only [List.nil_append, maxSinceWait_nil, sinceWaitFrom, List.foldl_nil]
    omega
  | cons c cs ih =>
    rw [List.cons_append, maxSinceWait_cons, maxSinceWait_cons, sinceWaitFrom_cons, ih]
    omega

/-- The count after any initial part of the calls is at most the largest count. -/
theorem sinceWaitFrom_le_max (i : Nat) (p q : List Call) (n : Nat) :
    sinceWaitFrom i n p ≤ maxSinceWait i n (p ++ q) := by
  induction p generalizing n with
  | nil => exact le_maxSinceWait i _ n
  | cons c cs ih =>
    have := ih (sinceWaitStep i n c)
    rw [List.cons_append, maxSinceWait_cons, sinceWaitFrom_cons]
    omega

/-- Without a wait on fence `i` the count does not go down. -/
theorem le_sinceWaitFrom (i : Nat) (calls : List Call) (n : Nat)
    (h : .waitForFences i ∉ calls) : n ≤ sinceWaitFrom i n calls := by
  induction calls generalizing n with
  | nil => simp [sinceWaitFrom]
  | cons c cs ih =>
    have hc : c ≠ .waitForFences i := fun e => h (e ▸ List.mem_cons_self _ _)
    have hcs : .waitForFences i ∉ cs := fun e => h (List.mem_cons_of_mem _ e)
    have hstep : n ≤ sinceWaitStep i n c := by
      cases c <;> simp [sinceWaitStep]
      · rename_i j
        have : j ≠ i := fun e => hc (by rw [e])
        simp [this]
      · split <;> omega
    have := ih (sinceWaitStep i n c) hcs
    simp only [sinceWaitFrom, List.foldl_cons] at this ⊢
    omega

/-- One tick on the fence of its own frame: it waits first and submits at most once. -/
theorem render_sinceWait_own (app : Application) (env : TickEnv) (n : Nat) (hn : n ≤ 1) :
    maxSinceWait app.currentFrame n (render app env).calls ≤ 1 ∧
    sinceWaitFrom app.currentFrame n (render app env).calls ≤ 1 := by
  have hp := render_path app env
  generalize render app env = r at hp ⊢
  cases hp <;> (try rcases ‹DrawCalls _ _ _› with rfl | ⟨p, rfl⟩) <;>
    simp [callsPresent, callsSubmit, callsRecord, callsBegin, callsAcquire,
      drawBlock, maxSinceWait, sinceWaitFrom, sinceWaitStep, hn]

/-- One tick on the fence of another frame: nothing happens to it. -/
theorem render_sinceWait_other (app : Application) (env : TickEnv) (i n : Nat)
    (hi : app.currentFrame ≠ i) :
    maxSinceWait i n (render app env).calls = n ∧
    sinceWaitFrom i n (render app env).calls = n := by
  have hp := render_path app env
  generalize render app env = r at hp ⊢
  cases hp <;> (try rcases ‹DrawCalls _ _ _› with rfl | ⟨p, rfl⟩) <;>
    simp [callsPresent, callsSubmit, callsRecord, callsBegin, callsAcquire,
      drawBlock, maxSinceWait, sinceWaitFrom, sinceWaitStep, hi]

/-- Over a run, the count on any fence never exceeds one. -/
theorem renderTicks_maxSinceWait (envs : List TickEnv) (app : Application) (i n : Nat)
    (hn : n ≤ 1) :
    maxSinceWait i n (renderTicks app envs).calls ≤ 1 ∧
    sinceWaitFrom i n (renderTicks app envs).calls ≤ 1 := by
  induction envs generalizing app n with
  | nil => simpa [renderTicks, maxSinceWait_nil, sinceWaitFrom] using hn
  | cons e es ih =>
    have htick : maxSinceWait i n (render app e).calls ≤ 1 ∧
        sinceWaitFrom i n (render app e).calls ≤ 1 := by
      by_cases hi : app.currentFrame = i
      · subst hi; exact render_sinceWait_own app e n hn
      · obtain ⟨h1, h2⟩ := render_sinceWait_other app e i n hi
        rw [h1, h2]; exact ⟨hn, hn⟩
    cases hr : (render app e).outcome with
    | threw w =>
      have : renderTicks app (e :: es) = render app e := by simp [renderTicks, hr]
      rw [this]; exact htick
    | returned =>
      rw [renderTicks_cons app e es hr]
      obtain ⟨h1, h2⟩ := ih (render app e).app _ htick.2
      simp only [maxSinceWait_append, sinceWaitFrom_append]
      exact ⟨max_le htick.1 h1, h2⟩

/-- Over a run from a well-formed state, nothing is ever submitted on a fence whose index is
not a slot. -/
theorem renderTicks_maxSinceWait_zero (envs : List TickEnv) (app : Application) (i : Nat)
    (hwf : app.WellFormed) (hi : app.maxFramesInFlight ≤ i) :
    maxSinceWait i 0 (renderTicks app envs).calls = 0 ∧
    sinceWaitFrom i 0 (renderTicks app envs).calls = 0 := by
  induction envs generalizing app with
  | nil => simp [renderTicks, maxSinceWait_nil, sinceWaitFrom]
  | cons e es ih =>
    have hne : app.currentFrame ≠ i := by have := hwf.2.2; omega
    obtain ⟨t1, t2⟩ := render_sinceWait_other app e i 0 hne
    cases hr : (render app e).outcome with
    | threw w =>
      have : renderTicks app (e :: es) = render app e := by simp [renderTicks, hr]
      rw [this]; exact ⟨t1, t2⟩
    | returned =>
      rw [renderTicks_cons app e es hr]
      have hwf2 := render_wellFormed app e hwf
      have hm : (render app e).app.maxFramesInFlight = app.maxFramesInFlight := by
        have hp := render_path app e
        generalize render app e = r at hp ⊢
        cases hp <;> rfl
      obtain ⟨h1, h2⟩ := ih (render app e).app hwf2 (by rw [hm]; exact hi)
      simp only [maxSinceWait_append, sinceWaitFrom_append, t1, t2, h1, h2, max_self]
      exact ⟨trivial, trivial⟩

/-! ## The frame driver: claims C1 to C10 -/

/-- Claim C1: from the state `Application::init` leaves (slot 0, pipeline "basic" registered)
with two frames in flight, five ticks that run (none ends in an exception) with a visible
window and successful acquire and present issue exactly five `vkQueueSubmit` and exactly five
`vkQueuePresentKHR` calls, wait on and submit with the fences of slots 0, 1, 0, 1, 0 in that
order, and a sixth tick starts by waiting on the fence of slot 1. -/
theorem five_ticks_from_init (basic : Pipeline) (envs : List TickEnv) (env6 : TickEnv)
    (hlen : envs.length = 5)
    (hvis : ∀ e ∈ envs, e.minimized = false)
    (hacq : ∀ e ∈ envs, e.acquireResult = VK_SUCCESS)
    (hpres : ∀ e ∈ envs, e.presentResult = VK_SUCCESS)
    (hrun : (renderTicks (Application.init 2 basic) envs).outcome = .returned)
    (h6 : env6.minimized = false) :
    ((renderTicks (Application.init 2 basic) envs).calls.filter Call.isSubmit).length = 5 ∧
    ((renderTicks (Application.init 2 basic) envs).calls.filter Call.isPresent).length = 5 ∧
    waitedFences (renderTicks (Application.init 2 basic) envs).calls = [0, 1, 0, 1, 0] ∧
    submittedFences (renderTicks (Application.init 2 basic) envs).calls = [0, 1, 0, 1, 0] ∧
    (render (renderTicks (Application.init 2 basic) envs).app env6).calls.head?
      = some (.waitForFences 1) := by
  match envs, hlen with
  | [e1, e2, e3, e4, e5], _ =>
    simp only [List.mem_cons, List.mem_singleton, forall_eq_or_imp, forall_eq, List.not_mem_nil,
      false_imp_iff, implies_true, and_true] at hvis hacq hpres
    obtain ⟨v1, v2, v3, v4, v5⟩ := hvis
    obtain ⟨a1, a2, a3, a4, a5⟩ := hacq
    obtain ⟨p1, p2, p3, p4, p5⟩ := hpres
    obtain ⟨d1, hd1, ha1, hc1, hr1⟩ := renderTicks_step _ e1 _ v1 a1 p1 hrun
    obtain ⟨d2, hd2, ha2, hc2, hr2⟩ := renderTicks_step _ e2 _ v2 a2 p2 hr1
    obtain ⟨d3, hd3, ha3, hc3, hr3⟩ := renderTicks_step _ e3 _ v3 a3 p3 hr2
    obtain ⟨d4, hd4, ha4, hc4, hr4⟩ := renderTicks_step _ e4 _ v4 a4 p4 hr3
    obtain ⟨d5, hd5, ha5, hc5, hr5⟩ := renderTicks_step _ e5 _ v5 a5 p5 hr4
    rw [hc1, hc2, hc3, hc4, hc5, ha1, ha2, ha3, ha4, ha5]
    obtain ⟨w1, s1, q1, r1⟩ := callsPresent_observed _ _ _ hd1
    obtain ⟨w2, s2, q2, r2⟩ := callsPresent_observed _ _ _ hd2
    obtain ⟨w3, s3, q3, r3⟩ := callsPresent_observed _ _ _ hd3
    obtain ⟨w4, s4, q4, r4⟩ := callsPresent_observed _ _ _ hd4
    obtain ⟨w5, s5, q5, r5⟩ := callsPresent_observed _ _ _ hd5
    simp only [List.filter_append, List.length_append, waitedFences_append,
      submittedFences_append, w1, w2, w3, w4, w5, s1, s2, s3, s4, s5, q1, q2, q3, q4, q5,
      r1, r2, r3, r4, r5, renderTicks]
    refine ⟨by simp, by simp, ?_, ?_, ?_⟩
    · simp [Application.init, Application.setFrame, Application.advance, waitedFences]
    · simp [Application.init, Application.setFrame, Application.advance, submittedFences]
    · rw [render_head_wait _ _ h6]
      simp [Application.init, Application.setFrame, Application.advance]

/-- Witness for claim C1: five successful ticks from the initial state with two frames in
flight and pipeline handle 7. -/
theorem five_ticks_from_init_witness :
    ((renderTicks (Application.init 2 samplePipeline)
        [TickEnv.ok 0, TickEnv.ok 1, TickEnv.ok 2, TickEnv.ok 0, TickEnv.ok 1]).calls.filter
        Call.isSubmit).length = 5 ∧
    ((renderTicks (Application.init 2 samplePipeline)
        [TickEnv.ok 0, TickEnv.ok 1, TickEnv.ok 2, TickEnv.ok 0, TickEnv.ok 1]).calls.filter
        Call.isPresent).length = 5 ∧
    waitedFences (renderTicks (Application.init 2 samplePipeline)
        [TickEnv.ok 0, TickEnv.ok 1, TickEnv.ok 2, TickEnv.ok 0, TickEnv.ok 1]).calls
      = [0, 1, 0, 1, 0] ∧
    submittedFences (renderTicks (Application.init 2 samplePipeline)
        [TickEnv.ok 0, TickEnv.ok 1, TickEnv.ok 2, TickEnv.ok 0, TickEnv.ok 1]).calls
      = [0, 1, 0, 1, 0] ∧
    (render (renderTicks (Application.init 2 samplePipeline)
        [TickEnv.ok 0, TickEnv.ok 1, TickEnv.ok 2, TickEnv.ok 0, TickEnv.ok 1]).app
        (TickEnv.ok 2)).calls.head? = some (.waitForFences 1) :=
  five_ticks_from_init samplePipeline
    [TickEnv.ok 0, TickEnv.ok 1, TickEnv.ok 2, TickEnv.ok 0, TickEnv.ok 1] (TickEnv.ok 2)
    (by decide) (by decide) (by decide) (by decide) (by decide) (by decide)

/-- Claim C2: for every slot value and every number K of ticks (the length of `envs`), K
consecutive ticks with a minimized window issue no call at all (so no fence wait, acquire,
submit or present), return normally and leave the whole state, the slot index included, as it
was; the first call of a following tick with a visible window is the wait on the fence of
that same slot. -/
theorem minimized_ticks_idle (app : Application) (envs : List TickEnv) (next : TickEnv)
    (hmin : ∀ e ∈ envs, e.minimized = true) (hnext : next.minimized = false) :
    (renderTicks app envs).calls = [] ∧
    (renderTicks app envs).outcome = .returned ∧
    (renderTicks app envs).app = app ∧
    (render (renderTicks app envs).app next).calls.head?
      = some (.waitForFences app.currentFrame) := by
  have h : renderTicks app envs = ⟨app, [], .returned⟩ := by
    induction envs with
    | nil => rfl
    | cons e es ih =>
      have he : e.minimized = true := hmin e (List.mem_cons_self _ _)
      have hes := ih (fun x hx => hmin x (List.mem_cons_of_mem _ hx))
      simp [renderTicks, render_minimized app e he, hes]
  rw [h]
  exact ⟨rfl, rfl, rfl, render_head_wait app next hnext⟩

/-- Witness for claim C2: three minimized ticks at slot 1 of 2, then a visible one. -/
theorem minimized_ticks_idle_witness :
    (renderTicks { Application.init 2 samplePipeline with currentFrame := 1 }
        (List.replicate 3 { TickEnv.ok 0 with minimized := true })).calls = [] ∧
    (renderTicks { Application.init 2 samplePipeline with currentFrame := 1 }
        (List.replicate 3 { TickEnv.ok 0 with minimized := true })).outcome = .returned ∧
    (renderTicks { Application.init 2 samplePipeline with currentFrame := 1 }
        (List.replicate 3 { TickEnv.ok 0 with minimized := true })).app
      = { Application.init 2 samplePipeline with currentFrame := 1 } ∧
    (render (renderTicks { Application.init 2 samplePipeline with currentFrame := 1 }
        (List.replicate 3 { TickEnv.ok 0 with minimized := true })).app
        (TickEnv.ok 0)).calls.head? = some (.waitForFences 1) :=
  minimized_ticks_idle { Application.init 2 samplePipeline with currentFrame := 1 }
    (List.replicate 3 { TickEnv.ok 0 with minimized := true }) (TickEnv.ok 0)
    (by decide) (by decide)

/-- Claim C3: three consecutive ticks with a visible window whose acquire results are
success, out-of-date, success, the presents of the first and the third succeeding and the
first tick returning: `SwapChain::recreate` is called exactly once over the three ticks, and
that call comes right after the second acquire (two acquires precede it, the last call before
it is an acquire) and before the third acquire (one acquire follows it). -/
theorem recreate_once_after_outOfDate (app : Application) (e1 e2 e3 : TickEnv)
    (v1 : e1.minimized = false) (v2 : e2.minimized = false) (v3 : e3.minimized = false)
    (a1 : e1.acquireResult = VK_SUCCESS) (a2 : e2.acquireResult = VK_ERROR_OUT_OF_DATE_KHR)
    (a3 : e3.acquireResult = VK_SUCCESS)
    (p1 : e1.presentResult = VK_SUCCESS) (p3 : e3.presentResult = VK_SUCCESS)
    (h1 : (render app e1).outcome = .returned) :
    (renderTicks app [e1, e2, e3]).calls.count .recreate = 1 ∧
    ∃ before after sem, (renderTicks app [e1, e2, e3]).calls = before ++ .recreate :: after ∧
      (before.filter Call.isAcquire).length = 2 ∧
      before.getLast? = some (.acquireNextImage sem) ∧
      (after.filter Call.isAcquire).length = 1 := by
  obtain ⟨d1, hd1, hr1⟩ := render_of_returned app e1 v1 a1 p1 h1
  have hr2 := render_acquireOutOfDate app.setFrame.advance e2 v2 a2
  obtain ⟨c3, q3⟩ := render_success_counts app.setFrame.advance.setFrame e3 v3 a3 p3
  have hcalls : (renderTicks app [e1, e2, e3]).calls =
      (callsPresent app.currentFrame e1 d1 ++ callsAcquire app.setFrame.advance.currentFrame)
        ++ .recreate :: (render app.setFrame.advance.setFrame e3).calls := by
    rw [renderTicks_cons app e1 _ h1, hr1]
    rw [renderTicks_cons _ e2 _ (by rw [hr2]), hr2, renderTicks_single_calls]
    simp
  have hc1 : (callsPresent app.currentFrame e1 d1).count .recreate = 0 ∧
      ((callsPresent app.currentFrame e1 d1).filter Call.isAcquire).length = 1 := by
    rcases hd1 with rfl | ⟨p, rfl⟩ <;>
      simp [callsPresent, callsSubmit, callsRecord, callsBegin, callsAcquire, drawBlock,
        Call.isAcquire]
  rw [hcalls]
  refine ⟨?_, _, _, .imageAvailable app.setFrame.advance.currentFrame, rfl, ?_, ?_, q3⟩
  · simp [List.count_append, hc1.1, c3, callsAcquire]
  · simp [List.filter_append, hc1.2, callsAcquire, Call.isAcquire]
  · simp [callsAcquire, List.getLast?_append]

/-- Witness for claim C3: acquire results success, out-of-date, success from the initial
state with two frames in flight. -/
theorem recreate_once_after_outOfDate_witness :
    (renderTicks (Application.init 2 samplePipeline)
      [TickEnv.ok 0, { TickEnv.ok 1 with acquireResult := VK_ERROR_OUT_OF_DATE_KHR },
        TickEnv.ok 1]).calls.count .recreate = 1 ∧
    ∃ before after sem,
      (renderTicks (Application.init 2 samplePipeline)
        [TickEnv.ok 0, { TickEnv.ok 1 with acquireResult := VK_ERROR_OUT_OF_DATE_KHR },
          TickEnv.ok 1]).calls = before ++ .recreate :: after ∧
      (before.filter Call.isAcquire).length = 2 ∧
      before.getLast? = some (.acquireNextImage sem) ∧
      (after.filter Call.isAcquire).length = 1 :=
  recreate_once_after_outOfDate (Application.init 2 samplePipeline) (TickEnv.ok 0)
    { TickEnv.ok 1 with acquireResult := VK_ERROR_OUT_OF_DATE_KHR } (TickEnv.ok 1)
    (by decide) (by decide) (by decide) (by decide) (by decide) (by decide) (by decide)
    (by decide) (by decide)

/-- Claim C4: a tick whose acquire returns out-of-date issues exactly the wait, the acquire
and `SwapChain::recreate`, so no fence reset, no recording call, no submit and no present; it
returns normally with the slot index unchanged; the fence of the slot is after the tick as the
wait left it, which is signaled when the wait succeeded, so the wait that opens the next
tick, which is on the same slot, does not block. -/
theorem acquire_outOfDate_abandons (app : Application) (env next : TickEnv)
    (fences : Nat → FenceState)
    (hmin : env.minimized = false) (hacq : env.acquireResult = VK_ERROR_OUT_OF_DATE_KHR)
    (hnext : next.minimized = false) :
    (render app env).calls = [.waitForFences app.currentFrame,
      .acquireNextImage (.imageAvailable app.currentFrame), .recreate] ∧
    (render app env).outcome = .returned ∧
    (∀ c ∈ (render app env).calls, c.isResetFences = false ∧ c.isRecording = false ∧
      c.isSubmit = false ∧ c.isPresent = false) ∧
    (render app env).app.currentFrame = app.currentFrame ∧
    fencesAfter fences env.waitResult (render app env).calls app.currentFrame
      = fencesAfter fences env.waitResult [.waitForFences app.currentFrame] app.currentFrame ∧
    (render (render app env).app next).calls.head? = some (.waitForFences app.currentFrame) ∧
    (env.waitResult = VK_SUCCESS →
      fencesAfter fences env.waitResult (render app env).calls app.currentFrame = .signaled ∧
      waitBlocks (fencesAfter fences env.waitResult (render app env).calls) app.currentFrame
        = false) := by
  rw [render_acquireOutOfDate app env hmin hacq]
  refine ⟨rfl, rfl, ?_, rfl, ?_, render_head_wait _ next hnext, ?_⟩
  · simp [callsAcquire, Call.isResetFences, Call.isRecording, Call.isSubmit, Call.isPresent]
  · simp [callsAcquire, fencesAfter, fenceStep]
  · intro hw
    simp [callsAcquire, fencesAfter, fenceStep, waitBlocks, hw]

/-- Witness for claim C4: an out-of-date acquire in the first tick after creation. -/
theorem acquire_outOfDate_abandons_witness :
    (render (Application.init 2 samplePipeline)
      { TickEnv.ok 0 with acquireResult := VK_ERROR_OUT_OF_DATE_KHR }).calls
      = [.waitForFences 0, .acquireNextImage (.imageAvailable 0), .recreate] ∧
    (render (Application.init 2 samplePipeline)
      { TickEnv.ok 0 with acquireResult := VK_ERROR_OUT_OF_DATE_KHR }).app.currentFrame = 0 ∧
    fencesAfter createdFences VK_SUCCESS (render (Application.init 2 samplePipeline)
      { TickEnv.ok 0 with acquireResult := VK_ERROR_OUT_OF_DATE_KHR }).calls 0 = .signaled ∧
    waitBlocks (fencesAfter createdFences VK_SUCCESS (render (Application.init 2 samplePipeline)
      { TickEnv.ok 0 with acquireResult := VK_ERROR_OUT_OF_DATE_KHR }).calls) 0 = false :=
  have h := acquire_outOfDate_abandons (Application.init 2 samplePipeline)
    { TickEnv.ok 0 with acquireResult := VK_ERROR_OUT_OF_DATE_KHR } (TickEnv.ok 0)
    createdFences (by decide) (by decide) (by decide)
  have hf := h.2.2.2.2.2.2 (by decide)
  ⟨h.1, h.2.2.2.1, hf.1, hf.2⟩

/-- Claim C5: when the acquire returns a result other than success, suboptimal and
out-of-date, the tick throws "Failed to acquire swap chain image" having issued only the wait
and the acquire (no fence reset, submit or present) and with the slot index unchanged; when
it returns suboptimal, the tick gives the very result (state, calls, outcome) it gives for
success, and its calls go on with the fence reset and the start of recording. -/
theorem acquire_failure_or_suboptimal (app : Application) (env : TickEnv)
    (hmin : env.minimized = false) :
    (env.acquireResult ≠ VK_SUCCESS → env.acquireResult ≠ VK_SUBOPTIMAL_KHR →
      env.acquireResult ≠ VK_ERROR_OUT_OF_DATE_KHR →
      (render app env).outcome = .threw "Failed to acquire swap chain image" ∧
      (render app env).calls = [.waitForFences app.currentFrame,
        .acquireNextImage (.imageAvailable app.currentFrame)] ∧
      (∀ c ∈ (render app env).calls, c.isResetFences = false ∧ c.isSubmit = false ∧
        c.isPresent = false) ∧
      (render app env).app.currentFrame = app.currentFrame) ∧
    (env.acquireResult = VK_SUBOPTIMAL_KHR →
      render app env = render app { env with acquireResult := VK_SUCCESS } ∧
      ∃ rest, (render app env).calls = callsBegin app.currentFrame ++ rest) := by
  constructor
  · intro h1 h2 h3
    have hr : render app env = ⟨app.setFrame, callsAcquire app.currentFrame,
        .threw "Failed to acquire swap chain image"⟩ := by
      simp [render, hmin, h1, h2, h3, Application.setFrame, callsAcquire]
    rw [hr]
    refine ⟨rfl, rfl, ?_, rfl⟩
    simp [callsAcquire, Call.isResetFences, Call.isSubmit, Call.isPresent]
  · intro h
    constructor
    · simp [render, hmin, h, bindAndDraw_frame,
        suboptimal_ne_success, outOfDate_ne_success.symm, outOfDate_ne_suboptimal.symm]
      rfl
    · have hp := render_path app env
      generalize render app env = r at hp ⊢
      cases hp with
      | minimized hm => simp [hmin] at hm
      | acquireOutOfDate _ ha => rw [h] at ha; exact absurd ha.symm outOfDate_ne_suboptimal
      | acquireFailed _ _ _ ha => exact absurd h ha
      | beginFailed => exact ⟨[], by simp⟩
      | endFailed ds => exact ⟨_, by simp only [callsRecord, List.append_assoc]; rfl⟩
      | submitFailed ds =>
        exact ⟨_, by simp only [callsSubmit, callsRecord, List.append_assoc]; rfl⟩
      | presentRecreate ds =>
        exact ⟨_, by simp only [callsPresent, callsSubmit, callsRecord, List.append_assoc]; rfl⟩
      | presentFailed ds =>
        exact ⟨_, by simp only [callsPresent, callsSubmit, callsRecord, List.append_assoc]; rfl⟩
      | presented ds =>
        exact ⟨_, by simp only [callsPresent, callsSubmit, callsRecord, List.append_assoc]; rfl⟩

/-- Witness for claim C5: a lost device at acquire, and a suboptimal acquire. -/
theorem acquire_failure_or_suboptimal_witness :
    (render (Application.init 2 samplePipeline)
      { TickEnv.ok 0 with acquireResult := VK_ERROR_DEVICE_LOST }).outcome
      = .threw "Failed to acquire swap chain image" ∧
    (render (Application.init 2 samplePipeline)
      { TickEnv.ok 0 with acquireResult := VK_ERROR_DEVICE_LOST }).calls
      = [.waitForFences 0, .acquireNextImage (.imageAvailable 0)] ∧
    render (Application.init 2 samplePipeline) { TickEnv.ok 0 with acquireResult := VK_SUBOPTIMAL_KHR }
      = render (Application.init 2 samplePipeline)
          { ({ TickEnv.ok 0 with acquireResult := VK_SUBOPTIMAL_KHR } : TickEnv) with
            acquireResult := VK_SUCCESS } :=
  have hfail := (acquire_failure_or_suboptimal (Application.init 2 samplePipeline)
    { TickEnv.ok 0 with acquireResult := VK_ERROR_DEVICE_LOST } (by decide)).1
    (by decide) (by decide) (by decide)
  have hsub := (acquire_failure_or_suboptimal (Application.init 2 samplePipeline)
    { TickEnv.ok 0 with acquireResult := VK_SUBOPTIMAL_KHR } (by decide)).2 (by decide)
  ⟨hfail.1, hfail.2.1, hsub.1⟩

/-- Claim C6: in every tick, from any state and so at any place in any sequence of ticks,
at most one `vkResetFences` call is issued; a reset of fence `i` happens only for the current
slot, after the wait on fence `i` and the acquire of this tick, the acquire having returned
success or suboptimal, and it is followed in the same tick by a `vkQueueSubmit` that signals
fence `i` unless the tick throws from `vkBeginCommandBuffer` or `vkEndCommandBuffer`; a tick
that is skipped (minimized), abandoned (acquire out-of-date) or failed at acquire resets no
fence. -/
theorem fence_reset_discipline (app : Application) (env : TickEnv) :
    ((render app env).calls.filter Call.isResetFences).length ≤ 1 ∧
    (∀ i, .resetFences i ∈ (render app env).calls →
      i = app.currentFrame ∧ env.minimized = false ∧ env.acquired ∧
      ∃ rest, (render app env).calls =
          .waitForFences i :: .acquireNextImage (.imageAvailable i) :: .resetFences i :: rest ∧
        ((∃ info, .queueSubmit info i ∈ rest) ∨
          (render app env).outcome = .threw "Failed to begin recording command buffer!" ∨
          (render app env).outcome = .threw "Failed to record command buffer!")) ∧
    ((env.minimized = true ∨ ¬ env.acquired) → ∀ i, .resetFences i ∉ (render app env).calls) := by
  have hp := render_path app env
  generalize render app env = r at hp ⊢
  cases hp <;> (try rcases ‹DrawCalls _ _ _› with rfl | ⟨p, rfl⟩) <;>
    (try simp_all [callsPresent, callsSubmit, callsRecord, callsBegin, callsAcquire,
      drawBlock, Call.isResetFences, TickEnv.acquired])

/-- Witness for claim C6: a tick that runs through resets the fence of slot 0 once, after wait
and acquire and before the submission; a minimized tick resets nothing. -/
theorem fence_reset_discipline_witness :
    ((render (Application.init 2 samplePipeline) (TickEnv.ok 0)).calls.filter Call.isResetFences).length
      ≤ 1 ∧
    (∃ rest, (render (Application.init 2 samplePipeline) (TickEnv.ok 0)).calls =
        .waitForFences 0 :: .acquireNextImage (.imageAvailable 0) :: .resetFences 0 :: rest ∧
      ((∃ info, .queueSubmit info 0 ∈ rest) ∨
        (render (Application.init 2 samplePipeline) (TickEnv.ok 0)).outcome
          = .threw "Failed to begin recording command buffer!" ∨
        (render (Application.init 2 samplePipeline) (TickEnv.ok 0)).outcome
          = .threw "Failed to record command buffer!")) ∧
    .resetFences 0 ∉ (render (Application.init 2 samplePipeline)
      { TickEnv.ok 0 with minimized := true }).calls :=
  ⟨(fence_reset_discipline (Application.init 2 samplePipeline) (TickEnv.ok 0)).1,
   ((fence_reset_discipline (Application.init 2 samplePipeline) (TickEnv.ok 0)).2.1 0 (by decide)).2.2.2,
   (fence_reset_discipline (Application.init 2 samplePipeline)
      { TickEnv.ok 0 with minimized := true }).2.2 (Or.inl rfl) 0⟩

/-- In every sequence of ticks from a well-formed state, between any two `vkQueueSubmit`
calls that signal the fence of slot `i` there is a `vkWaitForFences` call on that fence; so
at every moment of the run each slot has at most one submission since the last wait call on
its fence, fences that are not slots have none, and these number at most N in all.  This is
about the order of the calls and holds whatever the waits returned. -/
theorem wait_call_between_submissions (app : Application) (envs : List TickEnv)
    (hwf : app.WellFormed) :
    (∀ (i : Nat) (pre mid post : List Call) (info₁ info₂ : SubmitInfo),
      (renderTicks app envs).calls
          = pre ++ (.queueSubmit info₁ i :: mid) ++ (.queueSubmit info₂ i :: post) →
        .waitForFences i ∈ mid) ∧
    (∀ (issued later : List Call), (renderTicks app envs).calls = issued ++ later →
      (∀ i, sinceWait i issued ≤ 1) ∧
      (∀ i, app.maxFramesInFlight ≤ i → sinceWait i issued = 0) ∧
      ((List.range app.maxFramesInFlight).map fun i => sinceWait i issued).sum
        ≤ app.maxFramesInFlight) := by
  have hone : ∀ (issued later : List Call), (renderTicks app envs).calls = issued ++ later →
      ∀ i, sinceWait i issued ≤ 1 := by
    intro issued later hsplit i
    have h := (renderTicks_maxSinceWait envs app i 0 (by omega)).1
    rw [hsplit] at h
    exact le_trans (sinceWaitFrom_le_max i issued later 0) h
  refine ⟨?_, fun issued later hsplit => ⟨hone issued later hsplit, ?_, ?_⟩⟩
  · intro i pre mid post info₁ info₂ hsplit
    by_contra hmid
    have h := hone (pre ++ (.queueSubmit info₁ i :: mid) ++ [.queueSubmit info₂ i]) post
      (by rw [hsplit]; simp) i
    have hge := le_sinceWaitFrom i mid
      (sinceWaitFrom i (sinceWaitFrom i 0 pre) [.queueSubmit info₁ i]) hmid
    simp only [sinceWait, sinceWaitFrom_append, sinceWaitFrom_cons] at h
    simp only [sinceWaitFrom_cons] at hge
    simp only [sinceWaitFrom, List.foldl_nil, sinceWaitStep, if_true] at h hge
    omega
  · intro i hi
    have h := (renderTicks_maxSinceWait_zero envs app i hwf hi).1
    rw [hsplit] at h
    have := sinceWaitFrom_le_max i issued later 0
    unfold sinceWait
    omega
  · have hsum := List.sum_le_card_nsmul
      ((List.range app.maxFramesInFlight).map fun i => sinceWait i issued) 1
      (by
        intro x hx
        obtain ⟨i, _, rfl⟩ := List.mem_map.1 hx
        exact hone issued later hsplit i)
    simpa using hsum


/-- The calls of the trace are the calls of the ticks. -/
theorem renderTrace_calls (envs : List TickEnv) (app : Application) :
    (renderTrace app envs).map Prod.snd = (renderTicks app envs).calls := by
  induction envs generalizing app with
  | nil => rfl
  | cons env envs ih =>
    cases ho : (render app env).outcome with
    | threw w => simp [renderTrace, renderTicks, ho, Function.comp_def]
    | returned => simp [renderTrace, renderTicks, ho, ih, Function.comp_def]

/-- Every entry of the trace carries the wait result of one of the ticks. -/
theorem renderTrace_waitResult (envs : List TickEnv) (app : Application) :
    ∀ e ∈ renderTrace app envs, ∃ env ∈ envs, e.1 = env.waitResult := by
  induction envs generalizing app with
  | nil => intro e he; simp [renderTrace] at he
  | cons env envs ih =>
    intro e he
    cases ho : (render app env).outcome with
    | threw w =>
      simp only [renderTrace, ho, List.mem_map] at he
      obtain ⟨c, _, rfl⟩ := he
      exact ⟨env, List.mem_cons_self _ _, rfl⟩
    | returned =>
      simp only [renderTrace, ho, List.mem_append, List.mem_map] at he
      rcases he with ⟨c, _, rfl⟩ | he
      · exact ⟨env, List.mem_cons_self _ _, rfl⟩
      · obtain ⟨env', h1, h2⟩ := ih _ e he
        exact ⟨env', List.mem_cons_of_mem _ h1, h2⟩

/-- While every wait returns `VK_SUCCESS`, the submissions outstanding on a fence are those
issued since the last wait call on it. -/
theorem outstandingFrom_eq_sinceWaitFrom (i : Nat) (trace : List (VkResult × Call)) (n : Nat)
    (h : ∀ e ∈ trace, e.1 = VK_SUCCESS) :
    outstandingFrom i n trace = sinceWaitFrom i n (trace.map Prod.snd) := by
  induction trace generalizing n with
  | nil => rfl
  | cons e es ih =>
    obtain ⟨w, c⟩ := e
    have hw : w = VK_SUCCESS := h (w, c) (List.mem_cons_self _ _)
    have hstep : outstandingStep i n (w, c) = sinceWaitStep i n c := by
      subst hw
      cases c <;> simp [outstandingStep, sinceWaitStep]
    simp only [outstandingFrom, sinceWaitFrom, List.foldl_cons, List.map_cons, hstep]
    exact ih _ (fun e he => h e (List.mem_cons_of_mem _ he))

/-- In a run from a well-formed state in which every fence wait returns `VK_SUCCESS`, at
every moment each slot has at most one submission outstanding, fences that are not slots
have none, and at most N submissions are outstanding in all. -/
theorem outstanding_bounded_of_waits_succeed (app : Application) (envs : List TickEnv)
    (hwf : app.WellFormed) (hwait : ∀ env ∈ envs, env.waitResult = VK_SUCCESS)
    (issued later : List (VkResult × Call)) (hsplit : renderTrace app envs = issued ++ later) :
    (∀ i, outstanding i issued ≤ 1) ∧
    (∀ i, app.maxFramesInFlight ≤ i → outstanding i issued = 0) ∧
    ((List.range app.maxFramesInFlight).map fun i => outstanding i issued).sum
      ≤ app.maxFramesInFlight := by
  have hs : ∀ e ∈ issued, e.1 = VK_SUCCESS := by
    intro e he
    obtain ⟨env, h1, h2⟩ := renderTrace_waitResult envs app e
      (by rw [hsplit]; exact List.mem_append_left _ he)
    rw [h2]; exact hwait env h1
  have hcalls : (renderTicks app envs).calls = issued.map Prod.snd ++ later.map Prod.snd := by
    rw [← renderTrace_calls, hsplit, List.map_append]
  have heq : ∀ i, outstanding i issued = sinceWait i (issued.map Prod.snd) := fun i =>
    outstandingFrom_eq_sinceWaitFrom i issued 0 hs
  simp only [heq]
  exact (wait_call_between_submissions app envs hwf).2 _ _ hcalls

/-- Claim C7 on the code: with two slots, two ticks that succeed and a third whose fence wait
on slot 0 reports out-of-host-memory while every later call succeeds, the run returns; the
wait call on fence 0 does lie between the two submissions on slot 0, but it has not seen the
first finished, so after the third tick two submissions are outstanding on slot 0 and three
in all, more than the two slots. -/
theorem failed_wait_exceeds_bound :
    (renderTicks (Application.init 2 samplePipeline)
      [TickEnv.ok 0, TickEnv.ok 1,
       { TickEnv.ok 0 with waitResult := VK_ERROR_OUT_OF_HOST_MEMORY }]).outcome = .returned ∧
    (renderTicks (Application.init 2 samplePipeline)
      [TickEnv.ok 0, TickEnv.ok 1,
       { TickEnv.ok 0 with waitResult := VK_ERROR_OUT_OF_HOST_MEMORY }]).calls.filter
        (fun c => c.isSubmit || c = .waitForFences 0)
      = [.waitForFences 0, .queueSubmit (submitInfoFor 0 0) 0,
         .queueSubmit (submitInfoFor 1 1) 1,
         .waitForFences 0, .queueSubmit (submitInfoFor 0 0) 0] ∧
    outstanding 0 (renderTrace (Application.init 2 samplePipeline)
      [TickEnv.ok 0, TickEnv.ok 1,
       { TickEnv.ok 0 with waitResult := VK_ERROR_OUT_OF_HOST_MEMORY }]) = 2 ∧
    outstanding 1 (renderTrace (Application.init 2 samplePipeline)
      [TickEnv.ok 0, TickEnv.ok 1,
       { TickEnv.ok 0 with waitResult := VK_ERROR_OUT_OF_HOST_MEMORY }]) = 1 ∧
    ((List.range 2).map fun i => outstanding i (renderTrace (Application.init 2 samplePipeline)
      [TickEnv.ok 0, TickEnv.ok 1,
       { TickEnv.ok 0 with waitResult := VK_ERROR_OUT_OF_HOST_MEMORY }])).sum = 3 ∧
    outstanding 0 (renderTrace (Application.init 2 samplePipeline)
      [TickEnv.ok 0, TickEnv.ok 1, TickEnv.ok 0]) = 1 := by
  decide

/-- Claim C8: for every N >= 1 (state well-formed), a tick that issues the present call and
whose present result is success, out-of-date or suboptimal returns with the slot index equal
to `(slot + 1) mod N`: the index is advanced once. -/
theorem present_advances_slot (app : Application) (env : TickEnv) (info : PresentInfo)
    (hwf : app.WellFormed)
    (hreach : .queuePresent info ∈ (render app env).calls)
    (hres : env.presentResult = VK_SUCCESS ∨ env.presentResult = VK_ERROR_OUT_OF_DATE_KHR
      ∨ env.presentResult = VK_SUBOPTIMAL_KHR) :
    (render app env).app.currentFrame = (app.currentFrame + 1) % app.maxFramesInFlight ∧
    (render app env).outcome = .returned := by
  have hadv := advance_currentFrame app hwf
  have hp := render_path app env
  generalize render app env = r at hp hreach ⊢
  cases hp <;> (try rcases ‹DrawCalls _ _ _› with rfl | ⟨p, rfl⟩) <;>
    (try simp_all [callsPresent, callsSubmit, callsRecord, callsBegin, callsAcquire,
      drawBlock])

/-- Witness for claim C8: a presented tick at slot 1 of 2 goes back to slot 0. -/
theorem present_advances_slot_witness :
    (render { Application.init 2 samplePipeline with currentFrame := 1 } (TickEnv.ok 0)).app.currentFrame
      = (1 + 1) % 2 ∧
    (render { Application.init 2 samplePipeline with currentFrame := 1 } (TickEnv.ok 0)).outcome
      = .returned :=
  present_advances_slot { Application.init 2 samplePipeline with currentFrame := 1 } (TickEnv.ok 0)
    (presentInfoFor 1 0) (by decide) (by decide) (by decide)

/-- Claim C9: in a tick that issues the present call, a present result of out-of-date or
suboptimal makes the tick call `SwapChain::recreate` exactly once and return normally; any
other result that is not success makes it throw "Failed to present swap chain image!". -/
theorem present_result_handling (app : Application) (env : TickEnv) (info : PresentInfo)
    (hreach : .queuePresent info ∈ (render app env).calls) :
    ((env.presentResult = VK_ERROR_OUT_OF_DATE_KHR ∨ env.presentResult = VK_SUBOPTIMAL_KHR) →
      (render app env).calls.count .recreate = 1 ∧ (render app env).outcome = .returned) ∧
    (env.presentResult ≠ VK_ERROR_OUT_OF_DATE_KHR → env.presentResult ≠ VK_SUBOPTIMAL_KHR →
      env.presentResult ≠ VK_SUCCESS →
      (render app env).outcome = .threw "Failed to present swap chain image!") := by
  have hp := render_path app env
  generalize render app env = r at hp hreach ⊢
  cases hp <;> (try rcases ‹DrawCalls _ _ _› with rfl | ⟨p, rfl⟩) <;>
    (try simp_all [callsPresent, callsSubmit, callsRecord, callsBegin, callsAcquire,
      drawBlock]) <;>
    (try tauto)

/-- Witness for claim C9: a suboptimal present, and a lost device at present. -/
theorem present_result_handling_witness :
    ((render (Application.init 2 samplePipeline)
        { TickEnv.ok 0 with presentResult := VK_SUBOPTIMAL_KHR }).calls.count .recreate = 1 ∧
      (render (Application.init 2 samplePipeline)
        { TickEnv.ok 0 with presentResult := VK_SUBOPTIMAL_KHR }).outcome = .returned) ∧
    (render (Application.init 2 samplePipeline)
        { TickEnv.ok 0 with presentResult := VK_ERROR_DEVICE_LOST }).outcome
      = .threw "Failed to present swap chain image!" :=
  ⟨(present_result_handling (Application.init 2 samplePipeline)
      { TickEnv.ok 0 with presentResult := VK_SUBOPTIMAL_KHR } (presentInfoFor 0 0)
      (by decide)).1 (Or.inr rfl),
   (present_result_handling (Application.init 2 samplePipeline)
      { TickEnv.ok 0 with presentResult := VK_ERROR_DEVICE_LOST } (presentInfoFor 0 0)
      (by decide)).2 (by decide) (by decide) (by decide)⟩

/-- Claim C10: a `vkQueueSubmit` call issued by a tick on slot `s` carries exactly the
command buffer of slot `s`, waits on exactly the image-available semaphore of slot `s` (the
one handed to the acquire of this tick) at the color-attachment-output stage, signals exactly
the render-finished semaphore of slot `s` and signals the fence of slot `s`; every present
call of the tick waits on exactly that render-finished semaphore and presents the image index
the acquire returned, and the present call is issued whenever the submission succeeds. -/
theorem submit_present_wiring (app : Application) (env : TickEnv) (info : SubmitInfo)
    (fence : Nat) (hsub : .queueSubmit info fence ∈ (render app env).calls) :
    info.commandBuffers = [app.currentFrame] ∧
    info.waitSemaphores = [.imageAvailable app.currentFrame] ∧
    info.waitDstStageMask = [VK_PIPELINE_STAGE_COLOR_ATTACHMENT_OUTPUT_BIT] ∧
    info.signalSemaphores = [.renderFinished app.currentFrame] ∧
    fence = app.currentFrame ∧
    .acquireNextImage (.imageAvailable app.currentFrame) ∈ (render app env).calls ∧
    (∀ pinfo, .queuePresent pinfo ∈ (render app env).calls →
      pinfo.waitSemaphores = [.renderFinished app.currentFrame] ∧
      pinfo.imageIndices = [env.imageIndex]) ∧
    (env.submitResult = VK_SUCCESS → ∃ pinfo, .queuePresent pinfo ∈ (render app env).calls) := by
  have hp := render_path app env
  generalize render app env = r at hp hsub ⊢
  cases hp <;> (try rcases ‹DrawCalls _ _ _› with rfl | ⟨p, rfl⟩) <;>
    (try simp_all [callsPresent, callsSubmit, callsRecord, callsBegin, callsAcquire,
      drawBlock, submitInfoFor, presentInfoFor])

/-- Witness for claim C10: the submission of a tick on slot 1 that acquired image 3. -/
theorem submit_present_wiring_witness :
    Call.queueSubmit (submitInfoFor 1 1) 1
      ∈ (render { Application.init 2 samplePipeline with currentFrame := 1 } (TickEnv.ok 3)).calls ∧
    (submitInfoFor 1 1).commandBuffers = [1] ∧
    (submitInfoFor 1 1).waitSemaphores = [.imageAvailable 1] ∧
    (submitInfoFor 1 1).waitDstStageMask = [VK_PIPELINE_STAGE_COLOR_ATTACHMENT_OUTPUT_BIT] ∧
    (submitInfoFor 1 1).signalSemaphores = [.renderFinished 1] ∧
    (presentInfoFor 1 3).waitSemaphores = [.renderFinished 1] ∧
    (presentInfoFor 1 3).imageIndices = [3] :=
  have h := submit_present_wiring { Application.init 2 samplePipeline with currentFrame := 1 }
    (TickEnv.ok 3) (submitInfoFor 1 1) 1 (by decide)
  have hp := h.2.2.2.2.2.2.1 (presentInfoFor 1 3) (by decide)
  ⟨by decide, h.1, h.2.1, h.2.2.1, h.2.2.2.1, hp.1, hp.2⟩

/-! ## Facts about tables -/

theorem lookup_cons_ne {α : Type} (k n : String) (v : α) (t : List (String × α))
    (h : n ≠ k) : ((k, v) :: t).lookup n = t.lookup n := by
  have hb : (n == k) = false := by simpa using h
  rw [List.lookup_cons, hb]

theorem lookup_eraseKey_self {α : Type} (k : String) (t : List (String × α)) :
    (eraseKey k t).lookup k = none := by
  induction t with
  | nil => rfl
  | cons e es ih =>
    obtain ⟨k', v⟩ := e
    by_cases h : k' = k
    · subst h; simpa [eraseKey] using ih
    · have h' : k ≠ k' := fun e => h e.symm
      have : eraseKey k ((k', v) :: es) = (k', v) :: eraseKey k es := by
        simp [eraseKey, List.filter_cons, h]
      rw [this, lookup_cons_ne k' k v _ h']; exact ih

theorem lookup_eraseKey_ne {α : Type} (k n : String) (t : List (String × α)) (h : n ≠ k) :
    (eraseKey k t).lookup n = t.lookup n := by
  induction t with
  | nil => rfl
  | cons e es ih =>
    obtain ⟨k', v⟩ := e
    by_cases hk : k' = k
    · subst hk
      have : eraseKey k' ((k', v) :: es) = eraseKey k' es := by
        simp [eraseKey, List.filter_cons]
      rw [this, lookup_cons_ne k' n v _ h]; exact ih
    · have : eraseKey k ((k', v) :: es) = (k', v) :: eraseKey k es := by
        simp [eraseKey, List.filter_cons, hk]
      rw [this]
      by_cases hn : n = k'
      · subst hn; simp
      · rw [lookup_cons_ne k' n v _ hn, lookup_cons_ne k' n v _ hn]; exact ih

theorem lookup_setKey_self {α : Type} (k : String) (v : α) (t : List (String × α)) :
    (setKey k v t).lookup k = some v := by
  simp [setKey]

theorem lookup_setKey_ne {α : Type} (k n : String) (v : α) (t : List (String × α))
    (h : n ≠ k) : (setKey k v t).lookup n = t.lookup n := by
  rw [setKey, lookup_cons_ne k n v _ h, lookup_eraseKey_ne k n t h]

theorem lookup_setKey {α : Type} (k n : String) (v : α) (t : List (String × α)) :
    (setKey k v t).lookup n = if n = k then some v else t.lookup n := by
  by_cases h : n = k
  · subst h; simp [lookup_setKey_self]
  · simp [h, lookup_setKey_ne k n v t h]

theorem lookup_eraseKey {α : Type} (k n : String) (t : List (String × α)) :
    (eraseKey k t).lookup n = if n = k then none else t.lookup n := by
  by_cases h : n = k
  · subst h; simp [lookup_eraseKey_self]
  · simp [h, lookup_eraseKey_ne k n t h]

/-- A name has an entry exactly when it is among the keys. -/
theorem lookup_isSome_iff_mem_keys {α : Type} (n : String) (t : List (String × α)) :
    (t.lookup n).isSome = true ↔ n ∈ keys t := by
  induction t with
  | nil => simp [keys]
  | cons e es ih =>
    obtain ⟨k, v⟩ := e
    by_cases h : n = k
    · subst h; simp [keys]
    · rw [lookup_cons_ne k n v es h, ih]
      simp [keys, h]

/-! ## Facts about the registry -/

theorem createPipeline_exists (pm : PipelineManager) (name vert frag : String)
    (configInfo : PipelineConfigInfo) (env : CreateEnv) (h : pm.hasPipeline name = true) :
    pm.createPipeline name vert frag configInfo env
      = ⟨pm, .threw ("Pipeline with name '" ++ name ++ "' already exists"), []⟩ := by
  simp [PipelineManager.createPipeline, h]

theorem createPipeline_success (pm : PipelineManager) (name vert frag : String)
    (configInfo : PipelineConfigInfo) (env : CreateEnv) (h : pm.hasPipeline name = false)
    (hs : env.succeeds) :
    pm.createPipeline name vert frag configInfo env
      = ⟨pm.registered name vert frag configInfo env, .returned,
          [.created name (builtPipeline configInfo env)]⟩ := by
  obtain ⟨h1, h2, h3, h4, h5, h6⟩ := hs
  simp [PipelineManager.createPipeline, h, PipelineManager.createShaderStages, Shader.create,
    PipelineManager.createPipelineLayout, Pipeline.create, h1, h2, h3, h4, h5, h6,
    PipelineManager.vertexModuleOf, PipelineManager.fragmentModuleOf, lookup_setKey_self,
    PipelineManager.registered, builtPipeline]

theorem createPipeline_failure (pm : PipelineManager) (name vert frag : String)
    (configInfo : PipelineConfigInfo) (env : CreateEnv) (h : pm.hasPipeline name = false)
    (hf : ¬ env.succeeds) :
    ∃ what, (pm.createPipeline name vert frag configInfo env).outcome = .threw what ∧
      (pm.createPipeline name vert frag configInfo env).events = [] ∧
      (pm.createPipeline name vert frag configInfo env).pm.pipelines = pm.pipelines ∧
      (pm.createPipeline name vert frag configInfo env).pm.shaderPaths
        = setKey name (vert, frag) pm.shaderPaths ∧
      (pm.createPipeline name vert frag configInfo env).pm.pipelineConfigs
        = setKey name configInfo pm.pipelineConfigs ∧
      (¬ env.shadersLoad →
        (pm.createPipeline name vert frag configInfo env).pm.shaderStages = pm.shaderStages ∧
        (pm.createPipeline name vert frag configInfo env).pm.pipelineLayouts
          = pm.pipelineLayouts) ∧
      (env.shadersLoad →
        (pm.createPipeline name vert frag configInfo env).pm.shaderStages
          = setKey name { vertex := ⟨env.vertexModule, .Vertex⟩,
                          fragment := ⟨env.fragmentModule, .Fragment⟩ } pm.shaderStages ∧
        (pm.createPipeline name vert frag configInfo env).pm.pipelineLayouts
          = setKey name env.layout pm.pipelineLayouts) := by
  by_cases h1 : env.vertexFileOpens = true
  swap
  · exact ⟨"failed to open file: " ++ vert, by
      simp [PipelineManager.createPipeline, h, PipelineManager.createShaderStages,
        Shader.create, h1, CreateEnv.shadersLoad]⟩
  by_cases h2 : env.vertexModuleResult = VK_SUCCESS
  swap
  · exact ⟨"failed to create shader module!", by
      simp [PipelineManager.createPipeline, h, PipelineManager.createShaderStages,
        Shader.create, h1, h2, CreateEnv.shadersLoad]⟩
  by_cases h3 : env.fragmentFileOpens = true
  swap
  · exact ⟨"failed to open file: " ++ frag, by
      simp [PipelineManager.createPipeline, h, PipelineManager.createShaderStages,
        Shader.create, h1, h2, h3, CreateEnv.shadersLoad]⟩
  by_cases h4 : env.fragmentModuleResult = VK_SUCCESS
  swap
  · exact ⟨"failed to create shader module!", by
      simp [PipelineManager.createPipeline, h, PipelineManager.createShaderStages,
        Shader.create, h1, h2, h3, h4, CreateEnv.shadersLoad]⟩
  by_cases h5 : env.layoutResult = VK_SUCCESS
  swap
  · exact ⟨"Failed to create pipeline layout for '" ++ name ++ "'", by
      simp [PipelineManager.createPipeline, h, PipelineManager.createShaderStages,
        Shader.create, PipelineManager.createPipelineLayout, h1, h2, h3, h4, h5,
        CreateEnv.shadersLoad]⟩
  have h6 : ¬ env.pipelineResult = VK_SUCCESS := fun h6 => hf ⟨h1, h2, h3, h4, h5, h6⟩
  exact ⟨"failed to create graphics pipeline", by
    simp [PipelineManager.createPipeline, h, PipelineManager.createShaderStages,
      Shader.create, PipelineManager.createPipelineLayout, Pipeline.create, h1, h2, h3, h4,
      h5, h6, CreateEnv.shadersLoad]⟩


/-- A `createPipeline` call that returns passed the duplicate check with nothing failing. -/
theorem createPipeline_returned (pm : PipelineManager) (name vert frag : String)
    (configInfo : PipelineConfigInfo) (env : CreateEnv)
    (h : (pm.createPipeline name vert frag configInfo env).outcome = .returned) :
    pm.hasPipeline name = false ∧ env.succeeds := by
  cases hh : pm.hasPipeline name with
  | true => rw [createPipeline_exists pm name vert frag configInfo env hh] at h; simp at h
  | false =>
    refine ⟨rfl, ?_⟩
    by_contra hs
    obtain ⟨w, hw, _⟩ := createPipeline_failure pm name vert frag configInfo env hh hs
    rw [hw] at h; simp at h

/-- A `createPipeline` call that throws records no event and leaves `pipelines` alone. -/
theorem createPipeline_threw (pm : PipelineManager) (name vert frag : String)
    (configInfo : PipelineConfigInfo) (env : CreateEnv) (what : String)
    (h : (pm.createPipeline name vert frag configInfo env).outcome = .threw what) :
    (pm.createPipeline name vert frag configInfo env).events = [] ∧
    (pm.createPipeline name vert frag configInfo env).pm.pipelines = pm.pipelines := by
  cases hh : pm.hasPipeline name with
  | true => rw [createPipeline_exists pm name vert frag configInfo env hh]; exact ⟨rfl, rfl⟩
  | false =>
    by_cases hs : env.succeeds
    · rw [createPipeline_success pm name vert frag configInfo env hh hs] at h; simp at h
    · obtain ⟨w, _, he, hp, _⟩ := createPipeline_failure pm name vert frag configInfo env hh hs
      exact ⟨he, hp⟩

/-- Every call of `createPipeline` keeps `pipelines` in step with its events. -/
theorem createPipeline_live (pm : PipelineManager) (name vert frag : String)
    (configInfo : PipelineConfigInfo) (env : CreateEnv) (n : String) :
    (pm.createPipeline name vert frag configInfo env).pm.pipelines.lookup n
      = (pm.createPipeline name vert frag configInfo env).events.foldl (liveStep n)
          (pm.pipelines.lookup n) := by
  cases ho : (pm.createPipeline name vert frag configInfo env).outcome with
  | threw w =>
    obtain ⟨he, hp⟩ := createPipeline_threw pm name vert frag configInfo env w ho
    rw [he, hp]; rfl
  | returned =>
    obtain ⟨hh, hs⟩ := createPipeline_returned pm name vert frag configInfo env ho
    rw [createPipeline_success pm name vert frag configInfo env hh hs]
    simp only [PipelineManager.registered, List.foldl_cons, List.foldl_nil, liveStep]
    rw [lookup_setKey]
    by_cases hn : n = name
    · subst hn; simp
    · have : ¬ name = n := fun e => hn e.symm
      simp [hn, this]

/-- The loop of `recreatePipelines` keeps `pipelines` in step with its events. -/
theorem replay_live (configs : List (String × PipelineConfigInfo)) (envOf : String → CreateEnv)
    (saved : List (String × (String × String))) (pm : PipelineManager) (n : String) :
    (PipelineManager.replay configs envOf pm saved).pm.pipelines.lookup n
      = (PipelineManager.replay configs envOf pm saved).events.foldl (liveStep n)
          (pm.pipelines.lookup n) := by
  induction saved generalizing pm with
  | nil => rfl
  | cons e rest ih =>
    obtain ⟨name, paths⟩ := e
    have hc := createPipeline_live pm name paths.1 paths.2
      ((configs.lookup name).getD PipelineConfigInfo.empty) (envOf name) n
    cases ho : (pm.createPipeline name paths.1 paths.2
        ((configs.lookup name).getD PipelineConfigInfo.empty) (envOf name)).outcome with
    | threw w =>
      simp only [PipelineManager.replay, ho]
      exact hc
    | returned =>
      simp only [PipelineManager.replay, ho, List.foldl_append]
      rw [ih, hc]

/-- Every call on the registry keeps `pipelines` in step with its events. -/
theorem apply_live (pm : PipelineManager) (op : RegistryOp) (n : String) :
    (pm.apply op).pm.pipelines.lookup n
      = (pm.apply op).events.foldl (liveStep n) (pm.pipelines.lookup n) := by
  cases op with
  | create name vert frag configInfo env => exact createPipeline_live pm name vert frag _ env n
  | remove name =>
    simp only [PipelineManager.apply, List.foldl_cons, List.foldl_nil, liveStep]
    unfold PipelineManager.removePipeline
    cases hh : pm.hasPipeline name with
    | false =>
      by_cases hn : name = n
      · subst hn
        have : pm.pipelines.lookup name = none := by
          simpa [PipelineManager.hasPipeline] using hh
        simp [this]
      · simp [hn]
    | true =>
      simp only [Bool.not_true, Bool.false_eq_true, if_false]
      have : (PipelineManager.destroyPipelineLayout
          { pm with pipelines := eraseKey name pm.pipelines } name).pipelines
            = eraseKey name pm.pipelines := by
        unfold PipelineManager.destroyPipelineLayout
        split <;> rfl
      show List.lookup n (PipelineManager.destroyPipelineLayout
          { pm with pipelines := eraseKey name pm.pipelines } name).pipelines = _
      rw [this, lookup_eraseKey]
      by_cases hn : n = name
      · subst hn; simp
      · have : ¬ name = n := fun e => hn e.symm
        simp [hn, this]
  | clear => simp [PipelineManager.apply, PipelineManager.clearPipelines, liveStep]
  | recreate envOf =>
    simp only [PipelineManager.apply, PipelineManager.recreatePipelines, List.foldl_cons,
      liveStep]
    rw [replay_live]
    simp [PipelineManager.clearPipelines]

/-- A sequence of calls keeps `pipelines` in step with its events. -/
theorem applyAll_live (ops : List RegistryOp) (pm : PipelineManager) (n : String) :
    (pm.applyAll ops).pm.pipelines.lookup n
      = (pm.applyAll ops).events.foldl (liveStep n) (pm.pipelines.lookup n) := by
  induction ops generalizing pm with
  | nil => rfl
  | cons op ops ih =>
    simp only [PipelineManager.applyAll, List.foldl_append]
    rw [ih, apply_live]

theorem keys_eraseKey {α : Type} (k : String) (t : List (String × α)) :
    keys (eraseKey k t) = (keys t).filter fun n => n != k := by
  induction t with
  | nil => rfl
  | cons e es ih =>
    obtain ⟨k', v⟩ := e
    by_cases h : k' = k
    · subst h
      simpa [keys, eraseKey, List.filter_cons] using ih
    · simpa [keys, eraseKey, List.filter_cons, h] using ih

theorem nodup_keys_setKey {α : Type} (k : String) (v : α) (t : List (String × α))
    (h : (keys t).Nodup) : (keys (setKey k v t)).Nodup := by
  have hk : keys (setKey k v t) = k :: keys (eraseKey k t) := rfl
  rw [hk, keys_eraseKey, List.nodup_cons]
  refine ⟨?_, h.filter _⟩
  simp [List.mem_filter]

/-- A call of `createPipeline` leaves no name with two entries of stored shader paths. -/
theorem createPipeline_nodup (pm : PipelineManager) (name vert frag : String)
    (configInfo : PipelineConfigInfo) (env : CreateEnv) (h : (keys pm.shaderPaths).Nodup) :
    (keys (pm.createPipeline name vert frag configInfo env).pm.shaderPaths).Nodup := by
  cases hh : pm.hasPipeline name with
  | true => rw [createPipeline_exists pm name vert frag configInfo env hh]; exact h
  | false =>
    by_cases hs : env.succeeds
    · rw [createPipeline_success pm name vert frag configInfo env hh hs]
      exact nodup_keys_setKey _ _ _ h
    · obtain ⟨w, _, _, _, hp, _⟩ := createPipeline_failure pm name vert frag configInfo env hh hs
      rw [hp]; exact nodup_keys_setKey _ _ _ h

theorem replay_nodup (configs : List (String × PipelineConfigInfo)) (envOf : String → CreateEnv)
    (saved : List (String × (String × String))) (pm : PipelineManager)
    (h : (keys pm.shaderPaths).Nodup) :
    (keys (PipelineManager.replay configs envOf pm saved).pm.shaderPaths).Nodup := by
  induction saved generalizing pm with
  | nil => exact h
  | cons e rest ih =>
    obtain ⟨name, paths⟩ := e
    have hc := createPipeline_nodup pm name paths.1 paths.2
      ((configs.lookup name).getD PipelineConfigInfo.empty) (envOf name) h
    cases ho : (pm.createPipeline name paths.1 paths.2
        ((configs.lookup name).getD PipelineConfigInfo.empty) (envOf name)).outcome with
    | threw w => simp only [PipelineManager.replay, ho]; exact hc
    | returned => simp only [PipelineManager.replay, ho]; exact ih _ hc

/-- Unfolding of the loop at an entry whose creation returns. -/
theorem replay_cons_returned (configs : List (String × PipelineConfigInfo))
    (envOf : String → CreateEnv) (pm : PipelineManager) (name : String)
    (paths : String × String) (rest : List (String × (String × String)))
    (h : (PipelineManager.replay configs envOf pm ((name, paths) :: rest)).outcome
      = .returned) :
    pm.hasPipeline name = false ∧ (envOf name).succeeds ∧
    PipelineManager.replay configs envOf pm ((name, paths) :: rest) =
      ⟨(PipelineManager.replay configs envOf
          (pm.registered name paths.1 paths.2
            ((configs.lookup name).getD PipelineConfigInfo.empty) (envOf name)) rest).pm,
        (PipelineManager.replay configs envOf
          (pm.registered name paths.1 paths.2
            ((configs.lookup name).getD PipelineConfigInfo.empty) (envOf name)) rest).outcome,
        .created name (builtPipeline ((configs.lookup name).getD PipelineConfigInfo.empty)
            (envOf name)) ::
          (PipelineManager.replay configs envOf
            (pm.registered name paths.1 paths.2
              ((configs.lookup name).getD PipelineConfigInfo.empty) (envOf name)) rest).events⟩ := by
  cases ho : (pm.createPipeline name paths.1 paths.2
      ((configs.lookup name).getD PipelineConfigInfo.empty) (envOf name)).outcome with
  | threw w => simp [PipelineManager.replay, ho] at h
  | returned =>
    obtain ⟨hh, hs⟩ := createPipeline_returned _ _ _ _ _ _ ho
    refine ⟨hh, hs, ?_⟩
    have hc := createPipeline_success pm name paths.1 paths.2
      ((configs.lookup name).getD PipelineConfigInfo.empty) (envOf name) hh hs
    simp only [PipelineManager.replay, ho]
    rw [hc]
    rfl

/-- When the loop returns, every saved name was unregistered before it. -/
theorem replay_returned_fresh (configs : List (String × PipelineConfigInfo))
    (envOf : String → CreateEnv) (saved : List (String × (String × String)))
    (pm : PipelineManager)
    (h : (PipelineManager.replay configs envOf pm saved).outcome = .returned) :
    ∀ n ∈ keys saved, pm.hasPipeline n = false := by
  induction saved generalizing pm with
  | nil => intro n hn; simp [keys] at hn
  | cons e rest ih =>
    obtain ⟨name, paths⟩ := e
    obtain ⟨hh, hs, heq⟩ := replay_cons_returned configs envOf pm name paths rest h
    rw [heq] at h
    intro n hn
    simp only [keys, List.map_cons, List.mem_cons] at hn
    rcases hn with rfl | hn
    · exact hh
    · have := ih _ h n hn
      simp only [PipelineManager.hasPipeline, PipelineManager.registered] at this ⊢
      rw [lookup_setKey] at this
      by_cases hnn : n = name
      · simp [hnn] at this
      · simpa [hnn] using this

/-- What the loop leaves when it returns. -/
theorem replay_returned (configs : List (String × PipelineConfigInfo))
    (envOf : String → CreateEnv) (saved : List (String × (String × String)))
    (pm : PipelineManager)
    (h : (PipelineManager.replay configs envOf pm saved).outcome = .returned) (n : String) :
    (PipelineManager.replay configs envOf pm saved).pm.hasPipeline n
      = (decide (n ∈ keys saved) || pm.hasPipeline n) ∧
    (PipelineManager.replay configs envOf pm saved).pm.shaderPaths.lookup n
      = (if n ∈ keys saved then saved.lookup n else pm.shaderPaths.lookup n) ∧
    (PipelineManager.replay configs envOf pm saved).pm.pipelineConfigs.lookup n
      = (if n ∈ keys saved then some ((configs.lookup n).getD PipelineConfigInfo.empty)
          else pm.pipelineConfigs.lookup n) := by
  induction saved generalizing pm with
  | nil => simp [PipelineManager.replay, keys]
  | cons e rest ih =>
    obtain ⟨name, paths⟩ := e
    obtain ⟨hh, hs, heq⟩ := replay_cons_returned configs envOf pm name paths rest h
    rw [heq] at h ⊢
    have hfresh := replay_returned_fresh configs envOf rest _ h
    obtain ⟨i1, i2, i3⟩ := ih _ h
    have hname : name ∉ keys rest := by
      intro hmem
      have := hfresh name hmem
      simp [PipelineManager.hasPipeline, PipelineManager.registered, lookup_setKey_self] at this
    by_cases hn : n = name
    · subst hn
      have hm : n ∈ keys ((n, paths) :: rest) := by simp [keys]
      simp only [hm, hname, if_true, if_false, decide_True, Bool.true_or] at i1 i2 i3 ⊢
      refine ⟨?_, ?_, ?_⟩
      · rw [i1]; simp [PipelineManager.hasPipeline, PipelineManager.registered,
          lookup_setKey_self]
      · rw [i2]; simp [PipelineManager.registered, lookup_setKey_self]
      · rw [i3]; simp [PipelineManager.registered, lookup_setKey_self]
    · have hm : (n ∈ keys ((name, paths) :: rest)) = (n ∈ keys rest) := by
        simp [keys, hn]
      simp only [hm]
      refine ⟨?_, ?_, ?_⟩
      · rw [i1]; simp [PipelineManager.hasPipeline, PipelineManager.registered,
          lookup_setKey_ne _ _ _ _ hn]
      · rw [i2]; simp [PipelineManager.registered, lookup_setKey_ne _ _ _ _ hn,
          lookup_cons_ne _ _ _ _ hn]
      · rw [i3]; simp [PipelineManager.registered, lookup_setKey_ne _ _ _ _ hn]

theorem lookup_eq_none_of_not_mem_keys {α : Type} (n : String) (t : List (String × α))
    (h : n ∉ keys t) : t.lookup n = none := by
  cases hl : t.lookup n with
  | none => rfl
  | some v => exact absurd ((lookup_isSome_iff_mem_keys n t).1 (by rw [hl]; rfl)) h

/-- On a consistent registry a `recreatePipelines` that returns keeps the registered names, the
stored shader paths and the stored configs. -/
theorem recreatePipelines_returned (pm : PipelineManager) (envOf : String → CreateEnv)
    (hc : pm.Consistent) (h : (pm.recreatePipelines envOf).outcome = .returned) (n : String) :
    (pm.recreatePipelines envOf).pm.hasPipeline n = pm.hasPipeline n ∧
    (pm.recreatePipelines envOf).pm.shaderPaths.lookup n = pm.shaderPaths.lookup n ∧
    (pm.recreatePipelines envOf).pm.pipelineConfigs.lookup n = pm.pipelineConfigs.lookup n := by
  obtain ⟨_, hp, hcfg⟩ := hc
  have h' : (PipelineManager.replay pm.pipelineConfigs envOf pm.clearPipelines
      pm.shaderPaths).outcome = .returned := h
  obtain ⟨r1, r2, r3⟩ := replay_returned _ _ _ _ h' n
  have hk : (n ∈ keys pm.shaderPaths) ↔ pm.hasPipeline n = true := by
    rw [← lookup_isSome_iff_mem_keys, hp]
  refine ⟨?_, ?_, ?_⟩
  · show (PipelineManager.replay pm.pipelineConfigs envOf pm.clearPipelines
      pm.shaderPaths).pm.hasPipeline n = _
    rw [r1]
    cases hh : pm.hasPipeline n with
    | true => simp [hk.2 hh]
    | false =>
      have : ¬ n ∈ keys pm.shaderPaths := fun hm => by simp [hk.1 hm] at hh
      simp [this, PipelineManager.hasPipeline, PipelineManager.clearPipelines]
  · show (PipelineManager.replay pm.pipelineConfigs envOf pm.clearPipelines
      pm.shaderPaths).pm.shaderPaths.lookup n = _
    rw [r2]
    by_cases hm : n ∈ keys pm.shaderPaths
    · simp [hm]
    · have : pm.shaderPaths.lookup n = none := lookup_eq_none_of_not_mem_keys n _ hm
      simp [hm, this, PipelineManager.clearPipelines]
  · show (PipelineManager.replay pm.pipelineConfigs envOf pm.clearPipelines
      pm.shaderPaths).pm.pipelineConfigs.lookup n = _
    rw [r3]
    have hcn := hcfg n
    by_cases hm : n ∈ keys pm.shaderPaths
    · rw [hk.1 hm] at hcn
      obtain ⟨v, hv⟩ := Option.isSome_iff_exists.1 hcn
      simp [hm, hv]
    · have hh : pm.hasPipeline n = false := by
        cases hh : pm.hasPipeline n with
        | true => exact absurd (hk.2 hh) hm
        | false => rfl
      rw [hh] at hcn
      have : pm.pipelineConfigs.lookup n = none := by
        cases hl : pm.pipelineConfigs.lookup n with
        | none => rfl
        | some v => rw [hl] at hcn; simp at hcn
      simp [hm, this, PipelineManager.clearPipelines]

theorem removePipeline_tables (pm : PipelineManager) (name : String)
    (h : pm.hasPipeline name = true) :
    (pm.removePipeline name).pipelines = eraseKey name pm.pipelines ∧
    (pm.removePipeline name).shaderPaths = eraseKey name pm.shaderPaths ∧
    (pm.removePipeline name).pipelineConfigs = eraseKey name pm.pipelineConfigs ∧
    (pm.removePipeline name).pipelineLayouts = eraseKey name pm.pipelineLayouts ∧
    (pm.removePipeline name).shaderStages = pm.shaderStages := by
  unfold PipelineManager.removePipeline PipelineManager.destroyPipelineLayout
  simp only [h, Bool.not_true, Bool.false_eq_true, if_false]
  by_cases hl : (pm.pipelineLayouts.lookup name).isSome = true
  · simp [hl]
  · have : eraseKey name pm.pipelineLayouts = pm.pipelineLayouts := by
      unfold eraseKey
      rw [List.filter_eq_self]
      intro e he
      by_contra hne
      have hek : e.1 = name := by simpa using hne
      exact hl ((lookup_isSome_iff_mem_keys name pm.pipelineLayouts).2
        (by rw [← hek]; exact List.mem_map_of_mem _ he))
    simp [hl, this]

/-- A call that returns keeps the registry consistent. -/
theorem apply_consistent (pm : PipelineManager) (op : RegistryOp) (hc : pm.Consistent)
    (h : (pm.apply op).outcome = .returned) : (pm.apply op).pm.Consistent := by
  cases op with
  | create name vert frag configInfo env =>
    obtain ⟨hh, hs⟩ := createPipeline_returned pm name vert frag configInfo env h
    show (pm.createPipeline name vert frag configInfo env).pm.Consistent
    rw [createPipeline_success pm name vert frag configInfo env hh hs]
    obtain ⟨hnd, hp, hcfg⟩ := hc
    refine ⟨nodup_keys_setKey _ _ _ hnd, fun n => ?_, fun n => ?_⟩
    · have := hp n
      simp only [PipelineManager.registered, PipelineManager.hasPipeline, lookup_setKey] at this ⊢
      by_cases hn : n = name <;> simp [hn, this]
    · have := hcfg n
      simp only [PipelineManager.registered, PipelineManager.hasPipeline, lookup_setKey] at this ⊢
      by_cases hn : n = name <;> simp [hn, this]
  | remove name =>
    show (pm.removePipeline name).Consistent
    cases hh : pm.hasPipeline name with
    | false =>
      have : pm.removePipeline name = pm := by simp [PipelineManager.removePipeline, hh]
      rw [this]; exact hc
    | true =>
      obtain ⟨t1, t2, t3, _, _⟩ := removePipeline_tables pm name hh
      obtain ⟨hnd, hp, hcfg⟩ := hc
      refine ⟨?_, fun n => ?_, fun n => ?_⟩
      · rw [t2, keys_eraseKey]; exact hnd.filter _
      · have := hp n
        simp only [PipelineManager.hasPipeline, t1, t2, lookup_eraseKey] at this ⊢
        by_cases hn : n = name <;> simp [hn, this]
      · have := hcfg n
        simp only [PipelineManager.hasPipeline, t1, t3, lookup_eraseKey] at this ⊢
        by_cases hn : n = name <;> simp [hn, this]
  | clear =>
    refine ⟨?_, fun n => ?_, fun n => ?_⟩ <;>
      simp [PipelineManager.apply, PipelineManager.clearPipelines, PipelineManager.hasPipeline,
        keys]
  | recreate envOf =>
    show (pm.recreatePipelines envOf).pm.Consistent
    have h' : (pm.recreatePipelines envOf).outcome = .returned := h
    refine ⟨?_, fun n => ?_, fun n => ?_⟩
    · exact replay_nodup _ _ _ _ (by simp [PipelineManager.clearPipelines, keys])
    · obtain ⟨r1, r2, _⟩ := recreatePipelines_returned pm envOf hc h' n
      rw [r1, r2]; exact hc.2.1 n
    · obtain ⟨r1, _, r3⟩ := recreatePipelines_returned pm envOf hc h' n
      rw [r1, r3]; exact hc.2.2 n

/-- A sequence of calls that all return leaves the registry consistent. -/
theorem applyAll_consistent (ops : List RegistryOp) (pm : PipelineManager)
    (hc : pm.Consistent) (h : (pm.applyAll ops).outcome = .returned) :
    (pm.applyAll ops).pm.Consistent := by
  induction ops generalizing pm with
  | nil => exact hc
  | cons op ops ih =>
    simp only [PipelineManager.applyAll] at h ⊢
    cases ho : (pm.apply op).outcome with
    | threw w => simp [ho] at h
    | returned =>
      simp only [ho] at h
      exact ih _ (apply_consistent pm op hc ho) h

theorem empty_consistent : PipelineManager.empty.Consistent := by
  refine ⟨?_, fun n => ?_, fun n => ?_⟩ <;>
    simp [PipelineManager.empty, PipelineManager.hasPipeline, keys]

/-- The events of a `createPipeline` call: none when it throws, the creation when it returns. -/
theorem createPipeline_events (pm : PipelineManager) (name vert frag : String)
    (configInfo : PipelineConfigInfo) (env : CreateEnv) :
    (pm.createPipeline name vert frag configInfo env).events = [] ∨
    (pm.createPipeline name vert frag configInfo env).events
      = [.created name (builtPipeline configInfo env)] := by
  cases ho : (pm.createPipeline name vert frag configInfo env).outcome with
  | threw w => exact Or.inl (createPipeline_threw pm name vert frag configInfo env w ho).1
  | returned =>
    obtain ⟨hh, hs⟩ := createPipeline_returned pm name vert frag configInfo env ho
    rw [createPipeline_success pm name vert frag configInfo env hh hs]
    exact Or.inr rfl

/-- Every event of the loop is the creation of a saved name, built from the saved config of
the name and the answers the device gives for that name. -/
theorem replay_events_built (configs : List (String × PipelineConfigInfo))
    (envOf : String → CreateEnv) (saved : List (String × (String × String)))
    (pm : PipelineManager) :
    ∀ ev ∈ (PipelineManager.replay configs envOf pm saved).events,
      ∃ n, ev = .created n
        (builtPipeline ((configs.lookup n).getD PipelineConfigInfo.empty) (envOf n)) := by
  induction saved generalizing pm with
  | nil => intro ev hev; simp [PipelineManager.replay] at hev
  | cons e rest ih =>
    obtain ⟨name, paths⟩ := e
    have hce := createPipeline_events pm name paths.1 paths.2
      ((configs.lookup name).getD PipelineConfigInfo.empty) (envOf name)
    intro ev hev
    cases ho : (pm.createPipeline name paths.1 paths.2
        ((configs.lookup name).getD PipelineConfigInfo.empty) (envOf name)).outcome with
    | threw w =>
      simp only [PipelineManager.replay, ho] at hev
      rcases hce with hce | hce <;> rw [hce] at hev
      · simp at hev
      · exact ⟨name, by simpa using hev⟩
    | returned =>
      simp only [PipelineManager.replay, ho, List.mem_append] at hev
      rcases hev with hev | hev
      · rcases hce with hce | hce <;> rw [hce] at hev
        · simp at hev
        · exact ⟨name, by simpa using hev⟩
      · exact ih _ ev hev

/-- Where the loop stops when it throws: the entries before the failing one were created, in
order, and the creation of the failing one threw. -/
theorem replay_threw (configs : List (String × PipelineConfigInfo))
    (envOf : String → CreateEnv) (saved : List (String × (String × String)))
    (pm : PipelineManager) (what : String)
    (h : (PipelineManager.replay configs envOf pm saved).outcome = .threw what) :
    ∃ done name paths rest, saved = done ++ (name, paths) :: rest ∧
      (PipelineManager.replay configs envOf pm done).outcome = .returned ∧
      ((PipelineManager.replay configs envOf pm done).pm.createPipeline name paths.1 paths.2
        ((configs.lookup name).getD PipelineConfigInfo.empty) (envOf name)).outcome
          = .threw what ∧
      (PipelineManager.replay configs envOf pm saved).events
        = done.map fun e => .created e.1
            (builtPipeline ((configs.lookup e.1).getD PipelineConfigInfo.empty) (envOf e.1)) := by
  induction saved generalizing pm with
  | nil => simp [PipelineManager.replay] at h
  | cons e rest ih =>
    obtain ⟨name, paths⟩ := e
    cases ho : (pm.createPipeline name paths.1 paths.2
        ((configs.lookup name).getD PipelineConfigInfo.empty) (envOf name)).outcome with
    | threw w =>
      have hw : w = what := by simpa [PipelineManager.replay, ho] using h
      subst hw
      refine ⟨[], name, paths, rest, rfl, rfl, ho, ?_⟩
      simp only [PipelineManager.replay, ho, List.map_nil]
      exact (createPipeline_threw _ _ _ _ _ _ w ho).1
    | returned =>
      obtain ⟨hh, hs⟩ := createPipeline_returned _ _ _ _ _ _ ho
      have hc := createPipeline_success pm name paths.1 paths.2
        ((configs.lookup name).getD PipelineConfigInfo.empty) (envOf name) hh hs
      have hstep : ∀ l, PipelineManager.replay configs envOf pm ((name, paths) :: l) =
          ⟨(PipelineManager.replay configs envOf
              (pm.registered name paths.1 paths.2
                ((configs.lookup name).getD PipelineConfigInfo.empty) (envOf name)) l).pm,
            (PipelineManager.replay configs envOf
              (pm.registered name paths.1 paths.2
                ((configs.lookup name).getD PipelineConfigInfo.empty) (envOf name)) l).outcome,
            .created name (builtPipeline ((configs.lookup name).getD PipelineConfigInfo.empty)
                (envOf name)) ::
              (PipelineManager.replay configs envOf
                (pm.registered name paths.1 paths.2
                  ((configs.lookup name).getD PipelineConfigInfo.empty) (envOf name)) l).events⟩ := by
        intro l
        simp only [PipelineManager.replay, ho]
        rw [hc]; rfl
      rw [hstep rest] at h
      obtain ⟨done, n, p, rest', hsplit, hdone, hfail, hev⟩ := ih _ h
      refine ⟨(name, paths) :: done, n, p, rest', by rw [hsplit]; rfl, ?_, ?_, ?_⟩
      · rw [hstep done]; exact hdone
      · rw [hstep done]; exact hfail
      · rw [hstep rest]; simp only [List.map_cons, hev]

/-- A history of creations only: a name is live exactly when it was live before or created,
and what is live was live before or is one of the creations. -/
theorem fold_created (evs : List RegistryEvent)
    (hall : ∀ ev ∈ evs, ∃ m p, ev = RegistryEvent.created m p) (n : String)
    (init : Option Pipeline) :
    ((evs.foldl (liveStep n) init).isSome = true ↔
      init.isSome = true ∨ ∃ p, RegistryEvent.created n p ∈ evs) ∧
    (∀ p, evs.foldl (liveStep n) init = some p →
      init = some p ∨ RegistryEvent.created n p ∈ evs) := by
  induction evs generalizing init with
  | nil => simp
  | cons ev rest ih =>
    obtain ⟨m, q, rfl⟩ := hall ev (List.mem_cons_self _ _)
    obtain ⟨i1, i2⟩ := ih (fun e he => hall e (List.mem_cons_of_mem _ he))
      (liveStep n init (.created m q))
    simp only [List.foldl_cons, List.mem_cons]
    by_cases hm : m = n
    · subst hm
      simp only [liveStep, if_true] at i1 i2 ⊢
      constructor
      · rw [i1]
        constructor
        · rintro (_ | ⟨p, hp⟩)
          · exact Or.inr ⟨q, Or.inl rfl⟩
          · exact Or.inr ⟨p, Or.inr hp⟩
        · intro _; exact Or.inl rfl
      · intro p hp
        rcases i2 p hp with h | h
        · right; left; simp at h; rw [h]
        · right; right; exact h
    · simp only [liveStep, hm, if_false] at i1 i2 ⊢
      constructor
      · rw [i1]
        constructor
        · rintro (h | ⟨p, hp⟩)
          · exact Or.inl h
          · exact Or.inr ⟨p, Or.inr hp⟩
        · rintro (h | ⟨p, hp | hp⟩)
          · exact Or.inl h
          · simp at hp; exact absurd hp.1.symm hm
          · exact Or.inr ⟨p, hp⟩
      · intro p hp
        rcases i2 p hp with h | h
        · exact Or.inl h
        · exact Or.inr (Or.inr h)

/-! ## Facts about slot indices -/

/-- Every per-slot index a tick uses is the slot the tick started on. -/
theorem render_slotIndices (app : Application) (env : TickEnv) :
    ∀ c ∈ (render app env).calls, ∀ i ∈ c.slotIndices, i = app.currentFrame := by
  have hp := render_path app env
  generalize render app env = r at hp ⊢
  cases hp <;> (try rcases ‹DrawCalls _ _ _› with rfl | ⟨p, rfl⟩) <;>
    simp [callsPresent, callsSubmit, callsRecord, callsBegin, callsAcquire, drawBlock,
      Call.slotIndices, Semaphore.frameIndex, submitInfoFor, presentInfoFor, or_imp,
      forall_and]

/-- A tick leaves the number of slots as it is and the slot index below it. -/
theorem render_slot_lt (app : Application) (env : TickEnv)
    (hN : 1 ≤ app.maxFramesInFlight) (hcf : app.currentFrame < app.maxFramesInFlight) :
    (render app env).app.maxFramesInFlight = app.maxFramesInFlight ∧
    (render app env).app.currentFrame < app.maxFramesInFlight := by
  have hlt : ((app.currentFrame + 1) % 2 ^ 32) % app.maxFramesInFlight
      < app.maxFramesInFlight := Nat.mod_lt _ hN
  have hp := render_path app env
  generalize render app env = r at hp ⊢
  cases hp <;> first
    | exact ⟨rfl, hcf⟩
    | exact ⟨rfl, hlt⟩

/-- The slot index stays in range over consecutive ticks, and so does every index used. -/
theorem renderTicks_slots (envs : List TickEnv) (app : Application)
    (hN : 1 ≤ app.maxFramesInFlight) (hcf : app.currentFrame < app.maxFramesInFlight) :
    (renderTicks app envs).app.maxFramesInFlight = app.maxFramesInFlight ∧
    (renderTicks app envs).app.currentFrame < app.maxFramesInFlight ∧
    ∀ c ∈ (renderTicks app envs).calls, ∀ i ∈ c.slotIndices, i < app.maxFramesInFlight := by
  induction envs generalizing app with
  | nil => exact ⟨rfl, hcf, by simp [renderTicks]⟩
  | cons env envs ih =>
    obtain ⟨hm, hlt⟩ := render_slot_lt app env hN hcf
    have hidx : ∀ c ∈ (render app env).calls, ∀ i ∈ c.slotIndices,
        i < app.maxFramesInFlight := by
      intro c hc i hi
      rw [render_slotIndices app env c hc i hi]; exact hcf
    cases ho : (render app env).outcome with
    | threw what =>
      have : renderTicks app (env :: envs) = render app env := by simp [renderTicks, ho]
      rw [this]; exact ⟨hm, hlt, hidx⟩
    | returned =>
      obtain ⟨i1, i2, i3⟩ := ih (render app env).app (hm ▸ hN) (hm ▸ hlt)
      rw [renderTicks_cons app env envs ho]
      refine ⟨i1.trans hm, hm ▸ i2, ?_⟩
      intro c hc i hi
      rcases List.mem_append.1 hc with hc | hc
      · exact hidx c hc i hi
      · exact hm ▸ i3 c hc i hi

/-! ## The frame driver and the pipeline registry: claims C11 to C20 -/

/-- Claim C11 on the code: with two slots, a visible window and a fence wait that reports a
lost device while every later call succeeds, the tick raises no error; it returns normally and
has gone on to acquire an image, reset the fence of slot 0 and submit work. -/
theorem failed_wait_tick_goes_on :
    (render (Application.init 2 samplePipeline)
      { TickEnv.ok 0 with waitResult := VK_ERROR_DEVICE_LOST }).outcome = .returned ∧
    Call.acquireNextImage (.imageAvailable 0)
      ∈ (render (Application.init 2 samplePipeline)
          { TickEnv.ok 0 with waitResult := VK_ERROR_DEVICE_LOST }).calls ∧
    Call.resetFences 0
      ∈ (render (Application.init 2 samplePipeline)
          { TickEnv.ok 0 with waitResult := VK_ERROR_DEVICE_LOST }).calls ∧
    Call.queueSubmit (submitInfoFor 0 0) 0
      ∈ (render (Application.init 2 samplePipeline)
          { TickEnv.ok 0 with waitResult := VK_ERROR_DEVICE_LOST }).calls := by
  decide

/-- The tick does not read the result of the fence wait: with a visible window, whatever the
wait reports, the tick leaves the same state, issues the same calls and ends the same way as
after a successful wait, starting with the wait and the acquire on the current slot. -/
theorem render_ignores_waitResult (app : Application) (env : TickEnv) (waitResult : VkResult)
    (hmin : env.minimized = false) :
    render app { env with waitResult := waitResult }
      = render app { env with waitResult := VK_SUCCESS } ∧
    ∃ rest, (render app { env with waitResult := waitResult }).calls
      = .waitForFences app.currentFrame
        :: .acquireNextImage (.imageAvailable app.currentFrame) :: rest := by
  refine ⟨rfl, ?_⟩
  have hmin' : ({ env with waitResult := waitResult } : TickEnv).minimized = false := hmin
  have hp := render_path app { env with waitResult := waitResult }
  generalize render app { env with waitResult := waitResult } = r at hp ⊢
  cases hp <;> (try rcases ‹DrawCalls _ _ _› with rfl | ⟨p, rfl⟩) <;>
    simp_all [callsPresent, callsSubmit, callsRecord, callsBegin, callsAcquire]

/-- Claim C12: for every number of slots N ≥ 1, after any sequence of ticks that starts on
slot 0 the slot index is below N, and every index a call of those ticks uses into the
per-slot lists (fence, acquire semaphore, present semaphore, command buffer, each of length
N) is below N. -/
theorem slot_index_in_range (app : Application) (envs : List TickEnv)
    (hN : 1 ≤ app.maxFramesInFlight) (hstart : app.currentFrame = 0) :
    (renderTicks app envs).app.maxFramesInFlight = app.maxFramesInFlight ∧
    (renderTicks app envs).app.currentFrame < app.maxFramesInFlight ∧
    ∀ c ∈ (renderTicks app envs).calls, ∀ i ∈ c.slotIndices, i < app.maxFramesInFlight :=
  renderTicks_slots envs app hN (by omega)

/-- Witness for claim C12: three ticks with two slots, the second of which finds the surface
out of date at present. -/
theorem slot_index_in_range_witness :
    1 ≤ (Application.init 2 samplePipeline).maxFramesInFlight ∧
    (Application.init 2 samplePipeline).currentFrame = 0 ∧
    (renderTicks (Application.init 2 samplePipeline)
      [TickEnv.ok 0, { TickEnv.ok 1 with presentResult := VK_ERROR_OUT_OF_DATE_KHR },
       TickEnv.ok 0]).app.currentFrame < 2 ∧
    ∀ c ∈ (renderTicks (Application.init 2 samplePipeline)
      [TickEnv.ok 0, { TickEnv.ok 1 with presentResult := VK_ERROR_OUT_OF_DATE_KHR },
       TickEnv.ok 0]).calls, ∀ i ∈ c.slotIndices, i < 2 :=
  have h := slot_index_in_range (Application.init 2 samplePipeline)
    [TickEnv.ok 0, { TickEnv.ok 1 with presentResult := VK_ERROR_OUT_OF_DATE_KHR },
     TickEnv.ok 0] (by decide) rfl
  ⟨by decide, rfl, h.2.1, h.2.2⟩

/-- Claim C13: `createPipeline` called with a name that is already registered throws
"Pipeline with name 'name' already exists" and leaves the registry, every table of it, exactly
as it was. -/
theorem createPipeline_duplicate (pm : PipelineManager) (name vert frag : String)
    (configInfo : PipelineConfigInfo) (env : CreateEnv) (h : pm.hasPipeline name = true) :
    (pm.createPipeline name vert frag configInfo env).outcome
      = .threw ("Pipeline with name '" ++ name ++ "' already exists") ∧
    (pm.createPipeline name vert frag configInfo env).pm = pm ∧
    (pm.createPipeline name vert frag configInfo env).pm.pipelines = pm.pipelines ∧
    (pm.createPipeline name vert frag configInfo env).pm.shaderStages = pm.shaderStages ∧
    (pm.createPipeline name vert frag configInfo env).pm.pipelineLayouts = pm.pipelineLayouts ∧
    (pm.createPipeline name vert frag configInfo env).pm.shaderPaths = pm.shaderPaths ∧
    (pm.createPipeline name vert frag configInfo env).pm.pipelineConfigs = pm.pipelineConfigs := by
  rw [createPipeline_exists pm name vert frag configInfo env h]
  exact ⟨rfl, rfl, rfl, rfl, rfl, rfl, rfl⟩

/-- Witness for claim C13: registering "basic" a second time, with another config and other
shader files. -/
theorem createPipeline_duplicate_witness :
    ((PipelineManager.empty.registered "basic" "a.vert" "a.frag"
        PipelineManager.getDefaultConfig (CreateEnv.ok 7)).createPipeline "basic" "b.vert"
        "b.frag" { pipelineLayout := 1, renderPass := 2, subpass := 0 } (CreateEnv.ok 8)).outcome
      = .threw "Pipeline with name 'basic' already exists" ∧
    ((PipelineManager.empty.registered "basic" "a.vert" "a.frag"
        PipelineManager.getDefaultConfig (CreateEnv.ok 7)).createPipeline "basic" "b.vert"
        "b.frag" { pipelineLayout := 1, renderPass := 2, subpass := 0 } (CreateEnv.ok 8)).pm
      = PipelineManager.empty.registered "basic" "a.vert" "a.frag"
        PipelineManager.getDefaultConfig (CreateEnv.ok 7) :=
  have h := createPipeline_duplicate
    (PipelineManager.empty.registered "basic" "a.vert" "a.frag"
      PipelineManager.getDefaultConfig (CreateEnv.ok 7)) "basic" "b.vert" "b.frag"
    { pipelineLayout := 1, renderPass := 2, subpass := 0 } (CreateEnv.ok 8) (by decide)
  ⟨h.1, h.2.1⟩

/-- The events of a `createPipeline` call are told by its outcome. -/
theorem createPipeline_events_eq (pm : PipelineManager) (name vert frag : String)
    (configInfo : PipelineConfigInfo) (env : CreateEnv) :
    (pm.createPipeline name vert frag configInfo env).events
      = createdBy (pm.createPipeline name vert frag configInfo env).outcome name configInfo
          env := by
  cases ho : (pm.createPipeline name vert frag configInfo env).outcome with
  | threw w => exact (createPipeline_threw pm name vert frag configInfo env w ho).1
  | returned =>
    obtain ⟨hh, hs⟩ := createPipeline_returned pm name vert frag configInfo env ho
    rw [createPipeline_success pm name vert frag configInfo env hh hs]
    rfl

/-- The events of the loop of `recreatePipelines` are told by the outcomes of its replays. -/
theorem replay_events_eq (configs : List (String × PipelineConfigInfo))
    (envOf : String → CreateEnv) (saved : List (String × (String × String)))
    (pm : PipelineManager) :
    (PipelineManager.replay configs envOf pm saved).events
      = PipelineManager.replayHistory configs envOf pm saved := by
  induction saved generalizing pm with
  | nil => rfl
  | cons e rest ih =>
    obtain ⟨name, paths⟩ := e
    have hc := createPipeline_events_eq pm name paths.1 paths.2
      ((configs.lookup name).getD PipelineConfigInfo.empty) (envOf name)
    cases ho : (pm.createPipeline name paths.1 paths.2
        ((configs.lookup name).getD PipelineConfigInfo.empty) (envOf name)).outcome with
    | threw w =>
      rw [ho] at hc
      simp only [PipelineManager.replay, PipelineManager.replayHistory, ho, hc]
      rfl
    | returned =>
      rw [ho] at hc
      simp only [PipelineManager.replay, PipelineManager.replayHistory, ho, hc, ih]
      rfl

/-- The events of a call on the registry are told by the outcomes of the calls. -/
theorem apply_events_eq (pm : PipelineManager) (op : RegistryOp) :
    (pm.apply op).events = pm.opHistory op := by
  cases op with
  | create name vert frag configInfo env =>
    exact createPipeline_events_eq pm name vert frag configInfo env
  | remove name => rfl
  | clear => rfl
  | recreate envOf =>
    show RegistryEvent.cleared :: _ = RegistryEvent.cleared :: _
    rw [replay_events_eq]

/-- The events of a sequence of calls are its history. -/
theorem applyAll_events_eq (ops : List RegistryOp) (pm : PipelineManager) :
    (pm.applyAll ops).events = pm.history ops := by
  induction ops generalizing pm with
  | nil => rfl
  | cons op ops ih =>
    simp only [PipelineManager.applyAll, PipelineManager.history, ih, apply_events_eq]

/-- Claim C14: after any sequence of calls on a new registry, `getPipeline(name)` is told by
the history of the calls and their outcomes: it throws "Pipeline 'name' not found" when no
`createPipeline(name)` call, direct or replayed by `recreatePipelines`, has returned, or when
the name has been removed (by `removePipeline` or by a clearing, also the one inside
`recreatePipelines`) since the latest such call; otherwise it returns the pipeline that the
latest `createPipeline(name)` call that returned built from its config and the answers of the
device; so it never returns a removed pipeline. -/
theorem getPipeline_follows_history (ops : List RegistryOp) (name : String) :
    (PipelineManager.empty.applyAll ops).pm.getPipeline name =
      match liveAfter name (PipelineManager.empty.history ops) with
      | none => .error ("Pipeline '" ++ name ++ "' not found")
      | some p => .ok p := by
  have h := applyAll_live ops PipelineManager.empty name
  rw [applyAll_events_eq] at h
  unfold PipelineManager.getPipeline liveAfter
  rw [h]
  rfl

/-- Claim C15, evaluated on the code: after `createPipeline("basic", ...)` has succeeded on a
new registry, `removePipeline("basic")` leaves no pipeline, no layout, no stored shader paths
and no stored config under the name, but the table `shaderStages` still holds the stages, and
`getShaderStages("basic")` returns them. -/
theorem removePipeline_keeps_shaderStages :
    ((PipelineManager.empty.createPipeline "basic" "shaders/shader.vert.spv"
        "shaders/shader.frag.spv" PipelineManager.getDefaultConfig (CreateEnv.ok 7)).pm.removePipeline
        "basic").getShaderStages "basic"
      = some { vertex := ⟨11, .Vertex⟩, fragment := ⟨12, .Fragment⟩ } ∧
    ((PipelineManager.empty.createPipeline "basic" "shaders/shader.vert.spv"
        "shaders/shader.frag.spv" PipelineManager.getDefaultConfig (CreateEnv.ok 7)).pm.removePipeline
        "basic")
      = { PipelineManager.empty with
          shaderStages := [("basic", { vertex := ⟨11, .Vertex⟩, fragment := ⟨12, .Fragment⟩ })] } := by
  decide

/-- Claim C16: if `createPipeline(name, ...)` passes the duplicate check and then throws, at
whichever step (opening or compiling either shader, creating the layout, building the
pipeline), then afterwards `hasPipeline(name)` is false and `getPipeline(name)` throws
"Pipeline 'name' not found". -/
theorem createPipeline_failure_not_visible (pm : PipelineManager) (name vert frag : String)
    (configInfo : PipelineConfigInfo) (env : CreateEnv) (what : String)
    (hcheck : pm.hasPipeline name = false)
    (h : (pm.createPipeline name vert frag configInfo env).outcome = .threw what) :
    (pm.createPipeline name vert frag configInfo env).pm.hasPipeline name = false ∧
    (pm.createPipeline name vert frag configInfo env).pm.getPipeline name
      = .error ("Pipeline '" ++ name ++ "' not found") := by
  obtain ⟨_, hp⟩ := createPipeline_threw pm name vert frag configInfo env what h
  have hl : pm.pipelines.lookup name = none := by
    cases hl : pm.pipelines.lookup name with
    | none => rfl
    | some v => simp [PipelineManager.hasPipeline, hl] at hcheck
  simp [PipelineManager.hasPipeline, PipelineManager.getPipeline, hp, hl]

/-- Witness for claim C16: the four kinds of failure on a new registry. -/
theorem createPipeline_failure_not_visible_witness :
    (PipelineManager.empty.createPipeline "basic" "a.vert" "a.frag"
        PipelineManager.getDefaultConfig
        { CreateEnv.ok 7 with fragmentFileOpens := false }).pm.hasPipeline "basic" = false ∧
    (PipelineManager.empty.createPipeline "basic" "a.vert" "a.frag"
        PipelineManager.getDefaultConfig
        { CreateEnv.ok 7 with vertexModuleResult := VK_ERROR_DEVICE_LOST }).pm.hasPipeline
        "basic" = false ∧
    (PipelineManager.empty.createPipeline "basic" "a.vert" "a.frag"
        PipelineManager.getDefaultConfig
        { CreateEnv.ok 7 with layoutResult := VK_ERROR_DEVICE_LOST }).pm.hasPipeline
        "basic" = false ∧
    (PipelineManager.empty.createPipeline "basic" "a.vert" "a.frag"
        PipelineManager.getDefaultConfig
        { CreateEnv.ok 7 with pipelineResult := VK_ERROR_DEVICE_LOST }).pm.getPipeline "basic"
      = .error "Pipeline 'basic' not found" :=
  ⟨(createPipeline_failure_not_visible PipelineManager.empty "basic" "a.vert" "a.frag"
      PipelineManager.getDefaultConfig { CreateEnv.ok 7 with fragmentFileOpens := false }
      "failed to open file: a.frag" (by decide) (by decide)).1,
   (createPipeline_failure_not_visible PipelineManager.empty "basic" "a.vert" "a.frag"
      PipelineManager.getDefaultConfig
      { CreateEnv.ok 7 with vertexModuleResult := VK_ERROR_DEVICE_LOST }
      "failed to create shader module!" (by decide) (by decide)).1,
   (createPipeline_failure_not_visible PipelineManager.empty "basic" "a.vert" "a.frag"
      PipelineManager.getDefaultConfig
      { CreateEnv.ok 7 with layoutResult := VK_ERROR_DEVICE_LOST }
      "Failed to create pipeline layout for 'basic'" (by decide) (by decide)).1,
   (createPipeline_failure_not_visible PipelineManager.empty "basic" "a.vert" "a.frag"
      PipelineManager.getDefaultConfig
      { CreateEnv.ok 7 with pipelineResult := VK_ERROR_DEVICE_LOST }
      "failed to create graphics pipeline" (by decide) (by decide)).2⟩

/-- Claim C18: on a registry reached from a new one through calls that all returned, a
`recreatePipelines` call that returns (every replayed creation succeeded) leaves every name
registered exactly when it was registered before, with the same stored vertex and fragment
shader paths and the same stored config as before. -/
theorem recreatePipelines_keeps_registry (ops : List RegistryOp) (envOf : String → CreateEnv)
    (name : String)
    (hops : (PipelineManager.empty.applyAll ops).outcome = .returned)
    (h : ((PipelineManager.empty.applyAll ops).pm.recreatePipelines envOf).outcome
      = .returned) :
    ((PipelineManager.empty.applyAll ops).pm.recreatePipelines envOf).pm.hasPipeline name
      = (PipelineManager.empty.applyAll ops).pm.hasPipeline name ∧
    ((PipelineManager.empty.applyAll ops).pm.recreatePipelines envOf).pm.shaderPaths.lookup name
      = (PipelineManager.empty.applyAll ops).pm.shaderPaths.lookup name ∧
    ((PipelineManager.empty.applyAll ops).pm.recreatePipelines envOf).pm.pipelineConfigs.lookup
        name
      = (PipelineManager.empty.applyAll ops).pm.pipelineConfigs.lookup name :=
  recreatePipelines_returned _ envOf
    (applyAll_consistent ops PipelineManager.empty empty_consistent hops) h name

/-- Witness for claim C18: two pipelines registered, one removed and registered again, then
everything recreated against a new render pass. -/
theorem recreatePipelines_keeps_registry_witness :
    ((PipelineManager.empty.applyAll
        [.create "basic" "a.vert" "a.frag" PipelineManager.getDefaultConfig (CreateEnv.ok 7),
         .create "ui" "u.vert" "u.frag" { pipelineLayout := 1, renderPass := 2, subpass := 0 }
           (CreateEnv.ok 8),
         .remove "basic",
         .create "basic" "b.vert" "b.frag" PipelineManager.getDefaultConfig
           (CreateEnv.ok 9)]).pm.recreatePipelines
        (fun _ => { CreateEnv.ok 10 with renderPass := 32 })).pm.hasPipeline "ui" = true ∧
    ((PipelineManager.empty.applyAll
        [.create "basic" "a.vert" "a.frag" PipelineManager.getDefaultConfig (CreateEnv.ok 7),
         .create "ui" "u.vert" "u.frag" { pipelineLayout := 1, renderPass := 2, subpass := 0 }
           (CreateEnv.ok 8),
         .remove "basic",
         .create "basic" "b.vert" "b.frag" PipelineManager.getDefaultConfig
           (CreateEnv.ok 9)]).pm.recreatePipelines
        (fun _ => { CreateEnv.ok 10 with renderPass := 32 })).pm.shaderPaths.lookup "basic"
      = some ("b.vert", "b.frag") ∧
    ((PipelineManager.empty.applyAll
        [.create "basic" "a.vert" "a.frag" PipelineManager.getDefaultConfig (CreateEnv.ok 7),
         .create "ui" "u.vert" "u.frag" { pipelineLayout := 1, renderPass := 2, subpass := 0 }
           (CreateEnv.ok 8),
         .remove "basic",
         .create "basic" "b.vert" "b.frag" PipelineManager.getDefaultConfig
           (CreateEnv.ok 9)]).pm.recreatePipelines
        (fun _ => { CreateEnv.ok 10 with renderPass := 32 })).pm.pipelineConfigs.lookup "ui"
      = some { pipelineLayout := 1, renderPass := 2, subpass := 0 } :=
  have hb := recreatePipelines_keeps_registry
    [.create "basic" "a.vert" "a.frag" PipelineManager.getDefaultConfig (CreateEnv.ok 7),
     .create "ui" "u.vert" "u.frag" { pipelineLayout := 1, renderPass := 2, subpass := 0 }
       (CreateEnv.ok 8),
     .remove "basic",
     .create "basic" "b.vert" "b.frag" PipelineManager.getDefaultConfig (CreateEnv.ok 9)]
    (fun _ => { CreateEnv.ok 10 with renderPass := 32 }) "basic" (by decide) (by decide)
  have hu := recreatePipelines_keeps_registry
    [.create "basic" "a.vert" "a.frag" PipelineManager.getDefaultConfig (CreateEnv.ok 7),
     .create "ui" "u.vert" "u.frag" { pipelineLayout := 1, renderPass := 2, subpass := 0 }
       (CreateEnv.ok 8),
     .remove "basic",
     .create "basic" "b.vert" "b.frag" PipelineManager.getDefaultConfig (CreateEnv.ok 9)]
    (fun _ => { CreateEnv.ok 10 with renderPass := 32 }) "ui" (by decide) (by decide)
  ⟨hu.1.trans (by decide), hb.2.1.trans (by decide), hu.2.2.trans (by decide)⟩

/-- Claim C19: a `createPipeline` call that returns has registered under the name a pipeline
built with the render pass the swap chain holds during the call and with the layout just
created and stored for the name, whatever render pass and layout the supplied config carries;
and every creation replayed by `recreatePipelines` (every `created` event of it) built its
pipeline with the render pass and the layout of that replay. -/
theorem pipeline_built_against_current (pm : PipelineManager) (name vert frag : String)
    (configInfo : PipelineConfigInfo) (env : CreateEnv) (envOf : String → CreateEnv)
    (n : String) (p : Pipeline) :
    ((pm.createPipeline name vert frag configInfo env).outcome = .returned →
      ∃ built, (pm.createPipeline name vert frag configInfo env).pm.pipelines.lookup name
          = some built ∧
        (pm.createPipeline name vert frag configInfo env).events = [.created name built] ∧
        built.graphicsPipeline = env.graphicsPipeline ∧
        built.configInfo.renderPass = env.renderPass ∧
        built.configInfo.pipelineLayout = env.layout ∧
        (pm.createPipeline name vert frag configInfo env).pm.pipelineLayouts.lookup name
          = some env.layout) ∧
    (.created n p ∈ (pm.recreatePipelines envOf).events →
      p.graphicsPipeline = (envOf n).graphicsPipeline ∧
      p.configInfo.renderPass = (envOf n).renderPass ∧
      p.configInfo.pipelineLayout = (envOf n).layout) := by
  constructor
  · intro h
    obtain ⟨hh, hs⟩ := createPipeline_returned pm name vert frag configInfo env h
    rw [createPipeline_success pm name vert frag configInfo env hh hs]
    exact ⟨builtPipeline configInfo env, by simp [PipelineManager.registered, lookup_setKey_self],
      rfl, rfl, rfl, rfl, by simp [PipelineManager.registered, lookup_setKey_self]⟩
  · intro hev
    have hev' : RegistryEvent.created n p ∈ (PipelineManager.replay pm.pipelineConfigs envOf
        pm.clearPipelines pm.shaderPaths).events := by
      simpa [PipelineManager.recreatePipelines] using hev
    obtain ⟨m, hm⟩ := replay_events_built _ _ _ _ _ hev'
    injection hm with h1 h2
    subst h1 h2
    exact ⟨rfl, rfl, rfl⟩

/-- Witness for claim C19: a creation whose config carries layout 1 and render pass 2 while
the device gives layout 21 and the swap chain holds render pass 31, and its replay when the
swap chain holds render pass 32. -/
theorem pipeline_built_against_current_witness :
    (∃ built, (PipelineManager.empty.createPipeline "ui" "u.vert" "u.frag"
          { pipelineLayout := 1, renderPass := 2, subpass := 0 }
          (CreateEnv.ok 8)).pm.pipelines.lookup "ui" = some built ∧
        (PipelineManager.empty.createPipeline "ui" "u.vert" "u.frag"
          { pipelineLayout := 1, renderPass := 2, subpass := 0 } (CreateEnv.ok 8)).events
          = [.created "ui" built] ∧
        built.graphicsPipeline = 8 ∧
        built.configInfo.renderPass = 31 ∧
        built.configInfo.pipelineLayout = 21 ∧
        (PipelineManager.empty.createPipeline "ui" "u.vert" "u.frag"
          { pipelineLayout := 1, renderPass := 2, subpass := 0 }
          (CreateEnv.ok 8)).pm.pipelineLayouts.lookup "ui" = some 21) ∧
    (builtPipeline { pipelineLayout := 1, renderPass := 2, subpass := 0 }
        { CreateEnv.ok 10 with renderPass := 32 }).configInfo.renderPass = 32 :=
  ⟨(pipeline_built_against_current PipelineManager.empty "ui" "u.vert" "u.frag"
      { pipelineLayout := 1, renderPass := 2, subpass := 0 } (CreateEnv.ok 8)
      (fun _ => CreateEnv.ok 8) "ui" samplePipeline).1 (by decide),
   ((pipeline_built_against_current
      (PipelineManager.empty.registered "ui" "u.vert" "u.frag"
        { pipelineLayout := 1, renderPass := 2, subpass := 0 } (CreateEnv.ok 8))
      "ui" "u.vert" "u.frag" { pipelineLayout := 1, renderPass := 2, subpass := 0 }
      (CreateEnv.ok 8) (fun _ => { CreateEnv.ok 10 with renderPass := 32 }) "ui"
      (builtPipeline { pipelineLayout := 1, renderPass := 2, subpass := 0 }
        { CreateEnv.ok 10 with renderPass := 32 })).2 (by decide)).2.1⟩

/-- Claim C20: if `recreatePipelines` throws, the stored shader paths it iterates split into
entries `done`, the failing entry and the rest; the replays of `done` returned, the replay of
the failing entry threw, and afterwards the registered names are exactly the names of `done`
and every registered pipeline is one built by a replay of this call, so none built before the
call is still registered. -/
theorem recreatePipelines_failure (pm : PipelineManager) (envOf : String → CreateEnv)
    (what : String) (h : (pm.recreatePipelines envOf).outcome = .threw what) :
    ∃ done name paths rest, pm.shaderPaths = done ++ (name, paths) :: rest ∧
      (PipelineManager.replay pm.pipelineConfigs envOf pm.clearPipelines done).outcome
        = .returned ∧
      ((PipelineManager.replay pm.pipelineConfigs envOf pm.clearPipelines
          done).pm.createPipeline name paths.1 paths.2
        ((pm.pipelineConfigs.lookup name).getD PipelineConfigInfo.empty) (envOf name)).outcome
          = .threw what ∧
      (pm.recreatePipelines envOf).events = RegistryEvent.cleared :: done.map (fun e => RegistryEvent.created e.1
        (builtPipeline ((pm.pipelineConfigs.lookup e.1).getD PipelineConfigInfo.empty)
          (envOf e.1))) ∧
      (∀ n, (pm.recreatePipelines envOf).pm.hasPipeline n = true ↔ n ∈ keys done) ∧
      (∀ n p, (pm.recreatePipelines envOf).pm.pipelines.lookup n = some p →
        RegistryEvent.created n p ∈ (pm.recreatePipelines envOf).events) := by
  have h' : (PipelineManager.replay pm.pipelineConfigs envOf pm.clearPipelines
      pm.shaderPaths).outcome = .threw what := h
  obtain ⟨done, name, paths, rest, hsplit, hdone, hfail, hev⟩ := replay_threw _ _ _ _ _ h'
  have hlive := fun n => replay_live pm.pipelineConfigs envOf pm.shaderPaths pm.clearPipelines n
  have hall : ∀ ev ∈ (PipelineManager.replay pm.pipelineConfigs envOf pm.clearPipelines
      pm.shaderPaths).events, ∃ m p, ev = RegistryEvent.created m p := by
    intro ev hmem
    obtain ⟨m, hm⟩ := replay_events_built _ _ _ _ ev hmem
    exact ⟨m, _, hm⟩
  have hnone : ∀ n, pm.clearPipelines.pipelines.lookup n = none := fun n => rfl
  refine ⟨done, name, paths, rest, hsplit, hdone, hfail, ?_, fun n => ?_, fun n p hp => ?_⟩
  · show RegistryEvent.cleared :: _ = _
    rw [hev]
  · obtain ⟨f1, _⟩ := fold_created _ hall n none
    show ((PipelineManager.replay pm.pipelineConfigs envOf pm.clearPipelines
      pm.shaderPaths).pm.pipelines.lookup n).isSome = true ↔ _
    rw [hlive n, hnone n, f1, hev]
    simp only [Option.isSome_none, Bool.false_eq_true, false_or, List.mem_map, keys]
    constructor
    · rintro ⟨p, e, he, heq⟩
      injection heq with h1 _
      exact ⟨e, he, h1⟩
    · rintro ⟨e, he, rfl⟩
      exact ⟨_, e, he, rfl⟩
  · obtain ⟨_, f2⟩ := fold_created _ hall n none
    have hp' : (PipelineManager.replay pm.pipelineConfigs envOf pm.clearPipelines
      pm.shaderPaths).pm.pipelines.lookup n = some p := hp
    rw [hlive n, hnone n] at hp'
    rcases f2 p hp' with hbad | hmem
    · simp at hbad
    · exact List.mem_cons_of_mem _ hmem

/-- Witness for claim C20: "ui" and "basic" are registered; the replay of "basic" comes first
and succeeds, the replay of "ui" fails at its layout; afterwards "basic" is registered with
the pipeline just built and "ui" is not registered. -/
theorem recreatePipelines_failure_witness :
    ∃ done name paths rest,
      (PipelineManager.empty.applyAll
        [.create "ui" "u.vert" "u.frag" PipelineManager.getDefaultConfig (CreateEnv.ok 8),
         .create "basic" "a.vert" "a.frag" PipelineManager.getDefaultConfig
           (CreateEnv.ok 7)]).pm.shaderPaths = done ++ (name, paths) :: rest ∧
      ((PipelineManager.empty.applyAll
        [.create "ui" "u.vert" "u.frag" PipelineManager.getDefaultConfig (CreateEnv.ok 8),
         .create "basic" "a.vert" "a.frag" PipelineManager.getDefaultConfig
           (CreateEnv.ok 7)]).pm.recreatePipelines
        (fun n => if n = "ui" then { CreateEnv.ok 80 with layoutResult := VK_ERROR_DEVICE_LOST }
          else CreateEnv.ok 70)).pm.hasPipeline "basic" = true ∧
      ((PipelineManager.empty.applyAll
        [.create "ui" "u.vert" "u.frag" PipelineManager.getDefaultConfig (CreateEnv.ok 8),
         .create "basic" "a.vert" "a.frag" PipelineManager.getDefaultConfig
           (CreateEnv.ok 7)]).pm.recreatePipelines
        (fun n => if n = "ui" then { CreateEnv.ok 80 with layoutResult := VK_ERROR_DEVICE_LOST }
          else CreateEnv.ok 70)).pm.hasPipeline "ui" = false :=
  have h := recreatePipelines_failure
    (PipelineManager.empty.applyAll
      [.create "ui" "u.vert" "u.frag" PipelineManager.getDefaultConfig (CreateEnv.ok 8),
       .create "basic" "a.vert" "a.frag" PipelineManager.getDefaultConfig (CreateEnv.ok 7)]).pm
    (fun n => if n = "ui" then { CreateEnv.ok 80 with layoutResult := VK_ERROR_DEVICE_LOST }
      else CreateEnv.ok 70)
    "Failed to create pipeline layout for 'ui'" (by decide)
  match h with
  | ⟨done, name, paths, rest, hsplit, _, _, _, _, _⟩ =>
    ⟨done, name, paths, rest, hsplit, by decide, by decide⟩

/-! ## Facts about layouts, device selection and the synchronizer -/

/-- A loop of replays that returns keeps the layout table in step with `pipelines`. -/
theorem replay_layouts (configs : List (String × PipelineConfigInfo))
    (envOf : String → CreateEnv) (saved : List (String × (String × String)))
    (pm : PipelineManager) (hl : pm.LayoutsMatch)
    (h : (PipelineManager.replay configs envOf pm saved).outcome = .returned) :
    (PipelineManager.replay configs envOf pm saved).pm.LayoutsMatch := by
  induction saved generalizing pm with
  | nil => exact hl
  | cons e rest ih =>
    obtain ⟨name, paths⟩ := e
    obtain ⟨hh, hs, heq⟩ := replay_cons_returned configs envOf pm name paths rest h
    rw [heq] at h ⊢
    refine ih _ (fun n => ?_) h
    have := hl n
    simp only [PipelineManager.registered, PipelineManager.hasPipeline, lookup_setKey] at this ⊢
    by_cases hn : n = name <;> simp [hn, this]

/-- A call that returns keeps the layout table in step with `pipelines`. -/
theorem apply_layouts (pm : PipelineManager) (op : RegistryOp) (hl : pm.LayoutsMatch)
    (h : (pm.apply op).outcome = .returned) : (pm.apply op).pm.LayoutsMatch := by
  cases op with
  | create name vert frag configInfo env =>
    obtain ⟨hh, hs⟩ := createPipeline_returned pm name vert frag configInfo env h
    show (pm.createPipeline name vert frag configInfo env).pm.LayoutsMatch
    rw [createPipeline_success pm name vert frag configInfo env hh hs]
    intro n
    have := hl n
    simp only [PipelineManager.registered, PipelineManager.hasPipeline, lookup_setKey] at this ⊢
    by_cases hn : n = name <;> simp [hn, this]
  | remove name =>
    show (pm.removePipeline name).LayoutsMatch
    cases hh : pm.hasPipeline name with
    | false =>
      have : pm.removePipeline name = pm := by simp [PipelineManager.removePipeline, hh]
      rw [this]; exact hl
    | true =>
      obtain ⟨t1, _, _, t4, _⟩ := removePipeline_tables pm name hh
      intro n
      have := hl n
      simp only [PipelineManager.hasPipeline, t1, t4, lookup_eraseKey] at this ⊢
      by_cases hn : n = name <;> simp [hn, this]
  | clear =>
    intro n
    simp [PipelineManager.apply, PipelineManager.clearPipelines, PipelineManager.hasPipeline]
  | recreate envOf =>
    have h' : (PipelineManager.replay pm.pipelineConfigs envOf pm.clearPipelines
        pm.shaderPaths).outcome = .returned := h
    show (PipelineManager.replay pm.pipelineConfigs envOf pm.clearPipelines
        pm.shaderPaths).pm.LayoutsMatch
    refine replay_layouts _ _ _ _ (fun n => ?_) h'
    simp [PipelineManager.clearPipelines, PipelineManager.hasPipeline]

/-- Calls that all return keep the layout table in step with `pipelines`. -/
theorem applyAll_layouts (ops : List RegistryOp) (pm : PipelineManager)
    (hl : pm.LayoutsMatch) (h : (pm.applyAll ops).outcome = .returned) :
    (pm.applyAll ops).pm.LayoutsMatch := by
  induction ops generalizing pm with
  | nil => exact hl
  | cons op ops ih =>
    simp only [PipelineManager.applyAll] at h ⊢
    cases ho : (pm.apply op).outcome with
    | threw w => simp [ho] at h
    | returned =>
      simp only [ho] at h
      exact ih _ (apply_layouts pm op hl ho) h

/-- The graphics index after the body of the loop at family `i`. -/
theorem step_graphics (q : QueueFamily) (i : Nat) (indices : QueueFamilyIndices) :
    (findQueueFamiliesStep q i indices).graphicsFamily
      = if q.graphics = true then some (i % 2 ^ 32) else indices.graphicsFamily := by
  unfold findQueueFamiliesStep
  cases q.graphics <;> cases q.present <;> rfl

/-- The present index after the body of the loop at family `i`. -/
theorem step_present (q : QueueFamily) (i : Nat) (indices : QueueFamilyIndices) :
    (findQueueFamiliesStep q i indices).presentFamily
      = if q.present = true then some (i % 2 ^ 32) else indices.presentFamily := by
  unfold findQueueFamiliesStep
  cases q.graphics <;> cases q.present <;> rfl

/-- The loop ends complete exactly when each capability was already found or is found
among the families it runs over. -/
theorem findLoop_complete (l : List QueueFamily) (i : Nat) (indices : QueueFamilyIndices) :
    (findQueueFamiliesLoop l i indices).isComplete = true ↔
      (indices.graphicsFamily.isSome = true ∨ ∃ q ∈ l, q.graphics = true) ∧
      (indices.presentFamily.isSome = true ∨ ∃ q ∈ l, q.present = true) := by
  induction l generalizing i indices with
  | nil => simp [findQueueFamiliesLoop, QueueFamilyIndices.isComplete]
  | cons q rest ih =>
    simp only [findQueueFamiliesLoop]
    by_cases hc : (findQueueFamiliesStep q i indices).isComplete = true
    · rw [if_pos hc]
      have hc' := hc
      simp only [QueueFamilyIndices.isComplete, step_graphics, step_present,
        Bool.and_eq_true] at hc'
      refine ⟨fun _ => ?_, fun _ => hc⟩
      cases hg : q.graphics <;> cases hp : q.present <;> simp_all
    · rw [if_neg hc, ih, step_graphics, step_present]
      simp only [QueueFamilyIndices.isComplete, step_graphics, step_present,
        Bool.and_eq_true] at hc
      cases hg : q.graphics <;> cases hp : q.present <;> simp_all

/-- A graphics index the loop leaves was there before or is the number of a family with
graphics support. -/
theorem findLoop_graphics (l : List QueueFamily) (i : Nat) (indices : QueueFamilyIndices)
    (j : Nat) (h : (findQueueFamiliesLoop l i indices).graphicsFamily = some j) :
    indices.graphicsFamily = some j ∨
      ∃ k q, l[k]? = some q ∧ j = (i + k) % 2 ^ 32 ∧ q.graphics = true := by
  induction l generalizing i indices with
  | nil => exact Or.inl h
  | cons q rest ih =>
    have key : (findQueueFamiliesStep q i indices).graphicsFamily = some j →
        indices.graphicsFamily = some j ∨
          ∃ k q', (q :: rest)[k]? = some q' ∧ j = (i + k) % 2 ^ 32 ∧ q'.graphics = true := by
      intro hj
      rw [step_graphics] at hj
      cases hg : q.graphics
      · simp [hg] at hj; exact Or.inl hj
      · simp [hg] at hj; exact Or.inr ⟨0, q, by simp, by simpa using hj.symm, hg⟩
    simp only [findQueueFamiliesLoop] at h
    by_cases hc : (findQueueFamiliesStep q i indices).isComplete = true
    · rw [if_pos hc] at h; exact key h
    · rw [if_neg hc] at h
      rcases ih _ _ h with h1 | ⟨k, q', hk, hj, hq⟩
      · exact key h1
      · exact Or.inr ⟨k + 1, q', by simpa using hk, by rw [hj]; congr 1; omega, hq⟩

/-- A present index the loop leaves was there before or is the number of a family that can
present. -/
theorem findLoop_present (l : List QueueFamily) (i : Nat) (indices : QueueFamilyIndices)
    (j : Nat) (h : (findQueueFamiliesLoop l i indices).presentFamily = some j) :
    indices.presentFamily = some j ∨
      ∃ k q, l[k]? = some q ∧ j = (i + k) % 2 ^ 32 ∧ q.present = true := by
  induction l generalizing i indices with
  | nil => exact Or.inl h
  | cons q rest ih =>
    have key : (findQueueFamiliesStep q i indices).presentFamily = some j →
        indices.presentFamily = some j ∨
          ∃ k q', (q :: rest)[k]? = some q' ∧ j = (i + k) % 2 ^ 32 ∧ q'.present = true := by
      intro hj
      rw [step_present] at hj
      cases hp : q.present
      · simp [hp] at hj; exact Or.inl hj
      · simp [hp] at hj; exact Or.inr ⟨0, q, by simp, by simpa using hj.symm, hp⟩
    simp only [findQueueFamiliesLoop] at h
    by_cases hc : (findQueueFamiliesStep q i indices).isComplete = true
    · rw [if_pos hc] at h; exact key h
    · rw [if_neg hc] at h
      rcases ih _ _ h with h1 | ⟨k, q', hk, hj, hq⟩
      · exact key h1
      · exact Or.inr ⟨k + 1, q', by simpa using hk, by rw [hj]; congr 1; omega, hq⟩

/-- The loop when no creation call from slot `i` on fails. -/
theorem createLoop_ok (env : SyncEnv) (count i : Nat) (sync : Synchronization)
    (calls : List SyncCall)
    (h : ∀ k, i ≤ k → k < i + count → env.imageAvailableResult k = VK_SUCCESS ∧
      env.renderFinishedResult k = VK_SUCCESS ∧ env.fenceResult k = VK_SUCCESS) :
    (Synchronization.createLoop env count i sync calls).outcome = .returned ∧
    (Synchronization.createLoop env count i sync calls).calls
      = calls ++ (List.range' i count).flatMap slotCreation ∧
    (Synchronization.createLoop env count i sync calls).sync.imageAvailableSemaphores.length
      = sync.imageAvailableSemaphores.length ∧
    (Synchronization.createLoop env count i sync calls).sync.renderFinishedSemaphores.length
      = sync.renderFinishedSemaphores.length ∧
    (Synchronization.createLoop env count i sync calls).sync.inFlightFences.length
      = sync.inFlightFences.length ∧
    (∀ j, j < sync.imageAvailableSemaphores.length →
      (Synchronization.createLoop env count i sync calls).sync.imageAvailableSemaphores[j]?
        = if i ≤ j ∧ j < i + count then some (some (.imageAvailable j))
          else sync.imageAvailableSemaphores[j]?) ∧
    (∀ j, j < sync.renderFinishedSemaphores.length →
      (Synchronization.createLoop env count i sync calls).sync.renderFinishedSemaphores[j]?
        = if i ≤ j ∧ j < i + count then some (some (.renderFinished j))
          else sync.renderFinishedSemaphores[j]?) ∧
    (∀ j, j < sync.inFlightFences.length →
      (Synchronization.createLoop env count i sync calls).sync.inFlightFences[j]?
        = if i ≤ j ∧ j < i + count then some (some .signaled)
          else sync.inFlightFences[j]?) := by
  induction count generalizing i sync calls with
  | zero =>
    refine ⟨rfl, by simp [Synchronization.createLoop], rfl, rfl, rfl, ?_, ?_, ?_⟩ <;>
      intro j _ <;> rw [if_neg (by omega)] <;> rfl
  | succ count ih =>
    obtain ⟨h1, h2, h3⟩ := h i (le_refl _) (by omega)
    simp only [Synchronization.createLoop, h1, h2, h3, ne_eq, not_true_eq_false, if_false]
    obtain ⟨r1, r2, r3, r4, r5, r6, r7, r8⟩ := ih (i + 1)
      { imageAvailableSemaphores := sync.imageAvailableSemaphores.set i (some (.imageAvailable i))
        renderFinishedSemaphores :=
          sync.renderFinishedSemaphores.set i (some (.renderFinished i))
        inFlightFences :=
          sync.inFlightFences.set i (some (fenceCreatedWith VK_FENCE_CREATE_SIGNALED_BIT))
        maxFramesInFlight := sync.maxFramesInFlight }
      (calls ++ [.createSemaphore (.imageAvailable i)] ++ [.createSemaphore (.renderFinished i)]
        ++ [.createFence VK_FENCE_CREATE_SIGNALED_BIT i])
      (fun k hk1 hk2 => h k (by omega) (by omega))
    refine ⟨r1, ?_, ?_, ?_, ?_, fun j hj => ?_, fun j hj => ?_, fun j hj => ?_⟩
    · rw [r2]; simp [List.range'_succ, slotCreation]
    · rw [r3]; simp
    · rw [r4]; simp
    · rw [r5]; simp
    · rw [r6 j (by simpa using hj), List.getElem?_set]
      by_cases hij : i = j
      · subst hij; simp [hj]
      · have : (i ≤ j ∧ j < i + (count + 1)) ↔ (i + 1 ≤ j ∧ j < i + 1 + count) := by omega
        simp only [hij, if_false, this]
    · rw [r7 j (by simpa using hj), List.getElem?_set]
      by_cases hij : i = j
      · subst hij; simp [hj]
      · have : (i ≤ j ∧ j < i + (count + 1)) ↔ (i + 1 ≤ j ∧ j < i + 1 + count) := by omega
        simp only [hij, if_false, this]
    · rw [r8 j (by simpa using hj), List.getElem?_set]
      by_cases hij : i = j
      · subst hij; simp [hj, fenceCreatedWith, VK_FENCE_CREATE_SIGNALED_BIT]
      · have : (i ≤ j ∧ j < i + (count + 1)) ↔ (i + 1 ≤ j ∧ j < i + 1 + count) := by omega
        simp only [hij, if_false, this]

/-- The loop throws when a creation call from slot `i` on fails. -/
theorem createLoop_fails (env : SyncEnv) (count i : Nat) (sync : Synchronization)
    (calls : List SyncCall)
    (h : ∃ k, i ≤ k ∧ k < i + count ∧ (env.imageAvailableResult k ≠ VK_SUCCESS ∨
      env.renderFinishedResult k ≠ VK_SUCCESS ∨ env.fenceResult k ≠ VK_SUCCESS)) :
    (Synchronization.createLoop env count i sync calls).outcome
      = .threw "failed to create synchronization objects for a frame!" := by
  induction count generalizing i sync calls with
  | zero => obtain ⟨k, h1, h2, _⟩ := h; omega
  | succ count ih =>
    simp only [Synchronization.createLoop]
    by_cases h1 : env.imageAvailableResult i = VK_SUCCESS
    swap
    · simp [h1]
    by_cases h2 : env.renderFinishedResult i = VK_SUCCESS
    swap
    · simp [h1, h2]
    by_cases h3 : env.fenceResult i = VK_SUCCESS
    swap
    · simp [h1, h2, h3]
    simp only [h1, h2, h3, ne_eq, not_true_eq_false, if_false]
    apply ih
    obtain ⟨k, hk1, hk2, hk3⟩ := h
    refine ⟨k, ?_, by omega, hk3⟩
    by_contra hlt
    have : k = i := by omega
    subst this
    simp [h1, h2, h3] at hk3

/-- A tick leaves the pipeline registry of the application as it is. -/
theorem render_pipelineManager (app : Application) (env : TickEnv) :
    (render app env).app.pipelineManager = app.pipelineManager := by
  have hp := render_path app env
  generalize render app env = r at hp ⊢
  cases hp <;> rfl

/-! ## Surface, teardown, presets and device selection: claims C21 to C30 -/

/-- Claim C21 on the code, with the surface modelled from the spec: the surface holds render
pass 31 when "basic" is built; a first tick finds the surface out of date at acquire and
recreates it, after which it holds render pass 32; the next tick binds the pipeline that is
registered as "basic", which is still the one built against render pass 31. -/
theorem stale_pipeline_bound_after_recreate :
    basicPipeline.configInfo.renderPass = (SwapChain.mk 31).renderPass ∧
    Call.recreate ∈ (render (Application.init 2 basicPipeline)
      { TickEnv.ok 0 with acquireResult := VK_ERROR_OUT_OF_DATE_KHR }).calls ∧
    ((SwapChain.mk 31).after (render (Application.init 2 basicPipeline)
      { TickEnv.ok 0 with acquireResult := VK_ERROR_OUT_OF_DATE_KHR }).calls).renderPass = 32 ∧
    ((render (Application.init 2 basicPipeline)
      { TickEnv.ok 0 with acquireResult := VK_ERROR_OUT_OF_DATE_KHR }).app.pipelineManager.map
        fun pm => pm.getPipeline "basic") = some (.ok basicPipeline) ∧
    Call.bindPipeline 0 basicPipeline.graphicsPipeline
      ∈ (render (render (Application.init 2 basicPipeline)
          { TickEnv.ok 0 with acquireResult := VK_ERROR_OUT_OF_DATE_KHR }).app
          (TickEnv.ok 0)).calls ∧
    basicPipeline.configInfo.renderPass = 31 := by
  refine ⟨rfl, by decide, by decide, rfl, by decide, rfl⟩

/-- Claim C22 on the code: with two slots, a first tick that submits and whose present
reports a lost surface throws; `run` is left past its wait, and the teardown destroys the
semaphores and fences right after the submission and the present, before any wait for the
device.  When the same tick presents without error, `run` waits before the teardown. -/
theorem teardown_after_throw_skips_wait :
    (mainRun (Application.init 2 samplePipeline)
      [{ TickEnv.ok 0 with presentResult := VK_ERROR_SURFACE_LOST_KHR }]).outcome
        = .threw "Failed to present swap chain image!" ∧
    (mainRun (Application.init 2 samplePipeline)
      [{ TickEnv.ok 0 with presentResult := VK_ERROR_SURFACE_LOST_KHR }]).events.drop 14
        = [.call (.queueSubmit (submitInfoFor 0 0) 0),
           .call (.queuePresent (presentInfoFor 0 0)),
           .destroySemaphore (.renderFinished 0), .destroySemaphore (.imageAvailable 0),
           .destroyFence 0,
           .destroySemaphore (.renderFinished 1), .destroySemaphore (.imageAvailable 1),
           .destroyFence 1,
           .destroyPipelineManager, .destroyVertexBuffer, .destroyIndexBuffer,
           .deviceWaitIdle, .destroyContext, .destroyWindow] ∧
    destroyedWhileBusy false (mainRun (Application.init 2 samplePipeline)
      [{ TickEnv.ok 0 with presentResult := VK_ERROR_SURFACE_LOST_KHR }]).events = true ∧
    destroyedWhileBusy false (mainRun (Application.init 2 samplePipeline)
      [TickEnv.ok 0]).events = false := by
  decide

/-- Claim C23: for every N, when no creation call fails the constructor returns with exactly N
acquire semaphores, N present semaphores and N fences, every fence created with the signaled
flag and so in the signaled state, the creation calls being those of slots 0 to N-1 in
order; and when the creation of a semaphore or fence of one of the N slots fails, the
constructor throws. -/
theorem synchronization_create (N : Nat) (env : SyncEnv) :
    ((∀ i, i < N → env.imageAvailableResult i = VK_SUCCESS ∧
        env.renderFinishedResult i = VK_SUCCESS ∧ env.fenceResult i = VK_SUCCESS) →
      (Synchronization.create N env).outcome = .returned ∧
      (Synchronization.create N env).calls = (List.range N).flatMap slotCreation ∧
      (Synchronization.create N env).sync.imageAvailableSemaphores
        = (List.range N).map (fun i => some (Semaphore.imageAvailable i)) ∧
      (Synchronization.create N env).sync.renderFinishedSemaphores
        = (List.range N).map (fun i => some (Semaphore.renderFinished i)) ∧
      (Synchronization.create N env).sync.inFlightFences
        = List.replicate N (some FenceState.signaled) ∧
      (∀ i, i < N → (Synchronization.create N env).sync.inFlightFences[i]?
        = some (some (createdFences i)))) ∧
    ((∃ i, i < N ∧ (env.imageAvailableResult i ≠ VK_SUCCESS ∨
        env.renderFinishedResult i ≠ VK_SUCCESS ∨ env.fenceResult i ≠ VK_SUCCESS)) →
      (Synchronization.create N env).outcome
        = .threw "failed to create synchronization objects for a frame!") := by
  constructor
  · intro h
    obtain ⟨r1, r2, r3, r4, r5, r6, r7, r8⟩ := createLoop_ok env N 0
      { imageAvailableSemaphores := List.replicate N none
        renderFinishedSemaphores := List.replicate N none
        inFlightFences := List.replicate N none
        maxFramesInFlight := N } [] (fun k _ hk => h k (by omega))
    simp only [List.length_replicate] at r3 r4 r5 r6 r7 r8
    have hf : (Synchronization.create N env).sync.inFlightFences
        = List.replicate N (some FenceState.signaled) := by
      apply List.ext_getElem?
      intro j
      by_cases hj : j < N
      · rw [show (Synchronization.create N env).sync.inFlightFences[j]? = _ from r8 j hj]
        simp [hj, List.getElem?_replicate]
      · rw [List.getElem?_eq_none (by
          rw [show (Synchronization.create N env).sync.inFlightFences.length = N from r5]
          omega)]
        simp [List.getElem?_replicate, hj]
    refine ⟨r1, ?_, ?_, ?_, hf, fun i hi => ?_⟩
    · rw [show (Synchronization.create N env).calls = _ from r2, List.range_eq_range']
      simp
    · apply List.ext_getElem?
      intro j
      by_cases hj : j < N
      · rw [show (Synchronization.create N env).sync.imageAvailableSemaphores[j]? = _
          from r6 j hj]
        simp [hj, List.getElem?_range]
      · rw [List.getElem?_eq_none (by
          rw [show (Synchronization.create N env).sync.imageAvailableSemaphores.length = N
            from r3]
          omega), List.getElem?_eq_none (by simp; omega)]
    · apply List.ext_getElem?
      intro j
      by_cases hj : j < N
      · rw [show (Synchronization.create N env).sync.renderFinishedSemaphores[j]? = _
          from r7 j hj]
        simp [hj, List.getElem?_range]
      · rw [List.getElem?_eq_none (by
          rw [show (Synchronization.create N env).sync.renderFinishedSemaphores.length = N
            from r4]
          omega), List.getElem?_eq_none (by simp; omega)]
    · rw [hf]; simp [List.getElem?_replicate, hi, createdFences]
  · rintro ⟨i, hi, hf⟩
    exact createLoop_fails env N 0 _ _ ⟨i, by omega, by omega, hf⟩

/-- Witness for claim C23: two slots with no failure, and two slots of which the second
fails at its fence. -/
theorem synchronization_create_witness :
    ((Synchronization.create 2 SyncEnv.ok).outcome = .returned ∧
      (Synchronization.create 2 SyncEnv.ok).calls = (List.range 2).flatMap slotCreation ∧
      (Synchronization.create 2 SyncEnv.ok).sync.imageAvailableSemaphores
        = (List.range 2).map (fun i => some (Semaphore.imageAvailable i)) ∧
      (Synchronization.create 2 SyncEnv.ok).sync.renderFinishedSemaphores
        = (List.range 2).map (fun i => some (Semaphore.renderFinished i)) ∧
      (Synchronization.create 2 SyncEnv.ok).sync.inFlightFences
        = List.replicate 2 (some FenceState.signaled) ∧
      (∀ i, i < 2 → (Synchronization.create 2 SyncEnv.ok).sync.inFlightFences[i]?
        = some (some (createdFences i)))) ∧
    (Synchronization.create 2
      { SyncEnv.ok with fenceResult := fun i => if i = 1 then VK_ERROR_DEVICE_LOST
          else VK_SUCCESS }).outcome
        = .threw "failed to create synchronization objects for a frame!" :=
  ⟨(synchronization_create 2 SyncEnv.ok).1 (fun _ _ => ⟨rfl, rfl, rfl⟩),
   (synchronization_create 2
      { SyncEnv.ok with fenceResult := fun i => if i = 1 then VK_ERROR_DEVICE_LOST
          else VK_SUCCESS }).2 ⟨1, by decide, Or.inr (Or.inr (by decide))⟩⟩

/-- Claim C24: the default preset has blending disabled and writes all four color channels,
has the depth test and the depth write enabled with compare-op LESS, culls back faces, fills
polygons, uses the triangle-list topology and one sample per pixel. -/
theorem default_preset_state :
    PipelineManager.getDefaultConfig = Pipeline.defaultPipelineConfigInfo ∧
    PipelineManager.getDefaultConfig.colorBlendAttachment.blendEnable = VK_FALSE ∧
    PipelineManager.getDefaultConfig.colorBlendAttachment.colorWriteMask
      = VK_COLOR_COMPONENT_R_BIT ||| VK_COLOR_COMPONENT_G_BIT ||| VK_COLOR_COMPONENT_B_BIT |||
        VK_COLOR_COMPONENT_A_BIT ∧
    PipelineManager.getDefaultConfig.colorBlendAttachment.colorWriteMask = 15 ∧
    PipelineManager.getDefaultConfig.depthStencilInfo.depthTestEnable = VK_TRUE ∧
    PipelineManager.getDefaultConfig.depthStencilInfo.depthWriteEnable = VK_TRUE ∧
    PipelineManager.getDefaultConfig.depthStencilInfo.depthCompareOp = VK_COMPARE_OP_LESS ∧
    PipelineManager.getDefaultConfig.rasterizationInfo.cullMode = VK_CULL_MODE_BACK_BIT ∧
    PipelineManager.getDefaultConfig.rasterizationInfo.polygonMode = VK_POLYGON_MODE_FILL ∧
    PipelineManager.getDefaultConfig.inputAssemblyInfo.topology
      = VK_PRIMITIVE_TOPOLOGY_TRIANGLE_LIST ∧
    PipelineManager.getDefaultConfig.multisampleInfo.rasterizationSamples
      = VK_SAMPLE_COUNT_1_BIT := by
  refine ⟨rfl, rfl, rfl, rfl, rfl, rfl, rfl, rfl, rfl, rfl, rfl⟩

/-- Claim C25: the UI preset has culling disabled and alpha blending enabled with source
color factor src-alpha, destination color factor one-minus-src-alpha and color op add, and
it is the default preset with exactly these values put in: every other member equals the
default preset's. -/
theorem ui_preset_state :
    PipelineManager.getUIConfig.rasterizationInfo.cullMode = VK_CULL_MODE_NONE ∧
    PipelineManager.getUIConfig.colorBlendAttachment.blendEnable = VK_TRUE ∧
    PipelineManager.getUIConfig.colorBlendAttachment.srcColorBlendFactor
      = VK_BLEND_FACTOR_SRC_ALPHA ∧
    PipelineManager.getUIConfig.colorBlendAttachment.dstColorBlendFactor
      = VK_BLEND_FACTOR_ONE_MINUS_SRC_ALPHA ∧
    PipelineManager.getUIConfig.colorBlendAttachment.colorBlendOp = VK_BLEND_OP_ADD ∧
    PipelineManager.getUIConfig =
      { PipelineManager.getDefaultConfig with
        rasterizationInfo := { PipelineManager.getDefaultConfig.rasterizationInfo with
          cullMode := VK_CULL_MODE_NONE }
        colorBlendAttachment := { PipelineManager.getDefaultConfig.colorBlendAttachment with
          blendEnable := VK_TRUE
          srcColorBlendFactor := VK_BLEND_FACTOR_SRC_ALPHA
          dstColorBlendFactor := VK_BLEND_FACTOR_ONE_MINUS_SRC_ALPHA } } := by
  refine ⟨rfl, rfl, rfl, rfl, rfl, ?_⟩
  decide

/-- Claim C26: the transparent preset has alpha blending enabled with factors src-alpha and
one-minus-src-alpha and op add, the depth test enabled and the depth write disabled, and the
particle preset equals the transparent preset as a whole. -/
theorem transparent_preset_state :
    PipelineManager.getTransparentConfig.colorBlendAttachment.blendEnable = VK_TRUE ∧
    PipelineManager.getTransparentConfig.colorBlendAttachment.srcColorBlendFactor
      = VK_BLEND_FACTOR_SRC_ALPHA ∧
    PipelineManager.getTransparentConfig.colorBlendAttachment.dstColorBlendFactor
      = VK_BLEND_FACTOR_ONE_MINUS_SRC_ALPHA ∧
    PipelineManager.getTransparentConfig.colorBlendAttachment.colorBlendOp = VK_BLEND_OP_ADD ∧
    PipelineManager.getTransparentConfig.depthStencilInfo.depthTestEnable = VK_TRUE ∧
    PipelineManager.getTransparentConfig.depthStencilInfo.depthWriteEnable = VK_FALSE ∧
    PipelineManager.getParticleConfig = PipelineManager.getTransparentConfig := by
  refine ⟨rfl, rfl, rfl, rfl, rfl, rfl, rfl⟩

/-- Claim C27: in each of the four presets (default, UI, transparent, particle) the list of
dynamic states is exactly viewport, scissor, and the count recorded in `dynamicStateInfo`
is the length of that list, 2. -/
theorem presets_dynamic_states :
    (PipelineManager.getDefaultConfig.dynamicStates
        = [VK_DYNAMIC_STATE_VIEWPORT, VK_DYNAMIC_STATE_SCISSOR] ∧
      PipelineManager.getDefaultConfig.dynamicStateInfo.dynamicStateCount
        = PipelineManager.getDefaultConfig.dynamicStates.length ∧
      PipelineManager.getDefaultConfig.dynamicStateInfo.dynamicStateCount = 2) ∧
    (PipelineManager.getUIConfig.dynamicStates
        = [VK_DYNAMIC_STATE_VIEWPORT, VK_DYNAMIC_STATE_SCISSOR] ∧
      PipelineManager.getUIConfig.dynamicStateInfo.dynamicStateCount
        = PipelineManager.getUIConfig.dynamicStates.length ∧
      PipelineManager.getUIConfig.dynamicStateInfo.dynamicStateCount = 2) ∧
    (PipelineManager.getTransparentConfig.dynamicStates
        = [VK_DYNAMIC_STATE_VIEWPORT, VK_DYNAMIC_STATE_SCISSOR] ∧
      PipelineManager.getTransparentConfig.dynamicStateInfo.dynamicStateCount
        = PipelineManager.getTransparentConfig.dynamicStates.length ∧
      PipelineManager.getTransparentConfig.dynamicStateInfo.dynamicStateCount = 2) ∧
    (PipelineManager.getParticleConfig.dynamicStates
        = [VK_DYNAMIC_STATE_VIEWPORT, VK_DYNAMIC_STATE_SCISSOR] ∧
      PipelineManager.getParticleConfig.dynamicStateInfo.dynamicStateCount
        = PipelineManager.getParticleConfig.dynamicStates.length ∧
      PipelineManager.getParticleConfig.dynamicStateInfo.dynamicStateCount = 2) := by
  decide

/-- Claim C28 fails on the code: `rateDeviceSuitability` gives the positive score 16384 to a
device that `isDeviceSuitable` rejects (no family presents, no swap-chain extension), and
`pickPhysicalDevice` selects it; and it gives 0 to a device that `isDeviceSuitable` accepts
and that has no geometry shaders. -/
theorem rateDeviceSuitability_ignores_suitability :
    rateDeviceSuitability headlessDevice = 16384 ∧
    isDeviceSuitable 5 [VK_KHR_SWAPCHAIN_EXTENSION_NAME] headlessDevice = .ok false ∧
    pickPhysicalDevice [headlessDevice] = .ok headlessDevice ∧
    rateDeviceSuitability plainDevice = 0 ∧
    isDeviceSuitable 5 [VK_KHR_SWAPCHAIN_EXTENSION_NAME] plainDevice = .ok true :=
  ⟨by decide, rfl, rfl, by decide, rfl⟩

/-- Claim C29: on a context with a surface, for every list of queue families of a device (as
many as the `int` counter can number), `findQueueFamilies` returns indices that are complete
exactly when some family of the list supports graphics and some family of the list supports
presentation to the surface; and an index it has set is the position of a family with that
capability. -/
theorem findQueueFamilies_complete_iff (surface : Nat) (device : PhysicalDevice)
    (hsurface : surface ≠ VK_NULL_HANDLE) (hcount : device.queueFamilies.length < 2 ^ 31) :
    ∃ indices, findQueueFamilies surface device = .ok indices ∧
      (indices.isComplete = true ↔
        (∃ q ∈ device.queueFamilies, q.queueFlags &&& VK_QUEUE_GRAPHICS_BIT ≠ 0) ∧
        (∃ q ∈ device.queueFamilies, q.presentSupport ≠ 0)) ∧
      (∀ i, indices.graphicsFamily = some i →
        ∃ q, device.queueFamilies[i]? = some q ∧ q.queueFlags &&& VK_QUEUE_GRAPHICS_BIT ≠ 0) ∧
      (∀ i, indices.presentFamily = some i →
        ∃ q, device.queueFamilies[i]? = some q ∧ q.presentSupport ≠ 0) := by
  refine ⟨findQueueFamiliesLoop device.queueFamilies 0 {}, by simp [findQueueFamilies, hsurface],
    ?_, fun i hi => ?_, fun i hi => ?_⟩
  · rw [findLoop_complete]
    simp [QueueFamily.graphics, QueueFamily.present]
  · rcases findLoop_graphics _ _ _ _ hi with h0 | ⟨k, q, hk, hj, hq⟩
    · simp at h0
    · have hlt : k < device.queueFamilies.length := by
        by_contra hge
        rw [List.getElem?_eq_none (by omega)] at hk
        simp at hk
      have : i = k := by rw [hj, Nat.zero_add]; exact Nat.mod_eq_of_lt (by omega)
      exact ⟨q, by rw [this]; exact hk, by simpa [QueueFamily.graphics] using hq⟩
  · rcases findLoop_present _ _ _ _ hi with h0 | ⟨k, q, hk, hj, hq⟩
    · simp at h0
    · have hlt : k < device.queueFamilies.length := by
        by_contra hge
        rw [List.getElem?_eq_none (by omega)] at hk
        simp at hk
      have : i = k := by rw [hj, Nat.zero_add]; exact Nat.mod_eq_of_lt (by omega)
      exact ⟨q, by rw [this]; exact hk, by simpa [QueueFamily.present] using hq⟩

/-- Witness for claim C29: graphics is found at family 1 and presentation at family 2. -/
theorem findQueueFamilies_complete_iff_witness :
    findQueueFamilies 5 splitDevice = .ok { graphicsFamily := some 1, presentFamily := some 2 } ∧
    ∃ indices, findQueueFamilies 5 splitDevice = .ok indices ∧
      (indices.isComplete = true ↔
        (∃ q ∈ splitDevice.queueFamilies, q.queueFlags &&& VK_QUEUE_GRAPHICS_BIT ≠ 0) ∧
        (∃ q ∈ splitDevice.queueFamilies, q.presentSupport ≠ 0)) ∧
      (∀ i, indices.graphicsFamily = some i →
        ∃ q, splitDevice.queueFamilies[i]? = some q ∧
          q.queueFlags &&& VK_QUEUE_GRAPHICS_BIT ≠ 0) ∧
      (∀ i, indices.presentFamily = some i →
        ∃ q, splitDevice.queueFamilies[i]? = some q ∧ q.presentSupport ≠ 0) :=
  ⟨rfl, findQueueFamilies_complete_iff 5 splitDevice (by decide) (by decide)⟩

/-- Claim C30: after any sequence of `createPipeline`, `removePipeline`, `clearPipelines` and
`recreatePipelines` calls on a new registry that all returned, the tables `pipelines`,
`pipelineLayouts`, `shaderPaths` and `pipelineConfigs` hold exactly the same names. -/
theorem tables_hold_same_names (ops : List RegistryOp) (name : String)
    (h : (PipelineManager.empty.applyAll ops).outcome = .returned) :
    (name ∈ keys (PipelineManager.empty.applyAll ops).pm.pipelineLayouts ↔
      name ∈ keys (PipelineManager.empty.applyAll ops).pm.pipelines) ∧
    (name ∈ keys (PipelineManager.empty.applyAll ops).pm.shaderPaths ↔
      name ∈ keys (PipelineManager.empty.applyAll ops).pm.pipelines) ∧
    (name ∈ keys (PipelineManager.empty.applyAll ops).pm.pipelineConfigs ↔
      name ∈ keys (PipelineManager.empty.applyAll ops).pm.pipelines) := by
  obtain ⟨_, hp, hcfg⟩ := applyAll_consistent ops PipelineManager.empty empty_consistent h
  have hl := applyAll_layouts ops PipelineManager.empty
    (fun n => by simp [PipelineManager.empty, PipelineManager.hasPipeline]) h
  simp only [← lookup_isSome_iff_mem_keys]
  refine ⟨?_, ?_, ?_⟩
  · rw [hl name]; rfl
  · rw [hp name]; rfl
  · rw [hcfg name]; rfl

/-- Witness for claim C30: two creations, a removal, a recreation and one more creation, after
which every table holds "ui" and "fx" and none holds "basic". -/
theorem tables_hold_same_names_witness :
    (PipelineManager.empty.applyAll
      [.create "basic" "a.vert" "a.frag" PipelineManager.getDefaultConfig (CreateEnv.ok 7),
       .create "ui" "u.vert" "u.frag" PipelineManager.getUIConfig (CreateEnv.ok 8),
       .remove "basic",
       .recreate (fun _ => CreateEnv.ok 9),
       .create "fx" "p.vert" "p.frag" PipelineManager.getParticleConfig
         (CreateEnv.ok 10)]).outcome = .returned ∧
    ("ui" ∈ keys (PipelineManager.empty.applyAll
      [.create "basic" "a.vert" "a.frag" PipelineManager.getDefaultConfig (CreateEnv.ok 7),
       .create "ui" "u.vert" "u.frag" PipelineManager.getUIConfig (CreateEnv.ok 8),
       .remove "basic",
       .recreate (fun _ => CreateEnv.ok 9),
       .create "fx" "p.vert" "p.frag" PipelineManager.getParticleConfig
         (CreateEnv.ok 10)]).pm.pipelineLayouts ↔
     "ui" ∈ keys (PipelineManager.empty.applyAll
      [.create "basic" "a.vert" "a.frag" PipelineManager.getDefaultConfig (CreateEnv.ok 7),
       .create "ui" "u.vert" "u.frag" PipelineManager.getUIConfig (CreateEnv.ok 8),
       .remove "basic",
       .recreate (fun _ => CreateEnv.ok 9),
       .create "fx" "p.vert" "p.frag" PipelineManager.getParticleConfig
         (CreateEnv.ok 10)]).pm.pipelines) ∧
    keys (PipelineManager.empty.applyAll
      [.create "basic" "a.vert" "a.frag" PipelineManager.getDefaultConfig (CreateEnv.ok 7),
       .create "ui" "u.vert" "u.frag" PipelineManager.getUIConfig (CreateEnv.ok 8),
       .remove "basic",
       .recreate (fun _ => CreateEnv.ok 9),
       .create "fx" "p.vert" "p.frag" PipelineManager.getParticleConfig
         (CreateEnv.ok 10)]).pm.pipelines = ["fx", "ui"] :=
  ⟨by decide,
   (tables_hold_same_names
      [.create "basic" "a.vert" "a.frag" PipelineManager.getDefaultConfig (CreateEnv.ok 7),
       .create "ui" "u.vert" "u.frag" PipelineManager.getUIConfig (CreateEnv.ok 8),
       .remove "basic",
       .recreate (fun _ => CreateEnv.ok 9),
       .create "fx" "p.vert" "p.frag" PipelineManager.getParticleConfig (CreateEnv.ok 10)]
      "ui" (by decide)).1,
   by decide⟩

end VulkanGalaxy
